import Mathlib

/-!
# FoodExpress: authorization middleware, listing queries and account operations

A shallow embedding of the decision logic of the FoodExpress REST API
(`middleware/auth.middleware.js`, `routes/*.route.js`, and the controllers of
`controllers/restaurant.controller.js`, `controllers/menu.controller.js` and
`controllers/user.controller.js`).

Modelling conventions

* JavaScript strings are Lean `String`s; `undefined` is `none` of an `Option`.
* JavaScript Numbers holding integers are modelled by `Int`, the results of `parseInt` and of
  the paging arithmetic being rounded to the nearest double (`toNumber`); `NaN` is `none`.
* External collaborators (`jsonwebtoken`, `bcrypt`, the regular-expression engine, the cursor
  pipeline, the Mongoose cast of an id) are fields of `Collaborators`; the document store is an
  explicit `World` threaded through every handler, together with a trace of the collaborator
  calls that were made.
* Prices and the results of `parseFloat` are exact rationals; rounding to a double is not
  modelled.
* Body fields that the schemas declare as `String` are followed when they are JSON strings or
  missing, and those declared as `Number` when they are JSON numbers or missing.
* Mongoose runs the validators declared in `models/*.model.js` on `save` and on updates with
  `runValidators` (there on the paths of the update, before any document is looked for), and
  applies the `trim` setters to saved values, to update values and to query values.
-/

namespace FoodExpress

/-! ## Values -/

/-- JSON values, used for request and response bodies. -/
inductive Json where
  | null
  | bool (b : Bool)
  | num (n : Int)
  | str (s : String)
  | arr (items : List Json)
  | obj (fields : List (String × Json))
  /-- A number with a fraction, such as a price. -/
  | real (q : ℚ)

/-- Mongo `ObjectId`, kept as the hexadecimal text that `toString()` returns. -/
structure ObjectId where
  hex : String
  deriving DecidableEq, Repr

/-- The method `ObjectId.prototype.toString()`. -/
def ObjectId.toString (o : ObjectId) : String := o.hex

/-- A `Users` document (`models/user.model.js`, timestamps left out). `password` is `none`
on a document loaded with `.select('-password')`. -/
structure Identity where
  _id : ObjectId
  username : String
  email : String
  password : Option String
  role : String
  deriving DecidableEq, Repr

/-- A `Restaurant` document (`models/restaurant.model.js`, timestamps left out). -/
structure RestaurantDoc where
  _id : ObjectId
  name : String
  address : String
  phone : String
  opening_hours : String
  deriving DecidableEq, Repr

/-- A `Menu` document (`models/menu.model.js`, timestamps left out). -/
structure MenuDoc where
  _id : ObjectId
  restaurant_id : ObjectId
  name : String
  description : String
  price : ℚ
  category : String
  deriving DecidableEq, Repr

/-- The decoded payload returned by `jwt.verify`; only the fields `loginUser` signs. -/
structure TokenPayload where
  userId : Option String
  email : Option String
  role : Option String
  deriving DecidableEq, Repr

/-- A value of `req.query`: missing, a string, or (with the extended query parser) an array
or object, of which only the `ToString` rendering is kept. -/
inductive QVal where
  | absent
  | text (s : String)
  | nonString (rendered : String)
  deriving DecidableEq, Repr

/-- The request object as far as the middleware and the controllers read it. -/
structure Request where
  /-- Value of `req.headers['authorization']`. -/
  authorization : Option String
  /-- Route parameters `req.params`. -/
  params : List (String × String)
  /-- Parsed query string `req.query`. -/
  query : List (String × QVal)
  /-- Parsed JSON body `req.body`. -/
  body : Json
  /-- The field `req.user`, `undefined` until `authenticateToken` sets it. -/
  user : Option Identity

/-- A response sent with `res.status(status).json(body)`. -/
structure Response where
  status : Nat
  body : Json

/-- The body `{ message: msg }`. -/
def messageBody (msg : String) : Json := Json.obj [("message", Json.str msg)]

/-- Calls made to external collaborators, in the order they happen. -/
inductive Call where
  | jwtVerify (token secret : String)
  | usersFindById (id : Option String)
  | restaurantRead
  | restaurantWrite
  | menuRead
  | menuWrite
  | usersFindOne
  | usersFind
  | usersSave
  | usersFindByIdAndUpdate (id : Option String)
  | usersFindByIdAndDelete (id : Option String)
  | bcryptHash (data : Option String)
  | bcryptCompare
  | jwtSign (payload : TokenPayload)
  deriving DecidableEq, Repr

/-- The document store with the trace of collaborator calls made so far. -/
structure World where
  users : List Identity
  restaurants : List RestaurantDoc
  menus : List MenuDoc
  trace : List Call

/-- Behaviour of the libraries the code calls into. -/
structure Collaborators where
  /-- Value of `process.env.JWT_SECRET`. -/
  envJwtSecret : Option String
  /-- The call `jwt.verify(token, secret)`: `none` when it throws. -/
  jwtVerify : String → String → Option TokenPayload
  /-- Mongoose cast of a string to `ObjectId`: `none` when it throws a `CastError`. -/
  castObjectId : String → Option ObjectId
  /-- A MongoDB `$regex` with `$options: 'i'`: the search predicate the pattern denotes, `none`
  when the pattern is not a valid regular expression and the query is rejected. -/
  regexSearchI : String → Option (String → Bool)
  /-- Mongoose cast of a query value that is an array or object (given by its rendering) for
  the named path, as a predicate on the text of the stored field; `none` when the cast throws. -/
  castNonStringFilter : String → String → Option (String → Bool)
  /-- The cursor pipeline `.sort(sortObject).skip(skip).limit(limit)` over the restaurants that
  match the filter; an error when the server rejects it. -/
  restaurantsCursor : List (String × Int) → Int → Int → List RestaurantDoc →
    Except String (List RestaurantDoc)
  /-- The cursor pipeline `.sort(sortObject).skip(skip).limit(limit)` over the menus that match
  the filter; an error when the server rejects it. -/
  menusCursor : List (String × Int) → Int → Int → List MenuDoc → Except String (List MenuDoc)
  /-- The call `bcrypt.hash(data, saltRounds)` on a string. -/
  bcryptHash : String → Nat → String
  /-- The call `bcrypt.compare(data, encrypted)` on two strings. -/
  bcryptCompare : String → String → Bool
  /-- The call `jwt.sign(payload, secret, { expiresIn })`. -/
  jwtSign : TokenPayload → String → String → String
  /-- The `_id` Mongoose gives a new document. -/
  newObjectId : World → ObjectId

/-- What a middleware or controller did with the request. -/
inductive Outcome where
  /-- The handler called `next()`; the request flows on. -/
  | next (req : Request)
  /-- The handler sent a response and did not call `next`. -/
  | respond (res : Response)
  /-- The handler threw outside any `try` block. -/
  | throws

/-- An Express handler with its effect on the world. -/
abbrev Handler := Request → World → Outcome × World

/-! ## JavaScript string helpers -/

/-- Split a character list at every occurrence of `sep`, as `String.prototype.split` does with
a one-character separator. -/
def splitOnChar (sep : Char) : List Char → List (List Char)
  | [] => [[]]
  | ch :: rest =>
    if ch = sep then [] :: splitOnChar sep rest
    else
      match splitOnChar sep rest with
      | [] => [[ch]]
      | seg :: segs => (ch :: seg) :: segs

/-- The call `s.split(sep)` for a one-character separator. -/
def jsSplit (s : String) (sep : Char) : List String :=
  (splitOnChar sep s.data).map String.mk

/-- Truthiness of a JavaScript value that is a string or `undefined`. -/
def truthy : Option String → Bool
  | none => false
  | some s => s != ""

/-! ## `middleware/auth.middleware.js` -/

/-- The expression `authHeader && authHeader.split(' ')[1]`. -/
def extractToken (authHeader : Option String) : Option String :=
  match authHeader with
  | none => none
  | some h => if h = "" then some "" else (jsSplit h ' ')[1]?

/-- The expression `process.env.JWT_SECRET || 'your-secret-key'`. -/
def jwtSecret (c : Collaborators) : String :=
  if truthy c.envJwtSecret then c.envJwtSecret.getD "" else "your-secret-key"

/-- Projection `.select('-password')`. -/
def selectWithoutPassword (u : Identity) : Identity := { u with password := none }

/-- The query `Users.findById(id).select('-password')`: an error when the id cannot be cast,
`null` when no document has that id. -/
def usersFindById (c : Collaborators) (w : World) (id : Option String) :
    Except String (Option Identity) :=
  match id with
  | none => .ok none
  | some s =>
    match c.castObjectId s with
    | none => .error "CastError"
    | some oid => .ok ((w.users.find? (fun u => u._id = oid)).map selectWithoutPassword)

/-- Append a collaborator call to the trace. -/
def World.log (w : World) (call : Call) : World := { w with trace := w.trace ++ [call] }

/-- Middleware `authenticateToken`. -/
def authenticateToken (c : Collaborators) : Handler := fun req w =>
  let authHeader := req.authorization
  let token := extractToken authHeader
  if !truthy token then
    (.respond ⟨401, messageBody "Token d'accès requis"⟩, w)
  else
    let tok := token.getD ""
    let w1 := w.log (.jwtVerify tok (jwtSecret c))
    match c.jwtVerify tok (jwtSecret c) with
    | none => (.respond ⟨403, messageBody "Token invalide ou expiré"⟩, w1)
    | some decoded =>
      let w2 := w1.log (.usersFindById decoded.userId)
      match usersFindById c w2 decoded.userId with
      | .error _ => (.respond ⟨403, messageBody "Token invalide ou expiré"⟩, w2)
      | .ok none => (.respond ⟨401, messageBody "Token invalide"⟩, w2)
      | .ok (some user) => (.next { req with user := some user }, w2)

/-- Middleware `requireAdmin`. Reading `req.user.role` throws when `req.user` is undefined. -/
def requireAdmin : Handler := fun req w =>
  match req.user with
  | none => (.throws, w)
  | some user =>
    if user.role ≠ "admin" then
      (.respond ⟨403, messageBody "Accès réservé aux administrateurs"⟩, w)
    else (.next req, w)

/-- Middleware `requireOwnershipOrAdmin`. -/
def requireOwnershipOrAdmin : Handler := fun req w =>
  let requestedUserId := req.params.lookup "id"
  match req.user with
  | none => (.throws, w)
  | some user =>
    if user.role = "admin" ∨ some user._id.toString = requestedUserId then
      (.next req, w)
    else
      (.respond ⟨403, messageBody
        "Accès non autorisé. Vous ne pouvez accéder qu'à vos propres données."⟩, w)

/-- Run a route's handlers in order: each one either passes the request on (`next()`), or ends
the chain by responding or throwing. -/
def runChain : List Handler → Request → World → Outcome × World
  | [], req, w => (.next req, w)
  | h :: hs, req, w =>
    match h req w with
    | (.next req1, w1) => runChain hs req1 w1
    | (.respond res, w1) => (.respond res, w1)
    | (.throws, w1) => (.throws, w1)

/-! ## `routes/restaurant.route.js` and `routes/menu.route.js` -/

/-- HTTP methods used by the routers. -/
inductive Method where
  | GET | POST | PUT | DELETE
  deriving DecidableEq, Repr

/-- The exports of `controllers/restaurant.controller.js`. -/
structure RestaurantController where
  createRestaurant : Handler
  getAllRestaurants : Handler
  getRestaurantById : Handler
  updateRestaurant : Handler
  deleteRestaurant : Handler

/-- The exports of `controllers/menu.controller.js`. -/
structure MenuController where
  createMenu : Handler
  getAllMenus : Handler
  getMenuById : Handler
  getMenusByRestaurant : Handler
  updateMenu : Handler
  deleteMenu : Handler

/-- Router of `routes/restaurant.route.js`: the handler chain registered for a method and a
path (given as its segments below `/restaurants`), `none` when no route matches. -/
def restaurantRouter (c : Collaborators) (ctl : RestaurantController) :
    Method → List String → Option (List Handler)
  | .GET, [] => some [ctl.getAllRestaurants]
  | .GET, [_] => some [ctl.getRestaurantById]
  | .POST, [] => some [authenticateToken c, requireAdmin, ctl.createRestaurant]
  | .PUT, [_] => some [authenticateToken c, requireAdmin, ctl.updateRestaurant]
  | .DELETE, [_] => some [authenticateToken c, requireAdmin, ctl.deleteRestaurant]
  | _, _ => none

/-- Router of `routes/menu.route.js`, as `restaurantRouter`. -/
def menuRouter (c : Collaborators) (ctl : MenuController) :
    Method → List String → Option (List Handler)
  | .GET, [] => some [ctl.getAllMenus]
  | .GET, [_] => some [ctl.getMenuById]
  | .GET, ["restaurant", _] => some [ctl.getMenusByRestaurant]
  | .POST, [] => some [authenticateToken c, requireAdmin, ctl.createMenu]
  | .PUT, [_] => some [authenticateToken c, requireAdmin, ctl.updateMenu]
  | .DELETE, [_] => some [authenticateToken c, requireAdmin, ctl.deleteMenu]
  | _, _ => none

/-! ## Pagination and sorting of the listing controllers -/

/-- White space skipped by `parseInt` (the `StrWhiteSpaceChar` production). -/
def isJsWhiteSpace (ch : Char) : Bool :=
  ch.toNat = 0x09 || ch.toNat = 0x0A || ch.toNat = 0x0B || ch.toNat = 0x0C ||
  ch.toNat = 0x0D || ch.toNat = 0x20 || ch.toNat = 0xA0 || ch.toNat = 0x1680 ||
  (0x2000 ≤ ch.toNat && ch.toNat ≤ 0x200A) || ch.toNat = 0x2028 || ch.toNat = 0x2029 ||
  ch.toNat = 0x202F || ch.toNat = 0x205F || ch.toNat = 0x3000 || ch.toNat = 0xFEFF

/-- Value of a character as a digit in the given radix, if it is one. -/
def radixDigit (radix : Nat) (ch : Char) : Option Nat :=
  let v : Option Nat :=
    if '0'.toNat ≤ ch.toNat ∧ ch.toNat ≤ '9'.toNat then some (ch.toNat - '0'.toNat)
    else if 'a'.toNat ≤ ch.toNat ∧ ch.toNat ≤ 'z'.toNat then some (ch.toNat - 'a'.toNat + 10)
    else if 'A'.toNat ≤ ch.toNat ∧ ch.toNat ≤ 'Z'.toNat then some (ch.toNat - 'A'.toNat + 10)
    else none
  v.filter (fun d => d < radix)

/-- Read the longest prefix of radix digits, accumulating its value; the second component
counts the digits read. -/
def readDigits (radix : Nat) : List Char → Nat → Nat → Nat × Nat
  | [], acc, count => (acc, count)
  | ch :: rest, acc, count =>
    match radixDigit radix ch with
    | none => (acc, count)
    | some d => readDigits radix rest (acc * radix + d) (count + 1)

/-- Sign step of `parseInt`: a leading `-` gives sign `-1`; a leading `-` or `+` is removed. -/
def readSign : List Char → Int × List Char
  | '-' :: r => (-1, r)
  | '+' :: r => (1, r)
  | s => (1, s)

/-- Radix step of `parseInt` without a radix argument: a leading `0x` or `0X` is removed and
selects radix 16, otherwise the radix is 10. -/
def readRadixPrefix : List Char → Nat × List Char
  | '0' :: 'x' :: r => (16, r)
  | '0' :: 'X' :: r => (16, r)
  | s => (10, s)

/-- The function `parseInt(string)` with no radix argument, on the characters of the string:
skip white space, read a sign, read a `0x`/`0X` prefix, read the digits; `none` is `NaN`. -/
def parseIntChars (input : List Char) : Option Int :=
  let s := input.dropWhile isJsWhiteSpace
  let signed := readSign s
  let based := readRadixPrefix signed.2
  let z := readDigits based.1 based.2 0 0
  if z.2 = 0 then none else some (signed.1 * (z.1 : Int))

/-- Conversion `ToString` of a query value. -/
def QVal.toJsString : QVal → String
  | .absent => "undefined"
  | .text s => s
  | .nonString rendered => rendered

/-- Truthiness of a query value. -/
def QVal.truthy : QVal → Bool
  | .absent => false
  | .text s => s != ""
  | .nonString _ => true

/-- How many times a magnitude must be halved to fit the 53 bits of the significand of a
Number. -/
def excessBits : Nat → Nat → Nat
  | 0, _ => 0
  | fuel + 1, m => if m < 2 ^ 53 then 0 else excessBits fuel (m / 2) + 1

/-- The Number (IEEE 754 double) that an integer is rounded to, to nearest with ties to the
even significand: integers of magnitude below `2 ^ 53` are kept, larger ones keep their 53
leading bits. Magnitudes of `2 ^ 1024` and more, which become `Infinity`, are not followed. -/
def toNumber (n : Int) : Int :=
  let m := n.natAbs
  let e := excessBits m m
  let q := m / 2 ^ e
  let r := m % 2 ^ e
  let up := decide (2 ^ e < 2 * r) || (decide (2 * r = 2 ^ e) && q % 2 == 1)
  let rounded := (if up then q + 1 else q) * 2 ^ e
  if n < 0 then -(rounded : Int) else (rounded : Int)

/-- The call `parseInt(v)` on a query value: the integer read from the text, as a Number. -/
def parseInt (v : QVal) : Option Int := (parseIntChars v.toJsString.data).map toNumber

/-- The expression `n || dflt` for a Number `n`: `NaN` and `0` are falsy. -/
def numOr (n : Option Int) (dflt : Int) : Int :=
  match n with
  | none => dflt
  | some k => if k = 0 then dflt else k

/-- Property access `req.query[key]`. -/
def queryGet (query : List (String × QVal)) (key : String) : QVal :=
  (query.lookup key).getD .absent

/-- The three pagination constants of a listing controller. -/
structure Paging where
  page : Int
  limit : Int
  skip : Int
  deriving DecidableEq, Repr

/-- Pagination parameters, identical in `getAllRestaurants`, `getAllMenus` and
`getMenusByRestaurant`:
`page = parseInt(req.query.page) || 1`, `limit = parseInt(req.query.limit) || 10`,
`skip = (page - 1) * limit`, the difference and the product being rounded to a Number. -/
def parsePaging (query : List (String × QVal)) : Paging :=
  let page := numOr (parseInt (queryGet query "page")) 1
  let limit := numOr (parseInt (queryGet query "limit")) 10
  let skip := toNumber (toNumber (page - 1) * limit)
  { page := page, limit := limit, skip := skip }

/-- The expression `Math.ceil(total / limit)` for a non-zero `limit`. -/
def mathCeilDiv (total limit : Int) : Int := ⌈(total : ℚ) / (limit : ℚ)⌉

/-- The `pagination` object of a listing response. The field `total` is written under the key
`totalRestaurants` by `getAllRestaurants` and `totalMenus` by the two menu listings. -/
structure PaginationInfo where
  currentPage : Int
  totalPages : Int
  total : Int
  hasNextPage : Bool
  hasPrevPage : Bool
  limit : Int
  deriving DecidableEq, Repr

/-- Pagination metadata built after `countDocuments` returned `total`. -/
def paginationInfo (p : Paging) (total : Int) : PaginationInfo :=
  let totalPages := mathCeilDiv total p.limit
  { currentPage := p.page
    totalPages := totalPages
    total := total
    hasNextPage := decide (p.page < totalPages)
    hasPrevPage := decide (p.page > 1)
    limit := p.limit }

/-- Sort object of a listing controller with the given allow-list and default field:
`sortBy = req.query.sortBy || dflt`, `sortOrder = req.query.sortOrder === 'desc' ? -1 : 1`,
`sortField = allowedSortFields.includes(sortBy) ? sortBy : dflt`, and the object
`{ [sortField]: sortOrder }` as its list of keys with their values. -/
def sortObjectOf (allowedSortFields : List String) (dflt : String)
    (query : List (String × QVal)) : List (String × Int) :=
  let sortBy : QVal :=
    if (queryGet query "sortBy").truthy then queryGet query "sortBy" else .text dflt
  let sortOrder : Int := if queryGet query "sortOrder" = .text "desc" then -1 else 1
  let sortField : String :=
    match sortBy with
    | .text s => if allowedSortFields.contains s then s else dflt
    | _ => dflt
  [(sortField, sortOrder)]

/-- Sort object of `getAllRestaurants`. -/
def getAllRestaurantsSort (query : List (String × QVal)) : List (String × Int) :=
  sortObjectOf ["name", "address", "createdAt"] "name" query

/-- Sort object of `getAllMenus`. -/
def getAllMenusSort (query : List (String × QVal)) : List (String × Int) :=
  sortObjectOf ["name", "price", "category", "createdAt"] "name" query

/-- Sort object of `getMenusByRestaurant`. -/
def getMenusByRestaurantSort (query : List (String × QVal)) : List (String × Int) :=
  sortObjectOf ["name", "price", "category"] "category" query

/-- The sort contract of a listing operation, in the words of the specification: the sort
object has exactly one key; that key is `sortBy` when `sortBy` is a string of the allow-list
and the default otherwise, so it always lies in the allow-list; its direction is `-1` exactly
when `sortOrder` is the string `desc`, and `1` for anything else. -/
def SortContract (allowed : List String) (dflt : String) (query : List (String × QVal))
    (sortObject : List (String × Int)) : Prop :=
  ∃ field dir, sortObject = [(field, dir)] ∧
    (∀ s, queryGet query "sortBy" = .text s → s ∈ allowed → field = s) ∧
    ((∀ s, queryGet query "sortBy" = .text s → s ∉ allowed) → field = dflt) ∧
    field ∈ allowed ∧
    (dir = -1 ↔ queryGet query "sortOrder" = .text "desc") ∧
    (queryGet query "sortOrder" ≠ .text "desc" → dir = 1)

/-! ## JavaScript and JSON helpers for the controllers -/

/-- The method `String.prototype.trim()`. -/
def jsTrim (s : String) : String :=
  String.mk ((s.data.dropWhile isJsWhiteSpace).reverse.dropWhile isJsWhiteSpace).reverse

/-- The property `length` of a string: its number of UTF-16 code units. -/
def jsLength (s : String) : Nat :=
  (s.data.map (fun ch => if ch.toNat < 0x10000 then 1 else 2)).sum

/-- Property read `value[key]` on a parsed JSON value (`undefined` is `none`). -/
def Json.field : Json → String → Option Json
  | .obj fields, key => fields.lookup key
  | _, _ => none

/-- The keys of a JSON object. -/
def Json.keys : Json → List String
  | .obj fields => fields.map Prod.fst
  | _ => []

/-- A field of `req.body` that the models declare as `String`. The embedding follows bodies
whose such fields are JSON strings or missing; a value of another JSON type is read as
missing. -/
def bodyText (body : Json) (key : String) : Option String :=
  match body.field key with
  | some (.str s) => some s
  | _ => none

/-- Whether a field of `req.body` is a JSON string or missing, the values that `bodyText`
follows. -/
def isTextOrMissing (body : Json) (key : String) : Bool :=
  match body.field key with
  | none => true
  | some (.str _) => true
  | some _ => false

/-- Object rest destructuring `const { [key]: _, ...rest } = fields`. -/
def omitKey (key : String) (fields : List (String × Json)) : List (String × Json) :=
  fields.filter (fun kv => kv.1 != key)

mutual
/-- Whether a key occurs in a JSON value, at any depth. -/
def Json.hasKeyDeep (key : String) : Json → Bool
  | .obj fields => Json.hasKeyDeepFields key fields
  | .arr items => Json.hasKeyDeepItems key items
  | _ => false
/-- Whether a key occurs in a list of object fields, at any depth. -/
def Json.hasKeyDeepFields (key : String) : List (String × Json) → Bool
  | [] => false
  | kv :: rest => kv.1 == key || Json.hasKeyDeep key kv.2 || Json.hasKeyDeepFields key rest
/-- Whether a key occurs in a list of array items, at any depth. -/
def Json.hasKeyDeepItems (key : String) : List Json → Bool
  | [] => false
  | item :: rest => Json.hasKeyDeep key item || Json.hasKeyDeepItems key rest
end

/-- Case-insensitive substring containment, as the specification words the text search:
`term` occurs in `subject` once both are put in lower case (ASCII letters). -/
def CiContains (subject term : String) : Prop :=
  term.data.map Char.toLower <:+: subject.data.map Char.toLower

instance (subject term : String) : Decidable (CiContains subject term) := by
  unfold CiContains
  infer_instance

/-! ## Numbers with a fraction: `parseFloat` -/

/-- A JavaScript Number that need not be an integer; finite values are modelled by exact
rationals (rounding to a double is not modelled). -/
inductive JsNum where
  | nan
  | fin (q : ℚ)
  | posInf
  | negInf
  deriving DecidableEq

/-- Value and length of the longest prefix of decimal digits, with the rest of the input. -/
def spanDecimal (s : List Char) : Nat × Nat × List Char :=
  let ds := s.takeWhile (fun ch => (radixDigit 10 ch).isSome)
  ((readDigits 10 ds 0 0).1, ds.length, s.drop ds.length)

/-- The optional `ExponentPart` of a decimal literal: its value and the input left. -/
def readExponent : List Char → Int
  | 'e' :: r | 'E' :: r =>
    let signed := readSign r
    let ds := spanDecimal signed.2
    if ds.2.1 = 0 then 0 else signed.1 * (ds.1 : Int)
  | _ => 0

/-- The function `parseFloat(string)` on the characters of the string: skip white space, then
read the longest prefix that is a `StrDecimalLiteral` (sign, `Infinity` or digits with an
optional fraction and exponent); `NaN` when there is none. -/
def parseFloatChars (input : List Char) : JsNum :=
  let s := input.dropWhile isJsWhiteSpace
  let signed := readSign s
  if "Infinity".data <+: signed.2 then
    (if signed.1 < 0 then .negInf else .posInf)
  else
    let whole := spanDecimal signed.2
    let frac : Nat × Nat × List Char :=
      match whole.2.2 with
      | '.' :: r => spanDecimal r
      | r => (0, 0, r)
    if whole.2.1 = 0 ∧ frac.2.1 = 0 then .nan
    else
      let mantissa : ℚ := (whole.1 : ℚ) + (frac.1 : ℚ) / (10 : ℚ) ^ frac.2.1
      .fin ((signed.1 : ℚ) * mantissa * (10 : ℚ) ^ readExponent frac.2.2)

/-- The call `parseFloat(v)` on a query value. -/
def parseFloat (v : QVal) : JsNum := parseFloatChars v.toJsString.data

/-! ## Filters of the listing controllers and their meaning in the store -/

/-- The object `searchQuery.price` of `getAllMenus`: the optional `$gte` and `$lte` bounds. -/
structure PriceRange where
  gte : Option JsNum
  lte : Option JsNum
  deriving DecidableEq

/-- The `searchQuery` of `getAllRestaurants`: `search` holds the term of the `$or` of
case-insensitive `$regex` conditions on `name` and `address`. -/
structure RestaurantFilter where
  search : Option QVal
  deriving DecidableEq

/-- The `searchQuery` of `getAllMenus` and `getMenusByRestaurant`: `search` holds the term of
the `$or` of case-insensitive `$regex` conditions on `name` and `description`. -/
structure MenuFilter where
  restaurant_id : Option QVal
  category : Option QVal
  price : Option PriceRange
  search : Option QVal
  deriving DecidableEq

/-- A query value when it is truthy, as in `if (req.query.x) searchQuery.x = req.query.x`. -/
def whenTruthy (v : QVal) : Option QVal := if v.truthy then some v else none

/-- The `searchQuery` built by `getAllRestaurants`. -/
def getAllRestaurantsFilter (query : List (String × QVal)) : RestaurantFilter :=
  { search := whenTruthy (queryGet query "search") }

/-- The `searchQuery` built by `getAllMenus`. -/
def getAllMenusFilter (query : List (String × QVal)) : MenuFilter :=
  { restaurant_id := whenTruthy (queryGet query "restaurant_id")
    category := whenTruthy (queryGet query "category")
    price :=
      if (queryGet query "minPrice").truthy || (queryGet query "maxPrice").truthy then
        some
          { gte := if (queryGet query "minPrice").truthy then
              some (parseFloat (queryGet query "minPrice")) else none
            lte := if (queryGet query "maxPrice").truthy then
              some (parseFloat (queryGet query "maxPrice")) else none }
      else none
    search := whenTruthy (queryGet query "search") }

/-- The `searchQuery` built by `getMenusByRestaurant` for the path parameter `restaurantId`. -/
def getMenusByRestaurantFilter (restaurantId : Option String) (query : List (String × QVal)) :
    MenuFilter :=
  { restaurant_id := some (match restaurantId with | some s => .text s | none => .absent)
    category := whenTruthy (queryGet query "category")
    price := none
    search := none }

/-- The comparison `a <= b` of two Numbers; it is false as soon as one of them is `NaN`. -/
def JsNum.le : JsNum → JsNum → Bool
  | .nan, _ => false
  | _, .nan => false
  | .negInf, _ => true
  | _, .posInf => true
  | .fin a, .fin b => decide (a ≤ b)
  | .fin _, .negInf => false
  | .posInf, .fin _ => false
  | .posInf, .negInf => false

/-- Whether a stored price satisfies `{ $gte, $lte }`, each bound applying when present. -/
def priceAdmits (r : PriceRange) (price : ℚ) : Bool :=
  (match r.gte with
    | none => true
    | some bound => JsNum.le bound (.fin price)) &&
  (match r.lte with
    | none => true
    | some bound => JsNum.le (.fin price) bound)

/-- Mongoose cast of the price condition: a `NaN` bound makes the cast throw. -/
def castPrice : Option PriceRange → Except String (ℚ → Bool)
  | none => .ok (fun _ => true)
  | some r =>
    if r.gte = some .nan ∨ r.lte = some .nan then .error "CastError"
    else .ok (priceAdmits r)

/-- Mongoose cast of an equality condition on a `String` path; `setter` is the schema setter of
the path (`trim`), which Mongoose also applies to query values. A stored field is never
`undefined`, so an `undefined` condition admits nothing. -/
def castTextFilter (c : Collaborators) (path : String) (setter : String → String) :
    Option QVal → Except String (String → Bool)
  | none => .ok (fun _ => true)
  | some .absent => .ok (fun _ => false)
  | some (.text s) => .ok (fun stored => stored == setter s)
  | some (.nonString rendered) =>
    match c.castNonStringFilter path rendered with
    | none => .error "CastError"
    | some admits => .ok admits

/-- Mongoose cast of an equality condition on an `ObjectId` path. -/
def castIdFilter (c : Collaborators) (path : String) :
    Option QVal → Except String (ObjectId → Bool)
  | none => .ok (fun _ => true)
  | some .absent => .ok (fun _ => false)
  | some (.text s) =>
    match c.castObjectId s with
    | none => .error "CastError"
    | some oid => .ok (fun stored => stored == oid)
  | some (.nonString rendered) =>
    match c.castNonStringFilter path rendered with
    | none => .error "CastError"
    | some admits => .ok (fun stored => admits stored.toString)

/-- The text condition `{ $regex: term, $options: 'i' }` as a predicate on one field; `none`
when the filter carries no text condition. -/
def castSearch (c : Collaborators) : Option QVal → Except String (Option (String → Bool))
  | none => .ok none
  | some .absent => .ok (some (fun _ => false))
  | some (.text s) =>
    match c.regexSearchI s with
    | none => .error "Regular expression is invalid"
    | some found => .ok (some found)
  | some (.nonString rendered) =>
    match c.castNonStringFilter "$regex" rendered with
    | none => .error "CastError"
    | some admits => .ok (some admits)

/-- The `$or` of the text condition over two fields. -/
def searchAdmits (found : Option (String → Bool)) (first second : String) : Bool :=
  match found with
  | none => true
  | some test => test first || test second

/-- Which restaurants a `searchQuery` admits, or the error raised when it cannot be cast. -/
def castRestaurantFilter (c : Collaborators) (f : RestaurantFilter) :
    Except String (RestaurantDoc → Bool) :=
  match castSearch c f.search with
  | .error e => .error e
  | .ok found => .ok (fun r => searchAdmits found r.name r.address)

/-- Which menus a `searchQuery` admits, or the error raised when it cannot be cast. -/
def castMenuFilter (c : Collaborators) (f : MenuFilter) : Except String (MenuDoc → Bool) :=
  match castIdFilter c "restaurant_id" f.restaurant_id with
  | .error e => .error e
  | .ok byRestaurant =>
    match castTextFilter c "category" jsTrim f.category with
    | .error e => .error e
    | .ok byCategory =>
      match castPrice f.price with
      | .error e => .error e
      | .ok byPrice =>
        match castSearch c f.search with
        | .error e => .error e
        | .ok found =>
          .ok (fun m => byRestaurant m.restaurant_id && byCategory m.category &&
            byPrice m.price && searchAdmits found m.name m.description)

/-- The query `Restaurants.find(searchQuery).sort(sortObject).skip(skip).limit(limit)`. -/
def restaurantsFind (c : Collaborators) (w : World) (f : RestaurantFilter)
    (sortObject : List (String × Int)) (skip limit : Int) : Except String (List RestaurantDoc) :=
  match castRestaurantFilter c f with
  | .error e => .error e
  | .ok admits => c.restaurantsCursor sortObject skip limit (w.restaurants.filter admits)

/-- The query `Restaurants.countDocuments(searchQuery)`. -/
def restaurantsCountDocuments (c : Collaborators) (w : World) (f : RestaurantFilter) :
    Except String Nat :=
  match castRestaurantFilter c f with
  | .error e => .error e
  | .ok admits => .ok (w.restaurants.filter admits).length

/-- The query `Menu.find(searchQuery).sort(sortObject).skip(skip).limit(limit)`. -/
def menusFind (c : Collaborators) (w : World) (f : MenuFilter)
    (sortObject : List (String × Int)) (skip limit : Int) : Except String (List MenuDoc) :=
  match castMenuFilter c f with
  | .error e => .error e
  | .ok admits => c.menusCursor sortObject skip limit (w.menus.filter admits)

/-- The query `Menu.countDocuments(searchQuery)`. -/
def menusCountDocuments (c : Collaborators) (w : World) (f : MenuFilter) : Except String Nat :=
  match castMenuFilter c f with
  | .error e => .error e
  | .ok admits => .ok (w.menus.filter admits).length

/-- The query `Restaurant.findById(id)`. -/
def restaurantsFindById (c : Collaborators) (w : World) (id : Option String) :
    Except String (Option RestaurantDoc) :=
  match id with
  | none => .ok none
  | some s =>
    match c.castObjectId s with
    | none => .error "CastError"
    | some oid => .ok (w.restaurants.find? (fun r => r._id = oid))

/-! ## Response bodies -/

/-- The body `{ message, error }` of a 500 response. -/
def errorBody (msg err : String) : Json :=
  Json.obj [("message", Json.str msg), ("error", Json.str err)]

/-- The fields of a restaurant document as JSON, `_id` first. -/
def restaurantFields (r : RestaurantDoc) : List (String × Json) :=
  [("_id", .str r._id.toString), ("name", .str r.name), ("address", .str r.address),
   ("phone", .str r.phone), ("opening_hours", .str r.opening_hours)]

/-- A restaurant document in a response. -/
def restaurantJson (r : RestaurantDoc) : Json := .obj (restaurantFields r)

/-- The value of `restaurant_id` after `.populate('restaurant_id', select)`: the selected fields
of the referenced restaurant with its `_id`, or `null` when it no longer exists. -/
def populateRestaurant (w : World) (select : List String) (id : ObjectId) : Json :=
  match w.restaurants.find? (fun r => r._id = id) with
  | none => .null
  | some r => .obj ((restaurantFields r).filter (fun kv => kv.1 == "_id" || select.contains kv.1))

/-- A menu document in a response, its restaurant reference populated. -/
def menuJson (w : World) (select : List String) (m : MenuDoc) : Json :=
  .obj [("_id", .str m._id.toString), ("restaurant_id", populateRestaurant w select m.restaurant_id),
    ("name", .str m.name), ("description", .str m.description), ("price", .real m.price),
    ("category", .str m.category)]

/-- The `pagination` object of a listing response; `totalKey` is `totalRestaurants` or
`totalMenus`. -/
def paginationJson (totalKey : String) (info : PaginationInfo) : Json :=
  .obj [("currentPage", .num info.currentPage), ("totalPages", .num info.totalPages),
    (totalKey, .num info.total), ("hasNextPage", .bool info.hasNextPage),
    ("hasPrevPage", .bool info.hasPrevPage), ("limit", .num info.limit)]

/-! ## Listing controllers -/

/-- Controller `getAllRestaurants`. -/
def getAllRestaurants (c : Collaborators) : Handler := fun req w =>
  let paging := parsePaging req.query
  let sortObject := getAllRestaurantsSort req.query
  let searchQuery := getAllRestaurantsFilter req.query
  let w1 := w.log .restaurantRead
  match restaurantsFind c w1 searchQuery sortObject paging.skip paging.limit with
  | .error e =>
    (.respond ⟨500, errorBody "Erreur lors de la récupération des restaurants" e⟩, w1)
  | .ok restaurants =>
    let w2 := w1.log .restaurantRead
    match restaurantsCountDocuments c w2 searchQuery with
    | .error e =>
      (.respond ⟨500, errorBody "Erreur lors de la récupération des restaurants" e⟩, w2)
    | .ok total =>
      (.respond ⟨200, .obj [("message", .str "Restaurants récupérés avec succès"),
        ("restaurants", .arr (restaurants.map restaurantJson)),
        ("pagination", paginationJson "totalRestaurants" (paginationInfo paging total))]⟩, w2)

/-- Controller `getAllMenus`. -/
def getAllMenus (c : Collaborators) : Handler := fun req w =>
  let paging := parsePaging req.query
  let sortObject := getAllMenusSort req.query
  let searchQuery := getAllMenusFilter req.query
  let w1 := w.log .menuRead
  match menusFind c w1 searchQuery sortObject paging.skip paging.limit with
  | .error e => (.respond ⟨500, errorBody "Erreur lors de la récupération des menus" e⟩, w1)
  | .ok menus =>
    let w2 := w1.log .menuRead
    match menusCountDocuments c w2 searchQuery with
    | .error e => (.respond ⟨500, errorBody "Erreur lors de la récupération des menus" e⟩, w2)
    | .ok total =>
      (.respond ⟨200, .obj [("message", .str "Menus récupérés avec succès"),
        ("menus", .arr (menus.map (menuJson w2 ["name", "address", "phone"]))),
        ("pagination", paginationJson "totalMenus" (paginationInfo paging total))]⟩, w2)

/-- Controller `getMenusByRestaurant`. -/
def getMenusByRestaurant (c : Collaborators) : Handler := fun req w =>
  let restaurantId := req.params.lookup "restaurantId"
  let paging := parsePaging req.query
  let sortObject := getMenusByRestaurantSort req.query
  let w1 := w.log .restaurantRead
  match restaurantsFindById c w1 restaurantId with
  | .error e =>
    (.respond ⟨500, errorBody "Erreur lors de la récupération des menus du restaurant" e⟩, w1)
  | .ok none => (.respond ⟨404, messageBody "Restaurant non trouvé"⟩, w1)
  | .ok (some restaurant) =>
    let searchQuery := getMenusByRestaurantFilter restaurantId req.query
    let w2 := w1.log .menuRead
    match menusFind c w2 searchQuery sortObject paging.skip paging.limit with
    | .error e =>
      (.respond ⟨500, errorBody "Erreur lors de la récupération des menus du restaurant" e⟩, w2)
    | .ok menus =>
      let w3 := w2.log .menuRead
      match menusCountDocuments c w3 searchQuery with
      | .error e =>
        (.respond ⟨500, errorBody "Erreur lors de la récupération des menus du restaurant" e⟩,
          w3)
      | .ok total =>
        (.respond ⟨200, .obj [("message", .str "Menus du restaurant récupérés avec succès"),
          ("restaurant", .obj [("id", .str restaurant._id.toString),
            ("name", .str restaurant.name), ("address", .str restaurant.address)]),
          ("menus", .arr (menus.map (menuJson w3 ["name", "address"]))),
          ("pagination", paginationJson "totalMenus" (paginationInfo paging total))]⟩, w3)

/-! ## `controllers/user.controller.js` -/

/-- Message of the `TypeError` raised by reading `req.user.role` when `req.user` is undefined. -/
def undefinedUserError : String := "Cannot read properties of undefined (reading 'role')"

/-- The fields of `user.toObject()`; `password` is there unless the document was loaded with
`.select('-password')`. -/
def identityFields (u : Identity) : List (String × Json) :=
  [("_id", .str u._id.toString), ("username", .str u.username), ("email", .str u.email)] ++
    (match u.password with
      | some hash => [("password", .str hash)]
      | none => []) ++
    [("role", .str u.role)]

/-- A user document in a response. -/
def identityJson (u : Identity) : Json := .obj (identityFields u)

/-- The call `bcrypt.hash(data, saltRounds)`; it throws when `data` is undefined. -/
def bcryptHash (c : Collaborators) (data : Option String) (saltRounds : Nat) :
    Except String String :=
  match data with
  | none => .error "data and salt arguments required"
  | some d => .ok (c.bcryptHash d saltRounds)

/-- The call `bcrypt.compare(data, encrypted)`; it throws when an argument is undefined. -/
def bcryptCompare (c : Collaborators) (data encrypted : Option String) : Except String Bool :=
  match data, encrypted with
  | some d, some e => .ok (c.bcryptCompare d e)
  | _, _ => .error "data and hash arguments required"

/-- The argument of `new Users({ username, email, password, role })`. -/
structure UserDraft where
  username : Option String
  email : Option String
  password : Option String
  role : Option String
  deriving DecidableEq, Repr

/-- Validators of `schemaUsers` on a new document: every path is required (present and not
empty), `username` and `email` have at most 255 code units, `password` between 6 and 255, and
`role` is `user` or `admin`. -/
def UserDraft.valid (d : UserDraft) : Bool :=
  (match d.username with
    | some s => s != "" && decide (jsLength s ≤ 255)
    | none => false) &&
  (match d.email with
    | some s => s != "" && decide (jsLength s ≤ 255)
    | none => false) &&
  (match d.password with
    | some s => s != "" && decide (6 ≤ jsLength s) && decide (jsLength s ≤ 255)
    | none => false) &&
  (match d.role with
    | some s => s == "user" || s == "admin"
    | none => false)

/-- The call `newUser.save()`: validation, then insertion under the unique indexes on
`username` and `email`; the saved document and the new store, or the error thrown. -/
def usersSave (c : Collaborators) (w : World) (d : UserDraft) : Except String (Identity × World) :=
  if !d.valid then .error "Users validation failed"
  else if w.users.any (fun u => some u.username == d.username || some u.email == d.email) then
    .error "E11000 duplicate key error"
  else
    let saved : Identity :=
      { _id := c.newObjectId w, username := d.username.getD "", email := d.email.getD "",
        password := d.password, role := d.role.getD "user" }
    .ok (saved, { w with users := w.users ++ [saved] })

/-- Controller `createUser`. -/
def createUser (c : Collaborators) : Handler := fun req w =>
  let username := bodyText req.body "username"
  let email := bodyText req.body "email"
  let password := bodyText req.body "password"
  let role := bodyText req.body "role"
  let w1 := w.log .usersFindOne
  let existingUser :=
    w1.users.find? (fun u => some u.email == email || some u.username == username)
  match existingUser with
  | some _ =>
    (.respond ⟨400, messageBody
      "Un utilisateur avec cet email ou ce nom d'utilisateur existe déjà"⟩, w1)
  | none =>
    let saltRounds := 10
    let w2 := w1.log (.bcryptHash password)
    match bcryptHash c password saltRounds with
    | .error e =>
      (.respond ⟨500, errorBody "Erreur lors de la création de l'utilisateur" e⟩, w2)
    | .ok hashedPassword =>
      let newUser : UserDraft :=
        { username := username, email := email, password := some hashedPassword,
          role := some (if truthy role then role.getD "" else "user") }
      let w3 := w2.log .usersSave
      match usersSave c w3 newUser with
      | .error e =>
        (.respond ⟨500, errorBody "Erreur lors de la création de l'utilisateur" e⟩, w3)
      | .ok (savedUser, w4) =>
        let userResponse := omitKey "password" (identityFields savedUser)
        (.respond ⟨201, .obj [("message", .str "Utilisateur créé avec succès"),
          ("user", .obj userResponse)]⟩, w4)

/-- Controller `getAllUsers`. -/
def getAllUsers (_c : Collaborators) : Handler := fun req w =>
  match req.user with
  | none =>
    (.respond ⟨500, errorBody "Erreur lors de la récupération des utilisateurs"
      undefinedUserError⟩, w)
  | some subject =>
    if subject.role ≠ "admin" then
      (.respond ⟨403, messageBody "Accès réservé aux administrateurs"⟩, w)
    else
      let w1 := w.log .usersFind
      let users := w1.users.map selectWithoutPassword
      (.respond ⟨200, .obj [("message", .str "Utilisateurs récupérés avec succès"),
        ("users", .arr (users.map identityJson))]⟩, w1)

/-- Controller `getUserById`. -/
def getUserById (c : Collaborators) : Handler := fun req w =>
  let id := req.params.lookup "id"
  match req.user with
  | none =>
    (.respond ⟨500, errorBody "Erreur lors de la récupération de l'utilisateur"
      undefinedUserError⟩, w)
  | some subject =>
    if subject.role ≠ "admin" ∧ some subject._id.toString ≠ id then
      (.respond ⟨403, messageBody
        "Accès non autorisé. Vous ne pouvez accéder qu'à vos propres données."⟩, w)
    else
      let w1 := w.log (.usersFindById id)
      match usersFindById c w1 id with
      | .error e =>
        (.respond ⟨500, errorBody "Erreur lors de la récupération de l'utilisateur" e⟩, w1)
      | .ok none => (.respond ⟨404, messageBody "Utilisateur non trouvé"⟩, w1)
      | .ok (some user) =>
        (.respond ⟨200, .obj [("message", .str "Utilisateur récupéré avec succès"),
          ("user", identityJson user)]⟩, w1)

/-- The object `updateData` of `updateUser`: the paths to set. -/
structure UserPatch where
  username : Option String
  email : Option String
  password : Option String
  role : Option String
  deriving DecidableEq, Repr

/-- Update validators (`runValidators: true`) on the paths being set. -/
def UserPatch.valid (p : UserPatch) : Bool :=
  (match p.username with
    | some s => s != "" && decide (jsLength s ≤ 255)
    | none => true) &&
  (match p.email with
    | some s => s != "" && decide (jsLength s ≤ 255)
    | none => true) &&
  (match p.password with
    | some s => s != "" && decide (6 ≤ jsLength s) && decide (jsLength s ≤ 255)
    | none => true) &&
  (match p.role with
    | some s => s == "user" || s == "admin"
    | none => true)

/-- The document after `$set` of the paths of the patch. -/
def UserPatch.apply (p : UserPatch) (u : Identity) : Identity :=
  { u with
    username := p.username.getD u.username
    email := p.email.getD u.email
    password := match p.password with
      | some hash => some hash
      | none => u.password
    role := p.role.getD u.role }

/-- The query `Users.findByIdAndUpdate(id, updateData, { new: true, runValidators: true })
.select('-password')`: the updated document without its password (`null` when no document has
that id) and the new store, or the error thrown by the cast of the id, the validators or a
unique index. -/
def usersFindByIdAndUpdate (c : Collaborators) (w : World) (id : Option String)
    (patch : UserPatch) : Except String (Option Identity × World) :=
  match id with
  | none => .ok (none, w)
  | some s =>
    match c.castObjectId s with
    | none => .error "CastError"
    | some oid =>
      if !patch.valid then .error "Validation failed"
      else
        match w.users.find? (fun u => u._id = oid) with
        | none => .ok (none, w)
        | some target =>
          if w.users.any (fun u => u._id ≠ oid &&
              (some u.username == patch.username || some u.email == patch.email)) then
            .error "E11000 duplicate key error"
          else
            let updated := patch.apply target
            .ok (some (selectWithoutPassword updated),
              { w with users := w.users.map (fun u => if u._id = oid then patch.apply u else u) })

/-- Controller `updateUser`. -/
def updateUser (c : Collaborators) : Handler := fun req w =>
  let id := req.params.lookup "id"
  let username := bodyText req.body "username"
  let email := bodyText req.body "email"
  let password := bodyText req.body "password"
  let role := bodyText req.body "role"
  match req.user with
  | none =>
    (.respond ⟨500, errorBody "Erreur lors de la mise à jour de l'utilisateur"
      undefinedUserError⟩, w)
  | some subject =>
    if subject.role ≠ "admin" ∧ some subject._id.toString ≠ id then
      (.respond ⟨403, messageBody
        "Accès non autorisé. Vous ne pouvez modifier que vos propres données."⟩, w)
    else if truthy role ∧ subject.role ≠ "admin" then
      (.respond ⟨403, messageBody "Seuls les administrateurs peuvent modifier les rôles"⟩, w)
    else
      let hashed : Except String (Option String × World) :=
        if truthy password then
          match bcryptHash c password 10 with
          | .error e => .error e
          | .ok hash => .ok (some hash, w.log (.bcryptHash password))
        else .ok (none, w)
      match hashed with
      | .error e =>
        (.respond ⟨500, errorBody "Erreur lors de la mise à jour de l'utilisateur" e⟩,
          w.log (.bcryptHash password))
      | .ok (newPassword, w1) =>
        let updateData : UserPatch :=
          { username := if truthy username then username else none
            email := if truthy email then email else none
            role := if truthy role then role else none
            password := newPassword }
        let w2 := w1.log (.usersFindByIdAndUpdate id)
        match usersFindByIdAndUpdate c w2 id updateData with
        | .error e =>
          (.respond ⟨500, errorBody "Erreur lors de la mise à jour de l'utilisateur" e⟩, w2)
        | .ok (none, w3) => (.respond ⟨404, messageBody "Utilisateur non trouvé"⟩, w3)
        | .ok (some updatedUser, w3) =>
          (.respond ⟨200, .obj [("message", .str "Utilisateur mis à jour avec succès"),
            ("user", identityJson updatedUser)]⟩, w3)

/-- Controller `loginUser`. -/
def loginUser (c : Collaborators) : Handler := fun req w =>
  let email := bodyText req.body "email"
  let password := bodyText req.body "password"
  let w1 := w.log .usersFindOne
  match w1.users.find? (fun u => some u.email == email) with
  | none => (.respond ⟨401, messageBody "Email ou mot de passe incorrect"⟩, w1)
  | some user =>
    let w2 := w1.log .bcryptCompare
    match bcryptCompare c password user.password with
    | .error e => (.respond ⟨500, errorBody "Erreur lors de la connexion" e⟩, w2)
    | .ok isPasswordValid =>
      if !isPasswordValid then
        (.respond ⟨401, messageBody "Email ou mot de passe incorrect"⟩, w2)
      else
        let payload : TokenPayload :=
          { userId := some user._id.toString, email := some user.email, role := some user.role }
        let w3 := w2.log (.jwtSign payload)
        let token := c.jwtSign payload (jwtSecret c) "24h"
        let userResponse := omitKey "password" (identityFields user)
        (.respond ⟨200, .obj [("message", .str "Connexion réussie"),
          ("user", .obj userResponse), ("token", .str token)]⟩, w3)

/-- The payload `{ userId, email, role }` that `loginUser` signs for a stored identity. -/
def loginPayload (user : Identity) : TokenPayload :=
  { userId := some user._id.toString, email := some user.email, role := some user.role }

/-- The token that `loginUser` issues for a stored identity. -/
def loginToken (c : Collaborators) (user : Identity) : String :=
  c.jwtSign (loginPayload user) (jwtSecret c) "24h"

/-! ## `controllers/restaurant.controller.js`: creation -/

/-- The argument of `new Restaurants({ name, address, phone, opening_hours })` once the `trim`
setters of `schemaRestaurants` have run. -/
structure RestaurantDraft where
  name : Option String
  address : Option String
  phone : Option String
  opening_hours : Option String
  deriving DecidableEq, Repr

/-- Validators of `schemaRestaurants`: every path is required, with at most 255, 500, 20 and
255 code units. -/
def RestaurantDraft.valid (d : RestaurantDraft) : Bool :=
  (match d.name with
    | some s => s != "" && decide (jsLength s ≤ 255)
    | none => false) &&
  (match d.address with
    | some s => s != "" && decide (jsLength s ≤ 500)
    | none => false) &&
  (match d.phone with
    | some s => s != "" && decide (jsLength s ≤ 20)
    | none => false) &&
  (match d.opening_hours with
    | some s => s != "" && decide (jsLength s ≤ 255)
    | none => false)

/-- The query `Restaurants.findOne({ name, address })`; the `trim` setters of the schema also
run on the two query values. -/
def restaurantsFindOneByNameAddress (w : World) (name address : Option String) :
    Option RestaurantDoc :=
  w.restaurants.find? (fun r => some r.name == name.map jsTrim &&
    some r.address == address.map jsTrim)

/-- The calls `new Restaurants({...})` and `save()`: setters, validation, insertion. -/
def restaurantsSave (c : Collaborators) (w : World) (name address phone opening_hours :
    Option String) : Except String (RestaurantDoc × World) :=
  let d : RestaurantDraft :=
    { name := name.map jsTrim, address := address.map jsTrim, phone := phone.map jsTrim,
      opening_hours := opening_hours.map jsTrim }
  if !d.valid then .error "Restaurant validation failed"
  else
    let saved : RestaurantDoc :=
      { _id := c.newObjectId w, name := d.name.getD "", address := d.address.getD "",
        phone := d.phone.getD "", opening_hours := d.opening_hours.getD "" }
    .ok (saved, { w with restaurants := w.restaurants ++ [saved] })

/-- Controller `createRestaurant`. -/
def createRestaurant (c : Collaborators) : Handler := fun req w =>
  match req.user with
  | none =>
    (.respond ⟨500, errorBody "Erreur lors de la création du restaurant" undefinedUserError⟩, w)
  | some subject =>
    if subject.role ≠ "admin" then
      (.respond ⟨403, messageBody "Accès réservé aux administrateurs"⟩, w)
    else
      let name := bodyText req.body "name"
      let address := bodyText req.body "address"
      let phone := bodyText req.body "phone"
      let opening_hours := bodyText req.body "opening_hours"
      let w1 := w.log .restaurantRead
      match restaurantsFindOneByNameAddress w1 name address with
      | some _ =>
        (.respond ⟨400, messageBody "Un restaurant avec ce nom et cette adresse existe déjà"⟩,
          w1)
      | none =>
        let w2 := w1.log .restaurantWrite
        match restaurantsSave c w2 name address phone opening_hours with
        | .error e =>
          (.respond ⟨500, errorBody "Erreur lors de la création du restaurant" e⟩, w2)
        | .ok (savedRestaurant, w3) =>
          (.respond ⟨201, .obj [("message", .str "Restaurant créé avec succès"),
            ("restaurant", restaurantJson savedRestaurant)]⟩, w3)

/-! ## `controllers/restaurant.controller.js`: read, update, delete -/

/-- Controller `getRestaurantById`. -/
def getRestaurantById (c : Collaborators) : Handler := fun req w =>
  let id := req.params.lookup "id"
  let w1 := w.log .restaurantRead
  match restaurantsFindById c w1 id with
  | .error e =>
    (.respond ⟨500, errorBody "Erreur lors de la récupération du restaurant" e⟩, w1)
  | .ok none => (.respond ⟨404, messageBody "Restaurant non trouvé"⟩, w1)
  | .ok (some restaurant) =>
    (.respond ⟨200, .obj [("message", .str "Restaurant récupéré avec succès"),
      ("restaurant", restaurantJson restaurant)]⟩, w1)

/-- The object `updateData` of `updateRestaurant`: the paths to set. -/
structure RestaurantPatch where
  name : Option String
  address : Option String
  phone : Option String
  opening_hours : Option String
  deriving DecidableEq, Repr

/-- The `updateData` that `updateRestaurant` builds from the body: a field is taken when it
is truthy. -/
def updateRestaurantData (body : Json) : RestaurantPatch :=
  { name := if truthy (bodyText body "name") then bodyText body "name" else none
    address := if truthy (bodyText body "address") then bodyText body "address" else none
    phone := if truthy (bodyText body "phone") then bodyText body "phone" else none
    opening_hours :=
      if truthy (bodyText body "opening_hours") then bodyText body "opening_hours" else none }

/-- The patch once the `trim` setters of the schema have run on it. -/
def RestaurantPatch.trimmed (p : RestaurantPatch) : RestaurantPatch :=
  { name := p.name.map jsTrim, address := p.address.map jsTrim, phone := p.phone.map jsTrim,
    opening_hours := p.opening_hours.map jsTrim }

/-- Update validators of `schemaRestaurants` on the paths being set. -/
def RestaurantPatch.valid (p : RestaurantPatch) : Bool :=
  (match p.name with
    | some s => s != "" && decide (jsLength s ≤ 255)
    | none => true) &&
  (match p.address with
    | some s => s != "" && decide (jsLength s ≤ 500)
    | none => true) &&
  (match p.phone with
    | some s => s != "" && decide (jsLength s ≤ 20)
    | none => true) &&
  (match p.opening_hours with
    | some s => s != "" && decide (jsLength s ≤ 255)
    | none => true)

/-- The document after `$set` of the paths of the patch. -/
def RestaurantPatch.apply (p : RestaurantPatch) (r : RestaurantDoc) : RestaurantDoc :=
  { r with
    name := p.name.getD r.name
    address := p.address.getD r.address
    phone := p.phone.getD r.phone
    opening_hours := p.opening_hours.getD r.opening_hours }

/-- The query `Restaurants.findByIdAndUpdate(id, updateData, { new: true, runValidators: true })`:
the updated document (`null` when no document has that id) and the new store, or the error
thrown by the cast of the id or by the validators. -/
def restaurantsFindByIdAndUpdate (c : Collaborators) (w : World) (id : Option String)
    (patch : RestaurantPatch) : Except String (Option RestaurantDoc × World) :=
  match id with
  | none => .ok (none, w)
  | some s =>
    match c.castObjectId s with
    | none => .error "CastError"
    | some oid =>
      if !patch.trimmed.valid then .error "Validation failed"
      else
        match w.restaurants.find? (fun r => r._id = oid) with
        | none => .ok (none, w)
        | some target =>
          .ok (some (patch.trimmed.apply target),
            { w with restaurants :=
                w.restaurants.map (fun r => if r._id = oid then patch.trimmed.apply r else r) })

/-- Controller `updateRestaurant`. -/
def updateRestaurant (c : Collaborators) : Handler := fun req w =>
  match req.user with
  | none =>
    (.respond ⟨500, errorBody "Erreur lors de la mise à jour du restaurant"
      undefinedUserError⟩, w)
  | some subject =>
    if subject.role ≠ "admin" then
      (.respond ⟨403, messageBody "Accès réservé aux administrateurs"⟩, w)
    else
      let id := req.params.lookup "id"
      let updateData := updateRestaurantData req.body
      let w1 := w.log .restaurantWrite
      match restaurantsFindByIdAndUpdate c w1 id updateData with
      | .error e =>
        (.respond ⟨500, errorBody "Erreur lors de la mise à jour du restaurant" e⟩, w1)
      | .ok (none, w2) => (.respond ⟨404, messageBody "Restaurant non trouvé"⟩, w2)
      | .ok (some updatedRestaurant, w2) =>
        (.respond ⟨200, .obj [("message", .str "Restaurant mis à jour avec succès"),
          ("restaurant", restaurantJson updatedRestaurant)]⟩, w2)

/-- The query `Restaurants.findByIdAndDelete(id)`: the removed document (`null` when no
document has that id) and the new store. -/
def restaurantsFindByIdAndDelete (c : Collaborators) (w : World) (id : Option String) :
    Except String (Option RestaurantDoc × World) :=
  match id with
  | none => .ok (none, w)
  | some s =>
    match c.castObjectId s with
    | none => .error "CastError"
    | some oid =>
      match w.restaurants.find? (fun r => r._id = oid) with
      | none => .ok (none, w)
      | some r => .ok (some r, { w with restaurants := w.restaurants.erase r })

/-- Controller `deleteRestaurant`. -/
def deleteRestaurant (c : Collaborators) : Handler := fun req w =>
  match req.user with
  | none =>
    (.respond ⟨500, errorBody "Erreur lors de la suppression du restaurant"
      undefinedUserError⟩, w)
  | some subject =>
    if subject.role ≠ "admin" then
      (.respond ⟨403, messageBody "Accès réservé aux administrateurs"⟩, w)
    else
      let id := req.params.lookup "id"
      let w1 := w.log .restaurantWrite
      match restaurantsFindByIdAndDelete c w1 id with
      | .error e =>
        (.respond ⟨500, errorBody "Erreur lors de la suppression du restaurant" e⟩, w1)
      | .ok (none, w2) => (.respond ⟨404, messageBody "Restaurant non trouvé"⟩, w2)
      | .ok (some _, w2) => (.respond ⟨200, messageBody "Restaurant supprimé avec succès"⟩, w2)

/-! ## `controllers/menu.controller.js`: create, read, update, delete -/

/-- A field of `req.body` that the model declares as `Number`, followed when it is a JSON
number or missing. -/
def bodyNumber (body : Json) (key : String) : Option ℚ :=
  match body.field key with
  | some (.num n) => some (n : ℚ)
  | some (.real q) => some q
  | _ => none

/-- Whether a field of `req.body` is a JSON number or missing, the values that `bodyNumber`
follows. -/
def isNumberOrMissing (body : Json) (key : String) : Bool :=
  match body.field key with
  | none => true
  | some (.num _) => true
  | some (.real _) => true
  | some _ => false

/-- The values of the `enum` of `category` in `schemaMenu`. -/
def menuCategories : List String := ["entrée", "plat", "dessert", "boisson", "apéritif"]

/-- The argument of `new Menu({ restaurant_id, name, description, price, category })` once
the reference is cast and the `trim` setters have run. -/
structure MenuDraft where
  restaurant_id : Option ObjectId
  name : Option String
  description : Option String
  price : Option ℚ
  category : Option String
  deriving DecidableEq, Repr

/-- Validators of `schemaMenu`: every path is required, `name` has at most 255 code units,
`description` at most 1000, `price` is at least 0 and `category` is one of the enum values. -/
def MenuDraft.valid (d : MenuDraft) : Bool :=
  d.restaurant_id.isSome &&
  (match d.name with
    | some s => s != "" && decide (jsLength s ≤ 255)
    | none => false) &&
  (match d.description with
    | some s => s != "" && decide (jsLength s ≤ 1000)
    | none => false) &&
  (match d.price with
    | some q => decide (0 ≤ q)
    | none => false) &&
  (match d.category with
    | some s => menuCategories.contains s
    | none => false)

/-- The calls `new Menu({...})` and `save()`: cast of the reference, setters, validation,
insertion. -/
def menusSave (c : Collaborators) (w : World) (restaurant_id name description : Option String)
    (price : Option ℚ) (category : Option String) : Except String (MenuDoc × World) :=
  let reference : Except String (Option ObjectId) :=
    match restaurant_id with
    | none => .ok none
    | some s =>
      match c.castObjectId s with
      | none => .error "CastError"
      | some oid => .ok (some oid)
  match reference with
  | .error e => .error e
  | .ok ref =>
    let d : MenuDraft :=
      { restaurant_id := ref, name := name.map jsTrim, description := description.map jsTrim,
        price := price, category := category.map jsTrim }
    if !d.valid then .error "Menu validation failed"
    else
      let saved : MenuDoc :=
        { _id := c.newObjectId w, restaurant_id := ref.getD ⟨""⟩, name := d.name.getD "",
          description := d.description.getD "", price := d.price.getD 0,
          category := d.category.getD "" }
      .ok (saved, { w with menus := w.menus ++ [saved] })

/-- Controller `createMenu`. -/
def createMenu (c : Collaborators) : Handler := fun req w =>
  match req.user with
  | none => (.respond ⟨500, errorBody "Erreur lors de la création du menu" undefinedUserError⟩, w)
  | some subject =>
    if subject.role ≠ "admin" then
      (.respond ⟨403, messageBody "Accès réservé aux administrateurs"⟩, w)
    else
      let restaurant_id := bodyText req.body "restaurant_id"
      let name := bodyText req.body "name"
      let description := bodyText req.body "description"
      let price := bodyNumber req.body "price"
      let category := bodyText req.body "category"
      let w1 := w.log .restaurantRead
      match restaurantsFindById c w1 restaurant_id with
      | .error e => (.respond ⟨500, errorBody "Erreur lors de la création du menu" e⟩, w1)
      | .ok none => (.respond ⟨404, messageBody "Restaurant non trouvé"⟩, w1)
      | .ok (some _) =>
        let w2 := w1.log .menuWrite
        match menusSave c w2 restaurant_id name description price category with
        | .error e => (.respond ⟨500, errorBody "Erreur lors de la création du menu" e⟩, w2)
        | .ok (savedMenu, w3) =>
          (.respond ⟨201, .obj [("message", .str "Menu créé avec succès"),
            ("menu", menuJson w3 ["name", "address"] savedMenu)]⟩, w3)

/-- The query `Menu.findById(id)`. -/
def menusFindById (c : Collaborators) (w : World) (id : Option String) :
    Except String (Option MenuDoc) :=
  match id with
  | none => .ok none
  | some s =>
    match c.castObjectId s with
    | none => .error "CastError"
    | some oid => .ok (w.menus.find? (fun m => m._id = oid))

/-- Controller `getMenuById`. -/
def getMenuById (c : Collaborators) : Handler := fun req w =>
  let id := req.params.lookup "id"
  let w1 := w.log .menuRead
  match menusFindById c w1 id with
  | .error e => (.respond ⟨500, errorBody "Erreur lors de la récupération du menu" e⟩, w1)
  | .ok none => (.respond ⟨404, messageBody "Menu non trouvé"⟩, w1)
  | .ok (some menu) =>
    (.respond ⟨200, .obj [("message", .str "Menu récupéré avec succès"),
      ("menu", menuJson w1 ["name", "address", "phone", "opening_hours"] menu)]⟩, w1)

/-- The object `updateData` of `updateMenu`: the paths to set, as the body gives them. -/
structure MenuPatch where
  restaurant_id : Option String
  name : Option String
  description : Option String
  price : Option ℚ
  category : Option String
  deriving DecidableEq, Repr

/-- The `updateData` that `updateMenu` builds from the body: text fields are taken when truthy,
`price` when it is not `undefined`. -/
def updateMenuData (body : Json) : MenuPatch :=
  { restaurant_id :=
      if truthy (bodyText body "restaurant_id") then bodyText body "restaurant_id" else none
    name := if truthy (bodyText body "name") then bodyText body "name" else none
    description :=
      if truthy (bodyText body "description") then bodyText body "description" else none
    price := bodyNumber body "price"
    category := if truthy (bodyText body "category") then bodyText body "category" else none }

/-- The patch once Mongoose has cast it: the reference as an `ObjectId`, the text paths
trimmed by their setters. -/
structure MenuSet where
  restaurant_id : Option ObjectId
  name : Option String
  description : Option String
  price : Option ℚ
  category : Option String
  deriving DecidableEq, Repr

/-- Cast of `updateData` by Mongoose; an error when the reference cannot be cast. -/
def MenuPatch.cast (c : Collaborators) (p : MenuPatch) : Except String MenuSet :=
  let reference : Except String (Option ObjectId) :=
    match p.restaurant_id with
    | none => .ok none
    | some s =>
      match c.castObjectId s with
      | none => .error "CastError"
      | some oid => .ok (some oid)
  match reference with
  | .error e => .error e
  | .ok ref =>
    .ok { restaurant_id := ref, name := p.name.map jsTrim,
          description := p.description.map jsTrim, price := p.price,
          category := p.category.map jsTrim }

/-- Update validators of `schemaMenu` on the paths being set. -/
def MenuSet.valid (p : MenuSet) : Bool :=
  (match p.name with
    | some s => s != "" && decide (jsLength s ≤ 255)
    | none => true) &&
  (match p.description with
    | some s => s != "" && decide (jsLength s ≤ 1000)
    | none => true) &&
  (match p.price with
    | some q => decide (0 ≤ q)
    | none => true) &&
  (match p.category with
    | some s => menuCategories.contains s
    | none => true)

/-- The document after `$set` of the paths of the patch. -/
def MenuSet.apply (p : MenuSet) (m : MenuDoc) : MenuDoc :=
  { m with
    restaurant_id := p.restaurant_id.getD m.restaurant_id
    name := p.name.getD m.name
    description := p.description.getD m.description
    price := p.price.getD m.price
    category := p.category.getD m.category }

/-- The query `Menu.findByIdAndUpdate(id, updateData, { new: true, runValidators: true })`. -/
def menusFindByIdAndUpdate (c : Collaborators) (w : World) (id : Option String)
    (patch : MenuPatch) : Except String (Option MenuDoc × World) :=
  match id with
  | none => .ok (none, w)
  | some s =>
    match c.castObjectId s with
    | none => .error "CastError"
    | some oid =>
      match patch.cast c with
      | .error e => .error e
      | .ok set =>
        if !set.valid then .error "Validation failed"
        else
          match w.menus.find? (fun m => m._id = oid) with
          | none => .ok (none, w)
          | some target =>
            .ok (some (set.apply target),
              { w with menus := w.menus.map (fun m => if m._id = oid then set.apply m else m) })

/-- Controller `updateMenu`. -/
def updateMenu (c : Collaborators) : Handler := fun req w =>
  match req.user with
  | none =>
    (.respond ⟨500, errorBody "Erreur lors de la mise à jour du menu" undefinedUserError⟩, w)
  | some subject =>
    if subject.role ≠ "admin" then
      (.respond ⟨403, messageBody "Accès réservé aux administrateurs"⟩, w)
    else
      let id := req.params.lookup "id"
      let restaurant_id := bodyText req.body "restaurant_id"
      let checked : Except String (Option Unit × World) :=
        if truthy restaurant_id then
          match restaurantsFindById c (w.log .restaurantRead) restaurant_id with
          | .error e => .error e
          | .ok none => .ok (none, w.log .restaurantRead)
          | .ok (some _) => .ok (some (), w.log .restaurantRead)
        else .ok (some (), w)
      match checked with
      | .error e =>
        (.respond ⟨500, errorBody "Erreur lors de la mise à jour du menu" e⟩,
          w.log .restaurantRead)
      | .ok (none, w1) => (.respond ⟨404, messageBody "Restaurant non trouvé"⟩, w1)
      | .ok (some _, w1) =>
        let updateData := updateMenuData req.body
        let w2 := w1.log .menuWrite
        match menusFindByIdAndUpdate c w2 id updateData with
        | .error e => (.respond ⟨500, errorBody "Erreur lors de la mise à jour du menu" e⟩, w2)
        | .ok (none, w3) => (.respond ⟨404, messageBody "Menu non trouvé"⟩, w3)
        | .ok (some updatedMenu, w3) =>
          (.respond ⟨200, .obj [("message", .str "Menu mis à jour avec succès"),
            ("menu", menuJson w3 ["name", "address"] updatedMenu)]⟩, w3)

/-- The query `Menu.findByIdAndDelete(id)`. -/
def menusFindByIdAndDelete (c : Collaborators) (w : World) (id : Option String) :
    Except String (Option MenuDoc × World) :=
  match id with
  | none => .ok (none, w)
  | some s =>
    match c.castObjectId s with
    | none => .error "CastError"
    | some oid =>
      match w.menus.find? (fun m => m._id = oid) with
      | none => .ok (none, w)
      | some m => .ok (some m, { w with menus := w.menus.erase m })

/-- Controller `deleteMenu`. -/
def deleteMenu (c : Collaborators) : Handler := fun req w =>
  match req.user with
  | none =>
    (.respond ⟨500, errorBody "Erreur lors de la suppression du menu" undefinedUserError⟩, w)
  | some subject =>
    if subject.role ≠ "admin" then
      (.respond ⟨403, messageBody "Accès réservé aux administrateurs"⟩, w)
    else
      let id := req.params.lookup "id"
      let w1 := w.log .menuWrite
      match menusFindByIdAndDelete c w1 id with
      | .error e => (.respond ⟨500, errorBody "Erreur lors de la suppression du menu" e⟩, w1)
      | .ok (none, w2) => (.respond ⟨404, messageBody "Menu non trouvé"⟩, w2)
      | .ok (some _, w2) => (.respond ⟨200, messageBody "Menu supprimé avec succès"⟩, w2)

/-! ## `controllers/user.controller.js`: deletion, and `routes/user.route.js` -/

/-- The query `Users.findByIdAndDelete(id)`. -/
def usersFindByIdAndDelete (c : Collaborators) (w : World) (id : Option String) :
    Except String (Option Identity × World) :=
  match id with
  | none => .ok (none, w)
  | some s =>
    match c.castObjectId s with
    | none => .error "CastError"
    | some oid =>
      match w.users.find? (fun u => u._id = oid) with
      | none => .ok (none, w)
      | some u => .ok (some u, { w with users := w.users.erase u })

/-- Controller `deleteUser`. -/
def deleteUser (c : Collaborators) : Handler := fun req w =>
  let id := req.params.lookup "id"
  match req.user with
  | none =>
    (.respond ⟨500, errorBody "Erreur lors de la suppression de l'utilisateur"
      undefinedUserError⟩, w)
  | some subject =>
    if subject.role ≠ "admin" ∧ some subject._id.toString ≠ id then
      (.respond ⟨403, messageBody
        "Accès non autorisé. Vous ne pouvez supprimer que votre propre compte."⟩, w)
    else
      let w1 := w.log (.usersFindByIdAndDelete id)
      match usersFindByIdAndDelete c w1 id with
      | .error e =>
        (.respond ⟨500, errorBody "Erreur lors de la suppression de l'utilisateur" e⟩, w1)
      | .ok (none, w2) => (.respond ⟨404, messageBody "Utilisateur non trouvé"⟩, w2)
      | .ok (some _, w2) =>
        (.respond ⟨200, messageBody "Utilisateur supprimé avec succès"⟩, w2)

/-- Router of `routes/user.route.js`: the handler chain registered for a method and a path
(given as its segments below `/users`), `none` when no route matches. -/
def userRouter (c : Collaborators) : Method → List String → Option (List Handler)
  | .POST, ["register"] => some [createUser c]
  | .POST, ["login"] => some [loginUser c]
  | .GET, [] => some [authenticateToken c, requireAdmin, getAllUsers c]
  | .GET, [_] => some [authenticateToken c, requireOwnershipOrAdmin, getUserById c]
  | .PUT, [_] => some [authenticateToken c, requireOwnershipOrAdmin, updateUser c]
  | .DELETE, [_] => some [authenticateToken c, requireOwnershipOrAdmin, deleteUser c]
  | _, _ => none

/-- The exports of `controllers/restaurant.controller.js` as modelled here. -/
def restaurantController (c : Collaborators) : RestaurantController :=
  { createRestaurant := createRestaurant c, getAllRestaurants := getAllRestaurants c,
    getRestaurantById := getRestaurantById c, updateRestaurant := updateRestaurant c,
    deleteRestaurant := deleteRestaurant c }

/-- The exports of `controllers/menu.controller.js` as modelled here. -/
def menuController (c : Collaborators) : MenuController :=
  { createMenu := createMenu c, getAllMenus := getAllMenus c, getMenuById := getMenuById c,
    getMenusByRestaurant := getMenusByRestaurant c, updateMenu := updateMenu c,
    deleteMenu := deleteMenu c }

/-- The `updateData` that `updateUser` hands to `findByIdAndUpdate`: `username`, `email` and
`role` when they are truthy, and the hash of `password` when it is truthy. -/
def updateUserData (c : Collaborators) (body : Json) : UserPatch :=
  { username := if truthy (bodyText body "username") then bodyText body "username" else none
    email := if truthy (bodyText body "email") then bodyText body "email" else none
    role := if truthy (bodyText body "role") then bodyText body "role" else none
    password :=
      if truthy (bodyText body "password") then
        some (c.bcryptHash ((bodyText body "password").getD "") 10)
      else none }

/-- The handler answered 404 with the given message and left the three collections as they
were. -/
def NotFoundUnchanged (out : Outcome × World) (w : World) (msg : String) : Prop :=
  ∃ w1, out = (.respond ⟨404, messageBody msg⟩, w1) ∧ w1.users = w.users ∧
    w1.restaurants = w.restaurants ∧ w1.menus = w.menus

/-! ## Reading outcomes -/

/-- The response of an outcome, when the handler responded. -/
def Outcome.response? : Outcome → Option Response
  | .respond res => some res
  | _ => none

/-- The text of a JSON string. -/
def Json.text? : Json → Option String
  | .str s => some s
  | _ => none

/-- What a handler or a chain of handlers decided, the request object left aside: it passed
the request on with an identity attached to it, it sent a response, or it threw. -/
inductive Decision where
  | pass (user : Option Identity)
  | reply (res : Response)
  | crash

/-- The decision of an outcome. -/
def Outcome.decision : Outcome → Decision
  | .next req => .pass req.user
  | .respond res => .reply res
  | .throws => .crash

/-! ## Sample data used to instantiate the theorems -/

/-- A stored administrator. -/
def demoAdmin : Identity :=
  { _id := ⟨"64b7f0000000000000000001"⟩, username := "chef", email := "chef@food.test",
    password := some "$2b$10$hashA", role := "admin" }

/-- A stored ordinary user. -/
def demoUser : Identity :=
  { _id := ⟨"64b7f0000000000000000002"⟩, username := "guest", email := "guest@food.test",
    password := some "$2b$10$hashB", role := "user" }

/-- A store holding the two sample identities and one restaurant. -/
def demoWorld : World :=
  { users := [demoAdmin, demoUser]
    restaurants := [{ _id := ⟨"64b7f00000000000000000a1"⟩, name := "A", address := "1 Main St",
                      phone := "555", opening_hours := "9-5" }]
    menus := []
    trace := [] }

/-- A sample regular-expression engine for patterns made of literal characters and the
wildcard `.`: the pattern is searched in the subject ignoring ASCII case, `.` standing for any
character but a line feed. -/
def wildcardSearch (pattern : List Char) : List Char → Bool
  | [] => pattern.isEmpty
  | ch :: rest =>
    (pattern.length ≤ (ch :: rest).length &&
      (List.zipWith (fun p x => (p == '.' && x != '\n') || p.toLower == x.toLower) pattern
        (ch :: rest)).all id) || wildcardSearch pattern rest

/-- The sample engine as a collaborator: a pattern without metacharacters is a case-insensitive
substring search, a pattern whose only metacharacter is `.` is a wildcard search, and patterns
using any other metacharacter are rejected. -/
def demoRegexSearchI (pattern : String) : Option (String → Bool) :=
  if pattern.data.all (fun ch => !("\\^$*+?()[]\x7b\x7d|.".data.contains ch)) then
    some (fun subject => decide (CiContains subject pattern))
  else if pattern.data.all (fun ch => !("\\^$*+?()[]\x7b\x7d|".data.contains ch)) then
    some (fun subject => wildcardSearch pattern.data subject.data)
  else none

/-- Sample collaborators: six tokens verify (an admin's, a user's, one of a deleted account,
one that names the sample user with the role `admin` in its payload, the one issued to the
sample root account, and one whose `userId` is not an `ObjectId`), every other token is
rejected; ids are castable when 24 characters long. -/
def demoCollaborators : Collaborators :=
  { envJwtSecret := none
    jwtVerify := fun token _ =>
      if token = "admin.jwt" then
        some ⟨some "64b7f0000000000000000001", some "chef@food.test", some "admin"⟩
      else if token = "user.jwt" then
        some ⟨some "64b7f0000000000000000002", some "guest@food.test", some "user"⟩
      else if token = "ghost.jwt" then
        some ⟨some "64b7f00000000000000000ff", some "ghost@food.test", some "user"⟩
      else if token = "stale.jwt" then
        some ⟨some "64b7f0000000000000000002", some "guest@food.test", some "admin"⟩
      else if token = "64b7f0000000000000001000.jwt" then
        some ⟨some "64b7f0000000000000001000", some "root@food.test", some "admin"⟩
      else if token = "legacy.jwt" then
        some ⟨some "42", some "old@food.test", some "user"⟩
      else none
    castObjectId := fun s => if s.length = 24 then some ⟨s⟩ else none
    regexSearchI := demoRegexSearchI
    castNonStringFilter := fun _ _ => none
    restaurantsCursor := fun _ skip limit docs =>
      if skip < 0 then .error "Skip value must be non-negative"
      else .ok ((docs.drop skip.toNat).take limit.natAbs)
    menusCursor := fun _ skip limit docs =>
      if skip < 0 then .error "Skip value must be non-negative"
      else .ok ((docs.drop skip.toNat).take limit.natAbs)
    bcryptHash := fun data rounds => "$2b$" ++ toString rounds ++ "$" ++ data
    bcryptCompare := fun data encrypted => encrypted == "$2b$10$" ++ data
    jwtSign := fun payload _ _ => payload.userId.getD "" ++ ".jwt"
    newObjectId := fun w => ⟨"64b7f000000000000000" ++ toString (1000 + w.users.length +
      w.restaurants.length + w.menus.length)⟩ }

/-- A request with the given `Authorization` header and `:id` route parameter. -/
def demoRequest (authorization : Option String) (id : String) (user : Option Identity) :
    Request :=
  { authorization := authorization, params := [("id", id)], query := [], body := Json.null,
    user := user }

/-- A request with a JSON body, the `:id` route parameter and the subject `req.user`. -/
def demoBodyRequest (user : Option Identity) (id : String) (body : Json) : Request :=
  { authorization := none, params := [("id", id)], query := [], body := body, user := user }

/-- A registration body for a new account. -/
def demoRegistration : Json :=
  .obj [("username", .str "nina"), ("email", .str "nina@food.test"),
    ("password", .str "secret123")]

/-- The identity that registering `demoRegistration` on the sample store creates. -/
def demoNewUser : Identity :=
  { _id := ⟨"64b7f0000000000000001003"⟩, username := "nina", email := "nina@food.test",
    password := some "$2b$10$secret123", role := "user" }

/-- The sample store after the registration, with the trace of the three calls made. -/
def demoWorldAfterRegistration : World :=
  { users := [demoAdmin, demoUser, demoNewUser]
    restaurants := demoWorld.restaurants
    menus := []
    trace := [.usersFindOne, .bcryptHash (some "secret123"), .usersSave] }

/-- A restaurant body whose name and address carry surrounding white space. -/
def demoRestaurantBody : Json :=
  .obj [("name", .str " B "), ("address", .str "2 Side St "), ("phone", .str "556"),
    ("opening_hours", .str "10-6")]

/-- The restaurant that posting `demoRestaurantBody` on the sample store creates. -/
def demoNewRestaurant : RestaurantDoc :=
  { _id := ⟨"64b7f0000000000000001003"⟩, name := "B", address := "2 Side St", phone := "556",
    opening_hours := "10-6" }

/-- The sample store after that creation. -/
def demoWorldAfterCreation : World :=
  { users := demoWorld.users
    restaurants := demoWorld.restaurants ++ [demoNewRestaurant]
    menus := []
    trace := [.restaurantRead, .restaurantWrite] }

/-- The empty store. -/
def demoEmptyWorld : World := { users := [], restaurants := [], menus := [], trace := [] }

/-- A request made by the sample administrator, with a route parameter and a body. -/
def demoAdminRequest (id : String) (body : Json) : Request :=
  demoBodyRequest (some (selectWithoutPassword demoAdmin)) id body

/-- A restaurant body with the given name, at `1 Main St`. -/
def demoRestaurantNamed (name : String) : Json :=
  .obj [("name", .str name), ("address", .str "1 Main St"), ("phone", .str "555"),
    ("opening_hours", .str "9-5")]

/-- The store reached from the empty store by three admin calls: create restaurant `A`, create
restaurant `B` at the same address, rename the second one to `A`. -/
def demoRenamedWorld : World :=
  let w1 := (createRestaurant demoCollaborators (demoAdminRequest "x" (demoRestaurantNamed "A"))
    demoEmptyWorld).2
  let w2 := (createRestaurant demoCollaborators (demoAdminRequest "x" (demoRestaurantNamed "B"))
    w1).2
  (updateRestaurant demoCollaborators
    (demoAdminRequest "64b7f0000000000000001001" (.obj [("name", .str "A")])) w2).2

/-- A menu body that references a restaurant absent from the sample store. -/
def demoDanglingMenu : Json :=
  .obj [("restaurant_id", .str "64b7f00000000000000000ee"), ("name", .str "Soupe"),
    ("description", .str "Soupe du jour"), ("price", .num 7), ("category", .str "entrée")]

/-- The sample store with one menu of the sample restaurant. -/
def demoMenuWorld : World :=
  { demoWorld with
    menus := [{ _id := ⟨"64b7f00000000000000000b1"⟩, restaurant_id := ⟨"64b7f00000000000000000a1"⟩,
                name := "Soupe", description := "Soupe du jour", price := 7,
                category := "entrée" }] }

/-- An update body that supplies an empty `name` and a `description` with surrounding white
space. -/
def demoMenuUpdateBody : Json :=
  .obj [("name", .str ""), ("description", .str " Potage du jour ")]

/-- The sample menu once `demoMenuUpdateBody` has been applied to it. -/
def demoUpdatedMenu : MenuDoc :=
  { _id := ⟨"64b7f00000000000000000b1"⟩, restaurant_id := ⟨"64b7f00000000000000000a1"⟩,
    name := "Soupe", description := "Potage du jour", price := 7, category := "entrée" }

/-- The store `demoMenuWorld` after that update, with the trace of the call made. -/
def demoMenuWorldAfterUpdate : World :=
  { demoWorld with menus := [demoUpdatedMenu], trace := [.menuWrite] }

/-- An update body whose `category` is not one of the values of the schema. -/
def demoBadCategory : Json := .obj [("category", .str "pizza")]

/-- An update body that sets the category to `plat`. -/
def demoPlatCategory : Json := .obj [("category", .str "plat")]

/-- A public request for the menus of a restaurant, with the `:restaurantId` route parameter
and a query string. -/
def demoListRequest (restaurantId : String) (query : List (String × QVal)) : Request :=
  { authorization := none, params := [("restaurantId", restaurantId)], query := query,
    body := Json.null, user := none }

/-- A registration body that asks for the role `admin`. -/
def demoRootRegistration : Json :=
  .obj [("username", .str "root"), ("email", .str "root@food.test"),
    ("password", .str "secret123"), ("role", .str "admin")]

/-- The identity that registering `demoRootRegistration` on the empty store creates. -/
def demoRoot : Identity :=
  { _id := ⟨"64b7f0000000000000001000"⟩, username := "root", email := "root@food.test",
    password := some "$2b$10$secret123", role := "admin" }

/-- A controller that would wipe the restaurant and menu collections if it were reached. -/
def demoWipe : Handler := fun _ w =>
  (.respond ⟨200, messageBody "wiped"⟩,
    { w with restaurants := [], menus := [], trace := w.trace ++ [.restaurantWrite, .menuWrite] })

/-- Restaurant controllers that all wipe the store. -/
def demoRestaurantController : RestaurantController :=
  ⟨demoWipe, demoWipe, demoWipe, demoWipe, demoWipe⟩

/-- Menu controllers that all wipe the store. -/
def demoMenuController : MenuController :=
  ⟨demoWipe, demoWipe, demoWipe, demoWipe, demoWipe, demoWipe⟩

/-! ## Helper lemmas -/

theorem usersFindById_log (c : Collaborators) (w : World) (call : Call) (id : Option String) :
    usersFindById c (w.log call) id = usersFindById c w id := rfl

theorem truthy_some_iff (s : String) : truthy (some s) = true ↔ s ≠ "" := by
  simp [truthy]

theorem splitOnChar_ne_nil (sep : Char) (l : List Char) : splitOnChar sep l ≠ [] := by
  cases l with
  | nil => simp [splitOnChar]
  | cons ch rest =>
    unfold splitOnChar
    split
    · simp
    · split <;> simp

/-- The first piece of a split is the text before the first separator. -/
theorem splitOnChar_head (sep : Char) (l : List Char) :
    (splitOnChar sep l).head? = some (l.takeWhile (fun ch => ch ≠ sep)) := by
  induction l with
  | nil => simp [splitOnChar]
  | cons ch rest ih =>
    unfold splitOnChar
    by_cases h : ch = sep
    · simp [h]
    · simp only [h, if_false]
      split
      · next hnil => exact absurd hnil (splitOnChar_ne_nil sep rest)
      · next seg segs hcons =>
        rw [hcons] at ih
        simp at ih
        simp [List.takeWhile, h, ih]

theorem extractToken_bearer_chars (t : String) :
    extractToken (some ("Bearer " ++ t)) =
      some (String.mk (t.data.takeWhile (fun ch => ch ≠ ' '))) := by
  have hne : ("Bearer " ++ t) ≠ "" := by
    intro h
    have hlen := congrArg String.length h
    simp at hlen
    exact absurd hlen.1 (by decide)
  have hdata : ("Bearer " ++ t).data = 'B' :: 'e' :: 'a' :: 'r' :: 'e' :: 'r' :: ' ' :: t.data := by
    simp [String.data_append]
  have hhead := splitOnChar_head ' ' t.data
  unfold extractToken jsSplit
  simp only [hne, if_false, hdata]
  cases hs : splitOnChar ' ' t.data with
  | nil => exact absurd hs (splitOnChar_ne_nil _ _)
  | cons seg segs =>
    rw [hs] at hhead
    simp at hhead
    simp [splitOnChar, hs, hhead]

theorem takeWhile_ne_of_not_mem (sep : Char) (l : List Char) (h : sep ∉ l) :
    l.takeWhile (fun ch => ch ≠ sep) = l := by
  induction l with
  | nil => rfl
  | cons ch rest ih =>
    simp only [List.mem_cons, not_or] at h
    have hne : ch ≠ sep := fun e => h.1 e.symm
    simp only [List.takeWhile, hne, ne_eq, not_false_eq_true, decide_True, ih h.2]

theorem authenticateToken_identity_found (c : Collaborators) (req : Request) (w : World)
    (tok : String) (decoded : TokenPayload) (user : Identity)
    (htok : extractToken req.authorization = some tok) (hne : tok ≠ "")
    (hver : c.jwtVerify tok (jwtSecret c) = some decoded)
    (hfind : usersFindById c w decoded.userId = .ok (some user)) :
    authenticateToken c req w =
      (.next { req with user := some user },
        (w.log (.jwtVerify tok (jwtSecret c))).log (.usersFindById decoded.userId)) := by
  have ht : truthy (some tok) = true := (truthy_some_iff tok).mpr hne
  simp [authenticateToken, htok, ht, hver, usersFindById_log, hfind]

/-! ## Authorization gates -/

/-- C1: for a request whose subject is resolved, `requireAdmin` calls `next` (passing the
request on unchanged and sending nothing) exactly when the subject's role is `admin`; for any
other role it answers 403 with the message reserved to administrators and does not call
`next`. It never touches the store. -/
theorem requireAdmin_admin_iff (req : Request) (w : World) (user : Identity)
    (hu : req.user = some user) :
    (requireAdmin req w = (.next req, w) ↔ user.role = "admin") ∧
    (user.role ≠ "admin" →
      requireAdmin req w =
        (.respond ⟨403, messageBody "Accès réservé aux administrateurs"⟩, w)) := by
  unfold requireAdmin
  rw [hu]
  by_cases h : user.role = "admin"
  · simp [h]
  · simp [h]

theorem requireAdmin_admin_iff_witness :
    (demoRequest none "x" (some demoUser)).user = some demoUser ∧
    ((requireAdmin (demoRequest none "x" (some demoUser)) demoWorld =
        (.next (demoRequest none "x" (some demoUser)), demoWorld) ↔ demoUser.role = "admin") ∧
     (demoUser.role ≠ "admin" →
      requireAdmin (demoRequest none "x" (some demoUser)) demoWorld =
        (.respond ⟨403, messageBody "Accès réservé aux administrateurs"⟩, demoWorld))) :=
  ⟨rfl, requireAdmin_admin_iff (demoRequest none "x" (some demoUser)) demoWorld demoUser rfl⟩

/-- C2: for a request with a resolved subject and a path id, `requireOwnershipOrAdmin` calls
`next` exactly when the subject is an admin or the string form of its `_id` equals the path
id, and otherwise answers 403 without calling `next`. So a non-admin asking for another id is
refused, and an admin asking for any id passes. -/
theorem requireOwnershipOrAdmin_iff (req : Request) (w : World) (user : Identity)
    (pathId : String) (hu : req.user = some user) (hid : req.params.lookup "id" = some pathId) :
    (requireOwnershipOrAdmin req w = (.next req, w) ↔
      (user.role = "admin" ∨ user._id.toString = pathId)) ∧
    (¬ (user.role = "admin" ∨ user._id.toString = pathId) →
      requireOwnershipOrAdmin req w =
        (.respond ⟨403, messageBody
          "Accès non autorisé. Vous ne pouvez accéder qu'à vos propres données."⟩, w)) ∧
    (user.role ≠ "admin" → user._id.toString ≠ pathId →
      ∃ body, requireOwnershipOrAdmin req w = (.respond ⟨403, body⟩, w)) ∧
    (user.role = "admin" → requireOwnershipOrAdmin req w = (.next req, w)) := by
  unfold requireOwnershipOrAdmin
  rw [hu]
  simp only [hid, Option.some.injEq]
  by_cases h : user.role = "admin" ∨ user._id.toString = pathId
  · rw [if_pos h]
    refine ⟨⟨fun _ => h, fun _ => rfl⟩, fun hn => absurd h hn, ?_, fun _ => rfl⟩
    intro h1 h2
    exact absurd h (not_or.mpr ⟨h1, h2⟩)
  · rw [if_neg h]
    refine ⟨⟨fun e => ?_, fun hp => absurd hp h⟩, fun _ => rfl, fun _ _ => ⟨_, rfl⟩,
      fun ha => absurd (Or.inl ha) h⟩
    simp at e

theorem requireOwnershipOrAdmin_iff_witness :
    (demoRequest none "64b7f0000000000000000001" (some demoUser)).user = some demoUser ∧
    (demoRequest none "64b7f0000000000000000001" (some demoUser)).params.lookup "id" =
      some "64b7f0000000000000000001" ∧
    demoUser.role ≠ "admin" ∧ demoUser._id.toString ≠ "64b7f0000000000000000001" ∧
    ∃ body, requireOwnershipOrAdmin (demoRequest none "64b7f0000000000000000001" (some demoUser))
      demoWorld = (.respond ⟨403, body⟩, demoWorld) :=
  ⟨rfl, rfl, by decide, by decide,
    (requireOwnershipOrAdmin_iff (demoRequest none "64b7f0000000000000000001" (some demoUser))
      demoWorld demoUser "64b7f0000000000000000001" rfl rfl).2.2.1 (by decide) (by decide)⟩

/-! ## Credential verifier -/

/-- C3: decision table of `authenticateToken`. No token extracted: 401 "Token d'accès requis",
with no verification and no lookup (the world, trace included, is untouched). Token present
but `jwt.verify` throws: 403 "Token invalide ou expiré". Token verified but the lookup of its
`userId` finds no identity: 401 "Token invalide". Token verified and identity found: the
identity becomes `req.user`, `next` is called and no response is sent. -/
theorem authenticateToken_decision_table (c : Collaborators) (req : Request) (w : World) :
    (truthy (extractToken req.authorization) = false →
      authenticateToken c req w =
        (.respond ⟨401, messageBody "Token d'accès requis"⟩, w)) ∧
    (∀ tok, extractToken req.authorization = some tok → tok ≠ "" →
      c.jwtVerify tok (jwtSecret c) = none →
      authenticateToken c req w =
        (.respond ⟨403, messageBody "Token invalide ou expiré"⟩,
          w.log (.jwtVerify tok (jwtSecret c)))) ∧
    (∀ tok decoded, extractToken req.authorization = some tok → tok ≠ "" →
      c.jwtVerify tok (jwtSecret c) = some decoded →
      usersFindById c w decoded.userId = .ok none →
      authenticateToken c req w =
        (.respond ⟨401, messageBody "Token invalide"⟩,
          (w.log (.jwtVerify tok (jwtSecret c))).log (.usersFindById decoded.userId))) ∧
    (∀ tok decoded user, extractToken req.authorization = some tok → tok ≠ "" →
      c.jwtVerify tok (jwtSecret c) = some decoded →
      usersFindById c w decoded.userId = .ok (some user) →
      authenticateToken c req w =
        (.next { req with user := some user },
          (w.log (.jwtVerify tok (jwtSecret c))).log (.usersFindById decoded.userId))) := by
  refine ⟨?_, ?_, ?_, ?_⟩
  · intro h
    simp [authenticateToken, h]
  · intro tok htok hne hver
    have ht : truthy (some tok) = true := (truthy_some_iff tok).mpr hne
    simp [authenticateToken, htok, ht, hver]
  · intro tok decoded htok hne hver hfind
    have ht : truthy (some tok) = true := (truthy_some_iff tok).mpr hne
    simp [authenticateToken, htok, ht, hver, usersFindById_log, hfind]
  · intro tok decoded user htok hne hver hfind
    have ht : truthy (some tok) = true := (truthy_some_iff tok).mpr hne
    simp [authenticateToken, htok, ht, hver, usersFindById_log, hfind]

theorem authenticateToken_decision_table_witness :
    authenticateToken demoCollaborators (demoRequest none "x" none) demoWorld =
      (.respond ⟨401, messageBody "Token d'accès requis"⟩, demoWorld) ∧
    authenticateToken demoCollaborators (demoRequest (some "Bearer forged.jwt") "x" none)
        demoWorld =
      (.respond ⟨403, messageBody "Token invalide ou expiré"⟩,
        demoWorld.log (.jwtVerify "forged.jwt" (jwtSecret demoCollaborators))) ∧
    authenticateToken demoCollaborators (demoRequest (some "Bearer ghost.jwt") "x" none)
        demoWorld =
      (.respond ⟨401, messageBody "Token invalide"⟩,
        (demoWorld.log (.jwtVerify "ghost.jwt" (jwtSecret demoCollaborators))).log
          (.usersFindById (some "64b7f00000000000000000ff"))) ∧
    authenticateToken demoCollaborators (demoRequest (some "Bearer user.jwt") "x" none)
        demoWorld =
      (.next { demoRequest (some "Bearer user.jwt") "x" none with
                user := some (selectWithoutPassword demoUser) },
        (demoWorld.log (.jwtVerify "user.jwt" (jwtSecret demoCollaborators))).log
          (.usersFindById (some "64b7f0000000000000000002"))) :=
  ⟨(authenticateToken_decision_table demoCollaborators (demoRequest none "x" none)
      demoWorld).1 rfl,
   (authenticateToken_decision_table demoCollaborators
      (demoRequest (some "Bearer forged.jwt") "x" none) demoWorld).2.1
      "forged.jwt" (by decide) (by decide) (by decide),
   (authenticateToken_decision_table demoCollaborators
      (demoRequest (some "Bearer ghost.jwt") "x" none) demoWorld).2.2.1
      "ghost.jwt" _ (by decide) (by decide) rfl rfl,
   (authenticateToken_decision_table demoCollaborators
      (demoRequest (some "Bearer user.jwt") "x" none) demoWorld).2.2.2
      "user.jwt" _ _ (by decide) (by decide) rfl rfl⟩

/-- C4 (counterexample): for the header `Bearer abc def` the text after the `"Bearer "` prefix
is `abc def`, but the token extracted, and handed to `jwt.verify`, is `abc`. -/
theorem extractToken_not_whole_suffix :
    extractToken (some ("Bearer " ++ "abc def")) = some "abc" ∧
    extractToken (some ("Bearer " ++ "abc def")) ≠ some "abc def" ∧
    (authenticateToken demoCollaborators (demoRequest (some ("Bearer " ++ "abc def")) "x" none)
      demoWorld).2.trace = [Call.jwtVerify "abc" "your-secret-key"] := by
  refine ⟨by decide, by decide, by decide⟩

/-- C4 (amended): for a header `"Bearer " ++ t` the extracted token is the part of `t` before
its first space, hence exactly `t` when `t` contains no space; when moreover `t` is not empty
it is the token handed to `jwt.verify` (the first call made); with no header, no token is
extracted. -/
theorem extractToken_bearer (t : String) :
    extractToken none = none ∧
    extractToken (some ("Bearer " ++ t)) =
      some (String.mk (t.data.takeWhile (fun ch => ch ≠ ' '))) ∧
    (' ' ∉ t.data → extractToken (some ("Bearer " ++ t)) = some t) ∧
    (' ' ∉ t.data → t ≠ "" → ∀ (c : Collaborators) (req : Request) (w : World),
      req.authorization = some ("Bearer " ++ t) →
      ∃ rest, (authenticateToken c req w).2.trace =
        w.trace ++ Call.jwtVerify t (jwtSecret c) :: rest) := by
  have hfull : ' ' ∉ t.data → extractToken (some ("Bearer " ++ t)) = some t := by
    intro h
    rw [extractToken_bearer_chars, takeWhile_ne_of_not_mem ' ' t.data h]
  refine ⟨rfl, extractToken_bearer_chars t, hfull, ?_⟩
  intro hsp hne c req w hauth
  have ht : truthy (some t) = true := (truthy_some_iff t).mpr hne
  have hx : extractToken req.authorization = some t := by rw [hauth]; exact hfull hsp
  unfold authenticateToken
  simp only [hx, ht, Bool.not_true, Bool.false_eq_true, if_false, Option.getD_some]
  cases hv : c.jwtVerify t (jwtSecret c) with
  | none => exact ⟨[], by simp [World.log]⟩
  | some decoded =>
    refine ⟨[Call.usersFindById decoded.userId], ?_⟩
    simp only [usersFindById_log]
    cases hf : usersFindById c w decoded.userId with
    | error e => simp [World.log]
    | ok found =>
      cases found with
      | none => simp [World.log]
      | some user => simp [World.log]

theorem extractToken_bearer_witness :
    ' ' ∉ "user.jwt".data ∧ "user.jwt" ≠ "" ∧
    (demoRequest (some "Bearer user.jwt") "x" none).authorization =
      some ("Bearer " ++ "user.jwt") ∧
    ∃ rest, (authenticateToken demoCollaborators
        (demoRequest (some "Bearer user.jwt") "x" none) demoWorld).2.trace =
      demoWorld.trace ++ Call.jwtVerify "user.jwt" (jwtSecret demoCollaborators) :: rest :=
  ⟨by decide, by decide, by decide,
    (extractToken_bearer "user.jwt").2.2.2 (by decide) (by decide) demoCollaborators
      (demoRequest (some "Bearer user.jwt") "x" none) demoWorld (by decide)⟩

/-! ## Admin-only mutation routes -/

/-- C5: on every POST, PUT or DELETE route of the restaurant and menu routers, a request whose
token verifies and resolves to a stored identity that is not an admin gets 403 from
`requireAdmin`, whatever its body and whatever the controller behind the gate would do: the
controller is never run, the restaurant, menu and user collections are unchanged, and the only
collaborator calls made are the token verification and the identity lookup. -/
theorem nonAdmin_mutation_forbidden (c : Collaborators) (rctl : RestaurantController)
    (mctl : MenuController) (m : Method) (path : List String) (chain : List Handler)
    (req : Request) (w : World) (tok : String) (decoded : TokenPayload) (user : Identity)
    (hm : m = .POST ∨ m = .PUT ∨ m = .DELETE)
    (hroute : restaurantRouter c rctl m path = some chain ∨
      menuRouter c mctl m path = some chain)
    (htok : extractToken req.authorization = some tok) (hne : tok ≠ "")
    (hver : c.jwtVerify tok (jwtSecret c) = some decoded)
    (hfind : usersFindById c w decoded.userId = .ok (some user))
    (hrole : user.role ≠ "admin") :
    (runChain chain req w).1 =
      .respond ⟨403, messageBody "Accès réservé aux administrateurs"⟩ ∧
    (runChain chain req w).2.restaurants = w.restaurants ∧
    (runChain chain req w).2.menus = w.menus ∧
    (runChain chain req w).2.users = w.users ∧
    (runChain chain req w).2.trace =
      w.trace ++ [.jwtVerify tok (jwtSecret c), .usersFindById decoded.userId] := by
  have hauth := authenticateToken_identity_found c req w tok decoded user htok hne hver hfind
  have hgate : ∀ ctl : Handler,
      runChain [authenticateToken c, requireAdmin, ctl] req w =
        (.respond ⟨403, messageBody "Accès réservé aux administrateurs"⟩,
          (w.log (.jwtVerify tok (jwtSecret c))).log (.usersFindById decoded.userId)) := by
    intro ctl
    simp [runChain, hauth, requireAdmin, hrole]
  have hchain : ∃ ctl : Handler, chain = [authenticateToken c, requireAdmin, ctl] := by
    rcases hm with rfl | rfl | rfl <;> rcases hroute with h | h <;>
      rcases path with _ | ⟨seg, _ | ⟨seg2, rest⟩⟩ <;>
      simp [restaurantRouter, menuRouter] at h <;>
      exact ⟨_, h.symm⟩
  obtain ⟨ctl, rfl⟩ := hchain
  rw [hgate ctl]
  simp [World.log]

theorem nonAdmin_mutation_forbidden_witness :
    restaurantRouter demoCollaborators demoRestaurantController .DELETE
        ["64b7f00000000000000000a1"] =
      some [authenticateToken demoCollaborators, requireAdmin, demoWipe] ∧
    (selectWithoutPassword demoUser).role ≠ "admin" ∧
    (runChain [authenticateToken demoCollaborators, requireAdmin, demoWipe]
        (demoRequest (some "Bearer user.jwt") "64b7f00000000000000000a1" none) demoWorld).1 =
      .respond ⟨403, messageBody "Accès réservé aux administrateurs"⟩ ∧
    (runChain [authenticateToken demoCollaborators, requireAdmin, demoWipe]
        (demoRequest (some "Bearer user.jwt") "64b7f00000000000000000a1" none)
        demoWorld).2.restaurants = demoWorld.restaurants :=
  have h := nonAdmin_mutation_forbidden demoCollaborators demoRestaurantController
    demoMenuController .DELETE ["64b7f00000000000000000a1"]
    [authenticateToken demoCollaborators, requireAdmin, demoWipe]
    (demoRequest (some "Bearer user.jwt") "64b7f00000000000000000a1" none) demoWorld
    "user.jwt" ⟨some "64b7f0000000000000000002", some "guest@food.test", some "user"⟩
    (selectWithoutPassword demoUser)
    (Or.inr (Or.inr rfl)) (Or.inl rfl) (by decide) (by decide) rfl rfl (by decide)
  ⟨rfl, by decide, h.1, h.2.1⟩

/-! ## Pagination arithmetic -/

theorem digitChar_toNat (d : Nat) (h : d < 10) : (Nat.digitChar d).toNat = 48 + d := by
  interval_cases d <;> rfl

theorem radixDigit_decimal (ch : Char) (h1 : 48 ≤ ch.toNat) (h2 : ch.toNat ≤ 57) :
    radixDigit 10 ch = some (ch.toNat - 48) := by
  have e0 : '0'.toNat = 48 := rfl
  have e9 : '9'.toNat = 57 := rfl
  unfold radixDigit
  simp only [e0, e9, h1, h2, and_self, if_true, Option.filter]
  have : ch.toNat - 48 < 10 := by omega
  simp [this]

theorem toDigitsCore_chars (fuel : Nat) : ∀ (n : Nat) (ds : List Char),
    (∀ ch ∈ ds, 48 ≤ ch.toNat ∧ ch.toNat ≤ 57) →
    ∀ ch ∈ Nat.toDigitsCore 10 fuel n ds, 48 ≤ ch.toNat ∧ ch.toNat ≤ 57 := by
  induction fuel with
  | zero => intro n ds h; simpa [Nat.toDigitsCore] using h
  | succ fuel ih =>
    intro n ds h
    have hd : 48 ≤ (Nat.digitChar (n % 10)).toNat ∧ (Nat.digitChar (n % 10)).toNat ≤ 57 := by
      rw [digitChar_toNat (n % 10) (Nat.mod_lt _ (by decide))]
      have := Nat.mod_lt n (show 0 < 10 by decide)
      omega
    have hcons : ∀ ch ∈ Nat.digitChar (n % 10) :: ds, 48 ≤ ch.toNat ∧ ch.toNat ≤ 57 := by
      intro ch hch
      rcases List.mem_cons.mp hch with rfl | hmem
      · exact hd
      · exact h ch hmem
    unfold Nat.toDigitsCore
    simp only
    split
    · exact hcons
    · exact ih _ _ hcons

theorem readDigits_toDigitsCore (fuel : Nat) : ∀ (n : Nat) (ds : List Char), n < fuel →
    ∃ k, 0 < k ∧ ∀ acc count, readDigits 10 (Nat.toDigitsCore 10 fuel n ds) acc count =
      readDigits 10 ds (acc * 10 ^ k + n) (count + k) := by
  induction fuel with
  | zero => intro n ds h; omega
  | succ fuel ih =>
    intro n ds hn
    have hlt : n % 10 < 10 := Nat.mod_lt _ (by decide)
    have hrd : radixDigit 10 (Nat.digitChar (n % 10)) = some (n % 10) := by
      have hc := digitChar_toNat (n % 10) hlt
      rw [radixDigit_decimal _ (by omega) (by omega), hc]
      simp
    unfold Nat.toDigitsCore
    simp only
    split
    · next h0 =>
      refine ⟨1, by decide, fun acc count => ?_⟩
      have : n % 10 = n := by omega
      simp only [readDigits, hrd, pow_one]
      rw [this]
    · next h0 =>
      have hlt2 : n / 10 < fuel := by omega
      obtain ⟨k, hk, hrec⟩ := ih (n / 10) (Nat.digitChar (n % 10) :: ds) hlt2
      refine ⟨k + 1, by omega, fun acc count => ?_⟩
      rw [hrec]
      simp only [readDigits, hrd]
      have hv : (acc * 10 ^ k + n / 10) * 10 + n % 10 = acc * 10 ^ (k + 1) + n := by
        have := Nat.div_add_mod n 10
        rw [pow_succ]
        nlinarith [this]
      rw [hv, Nat.add_assoc]

theorem parseIntChars_digits (ds : List Char) (hall : ∀ ch ∈ ds, 48 ≤ ch.toNat ∧ ch.toNat ≤ 57) :
    parseIntChars ds =
      if (readDigits 10 ds 0 0).2 = 0 then none else some ((readDigits 10 ds 0 0).1 : Int) := by
  cases ds with
  | nil => simp [parseIntChars, readDigits]
  | cons c rest =>
    have hc := hall c (List.mem_cons_self _ _)
    have hws : isJsWhiteSpace c = false := by
      unfold isJsWhiteSpace
      simp
      omega
    have hminus : c ≠ '-' := by
      rintro rfl
      exact absurd hc.1 (by decide)
    have hplus : c ≠ '+' := by
      rintro rfl
      exact absurd hc.1 (by decide)
    have hx : ∀ r, rest = 'x' :: r → False := by
      rintro r rfl
      exact absurd (hall 'x' (by simp)).2 (by decide)
    have hX : ∀ r, rest = 'X' :: r → False := by
      rintro r rfl
      exact absurd (hall 'X' (by simp)).2 (by decide)
    have hsign : readSign (c :: rest) = (1, c :: rest) := by
      unfold readSign
      split
      · next r heq => simp at heq; exact absurd heq.1 hminus
      · next r heq => simp at heq; exact absurd heq.1 hplus
      · rfl
    have hradix : readRadixPrefix (c :: rest) = (10, c :: rest) := by
      unfold readRadixPrefix
      split
      · next r heq => simp at heq; exact (hx r heq.2).elim
      · next r heq => simp at heq; exact (hX r heq.2).elim
      · rfl
    unfold parseIntChars
    simp only [List.dropWhile, hws, hsign, hradix, one_mul]

theorem parseIntChars_numeral (p : Nat) : parseIntChars (toString p).data = some (p : Int) := by
  have hdata : (toString p).data = Nat.toDigits 10 p := rfl
  rw [hdata]
  have hall := toDigitsCore_chars (p + 1) p [] (by simp)
  obtain ⟨k, hk, hread⟩ := readDigits_toDigitsCore (p + 1) p [] (Nat.lt_succ_self p)
  have hr := hread 0 0
  simp only [readDigits, zero_mul, zero_add] at hr
  unfold Nat.toDigits
  rw [parseIntChars_digits _ hall, hr]
  simp
  omega

/-- Values that `parseInt` turns into `NaN` or `0` do fall back to the default. -/
theorem numOr_falsy (dflt : Int) : numOr none dflt = dflt ∧ numOr (some 0) dflt = dflt := by
  simp [numOr]

/-- A non-zero number is kept by `n || dflt`, whatever its sign. -/
theorem numOr_nonzero (k dflt : Int) (hk : k ≠ 0) : numOr (some k) dflt = k := by
  simp [numOr, hk]

/-- C6 (failing input): the query `page=-1` is not replaced by the default: the effective page
is `-1` and the skip offset is `-20`; likewise `limit=-5` gives the effective limit `-5`. Only
`0` and non-numeric text fall back to the defaults (`page=0&limit=abc` gives 1, 10, 0). -/
theorem parsePaging_negative_not_defaulted :
    parsePaging [("page", .text "-1")] = { page := -1, limit := 10, skip := -20 } ∧
    (parsePaging [("page", .text "-1")]).skip < 0 ∧
    parsePaging [("limit", .text "-5")] = { page := 1, limit := -5, skip := 0 } ∧
    parsePaging [("page", .text "0"), ("limit", .text "abc")] =
      { page := 1, limit := 10, skip := 0 } := by
  refine ⟨by decide, by decide, by decide, by decide⟩

theorem toNumber_of_lt (n : Int) (h : n.natAbs < 2 ^ 53) : toNumber n = n := by
  have he : excessBits n.natAbs n.natAbs = 0 := by
    cases hm : n.natAbs with
    | zero => rfl
    | succ k =>
      rw [hm] at h
      have h1 : k + 1 < 9007199254740992 := by
        have : (2 : Nat) ^ 53 = 9007199254740992 := by norm_num
        omega
      simp only [excessBits]
      rw [if_pos (by norm_num; omega)]
  unfold toNumber
  simp only [he, pow_zero, Nat.div_one, Nat.mod_one, mul_zero, mul_one]
  have hup : (decide (1 < 0) || (decide (0 = 1) && n.natAbs % 2 == 1)) = false := by simp
  rw [hup]
  simp only [Bool.false_eq_true, if_false]
  split
  · omega
  · omega

theorem excessBits_pow_le (fuel m : Nat) (hm : 1 ≤ m) : 2 ^ excessBits fuel m ≤ m := by
  induction fuel generalizing m with
  | zero => simpa [excessBits] using hm
  | succ k ih =>
    unfold excessBits
    split
    · simpa using hm
    · next hge =>
      have h2 : 1 ≤ m / 2 := by
        have : 2 ≤ m := by
          have : 2 ^ 53 ≤ m := Nat.le_of_not_lt hge
          have h53 : 2 ≤ 2 ^ 53 := by norm_num
          omega
        omega
      have := ih (m / 2) h2
      rw [pow_succ]
      have hdiv : m / 2 * 2 ≤ m := Nat.div_mul_le_self m 2
      calc 2 ^ excessBits k (m / 2) * 2 ≤ m / 2 * 2 := Nat.mul_le_mul_right 2 this
        _ ≤ m := hdiv

/-- Rounding to a Number keeps the sign: the rounded value is positive exactly when the integer
is. -/
theorem toNumber_pos_iff (n : Int) : 0 < toNumber n ↔ 0 < n := by
  constructor
  · intro h
    by_contra hn
    have hle : n ≤ 0 := by omega
    rcases lt_or_eq_of_le hle with hlt | heq
    · unfold toNumber at h
      simp only [hlt, if_true] at h
      omega
    · rw [heq] at h
      exact absurd h (by decide)
  · intro h
    have hm : 1 ≤ n.natAbs := by omega
    have hpow := excessBits_pow_le n.natAbs n.natAbs hm
    have hq : 1 ≤ n.natAbs / 2 ^ excessBits n.natAbs n.natAbs :=
      Nat.div_pos hpow (Nat.pow_pos (by norm_num))
    have hpos : 0 < 2 ^ excessBits n.natAbs n.natAbs := Nat.pow_pos (by norm_num)
    unfold toNumber
    simp only [not_lt.mpr (le_of_lt h), if_false]
    split
    · exact_mod_cast Nat.mul_pos (by omega) hpos
    · exact_mod_cast Nat.mul_pos (by omega) hpos

/-- C7 (counterexample): the page text `9007199254740993` denotes the integer `2 ^ 53 + 1`, but
the effective page is `9007199254740992`: `parseInt` returns a Number, and that integer is not
one. -/
theorem parsePaging_large_page_rounded :
    queryGet [("page", .text "9007199254740993")] "page" =
      .text (toString 9007199254740993) ∧
    (parsePaging [("page", .text "9007199254740993")]).page = 9007199254740992 ∧
    (parsePaging [("page", .text "9007199254740993")]).page ≠ 9007199254740993 := by
  refine ⟨by decide, by decide, by decide⟩

/-- C7 (amended): in the pagination shared by the three listing operations, a page text that is
the decimal numeral of `p` with `1 ≤ p < 2 ^ 53` gives the effective page `p`, a limit text
that is the numeral of `l` with `1 ≤ l < 2 ^ 53` gives the effective limit `l`, no other bound
being applied; when moreover `(p - 1) * l < 2 ^ 53` the skip offset is exactly `(p - 1) * l`;
and a missing page or limit gives 1 and 10. -/
theorem parsePaging_numerals (query : List (String × QVal)) :
    (∀ p : Nat, 1 ≤ p → p < 2 ^ 53 → queryGet query "page" = .text (toString p) →
      (parsePaging query).page = p) ∧
    (∀ l : Nat, 1 ≤ l → l < 2 ^ 53 → queryGet query "limit" = .text (toString l) →
      (parsePaging query).limit = l) ∧
    (∀ p l : Nat, 1 ≤ p → 1 ≤ l → p < 2 ^ 53 → l < 2 ^ 53 → (p - 1) * l < 2 ^ 53 →
      queryGet query "page" = .text (toString p) →
      queryGet query "limit" = .text (toString l) →
      parsePaging query = { page := p, limit := l, skip := ((p - 1) * l : Nat) }) ∧
    (queryGet query "page" = .absent → (parsePaging query).page = 1) ∧
    (queryGet query "limit" = .absent → (parsePaging query).limit = 10) := by
  have hnum : ∀ k : Nat, k < 2 ^ 53 → toNumber (k : Int) = k := by
    intro k hk
    apply toNumber_of_lt
    simpa using hk
  have hpage : ∀ p : Nat, 1 ≤ p → p < 2 ^ 53 → queryGet query "page" = .text (toString p) →
      (parsePaging query).page = p := by
    intro p hp hb hq
    have hne : (p : Int) ≠ 0 := by omega
    simp [parsePaging, hq, parseInt, QVal.toJsString, parseIntChars_numeral, numOr, hnum p hb,
      hne]
  have hlimit : ∀ l : Nat, 1 ≤ l → l < 2 ^ 53 → queryGet query "limit" = .text (toString l) →
      (parsePaging query).limit = l := by
    intro l hl hb hq
    have hne : (l : Int) ≠ 0 := by omega
    simp [parsePaging, hq, parseInt, QVal.toJsString, parseIntChars_numeral, numOr, hnum l hb,
      hne]
  refine ⟨hpage, hlimit, ?_, ?_, ?_⟩
  · intro p l hp hl hbp hbl hbs hqp hql
    have h1 := hpage p hp hbp hqp
    have h2 := hlimit l hl hbl hql
    have h3 : (parsePaging query).skip =
        toNumber (toNumber ((parsePaging query).page - 1) * (parsePaging query).limit) := rfl
    have h5 : ((p : Int) - 1) = ((p - 1 : Nat) : Int) := by
      rw [Nat.cast_sub hp]
      simp
    have h6 : toNumber ((p : Int) - 1) = ((p - 1 : Nat) : Int) := by
      rw [h5]
      exact hnum (p - 1) (by omega)
    have h7 : toNumber (((p - 1 : Nat) : Int) * (l : Int)) = (((p - 1) * l : Nat) : Int) := by
      rw [← Nat.cast_mul]
      exact hnum ((p - 1) * l) hbs
    cases hq : parsePaging query with
    | mk page limit skip =>
      rw [hq] at h1 h2 h3
      simp only at h1 h2 h3
      rw [h3, h1, h2, h6, h7]
  · intro hq
    have : parseIntChars "undefined".data = none := by decide
    simp [parsePaging, hq, parseInt, QVal.toJsString, this, numOr]
  · intro hq
    have : parseIntChars "undefined".data = none := by decide
    simp [parsePaging, hq, parseInt, QVal.toJsString, this, numOr]

theorem parsePaging_numerals_witness :
    queryGet [("page", .text "3"), ("limit", .text "250")] "page" = .text (toString 3) ∧
    queryGet [("page", .text "3"), ("limit", .text "250")] "limit" = .text (toString 250) ∧
    (3 - 1) * 250 < 2 ^ 53 ∧
    parsePaging [("page", .text "3"), ("limit", .text "250")] =
      { page := (3 : Nat), limit := (250 : Nat), skip := ((3 - 1) * 250 : Nat) } :=
  ⟨by decide, by decide, by norm_num,
    (parsePaging_numerals [("page", .text "3"), ("limit", .text "250")]).2.2.1 3 250
      (by decide) (by decide) (by norm_num) (by norm_num) (by norm_num) (by decide)
      (by decide)⟩

/-- C8: for every effective limit `> 0` and every total count, the reported `totalPages` is
the ceiling of `total / limit`: it is `0` when `total` is `0`, and in general the least `n`
with `n * limit ≥ total`. -/
theorem totalPages_ceiling (p : Paging) (total : Nat) (hlimit : 0 < p.limit) :
    (paginationInfo p total).totalPages = ⌈(total : ℚ) / (p.limit : ℚ)⌉ ∧
    (total = 0 → (paginationInfo p total).totalPages = 0) ∧
    (total : Int) ≤ (paginationInfo p total).totalPages * p.limit ∧
    (∀ n : Int, (total : Int) ≤ n * p.limit → (paginationInfo p total).totalPages ≤ n) := by
  have hq : (0 : ℚ) < (p.limit : ℚ) := by exact_mod_cast hlimit
  have hdef : (paginationInfo p total).totalPages = ⌈((total : Int) : ℚ) / (p.limit : ℚ)⌉ := rfl
  refine ⟨by rw [hdef]; simp, ?_, ?_, ?_⟩
  · intro h0
    rw [hdef, h0]
    simp
  · have h := Int.le_ceil (((total : Int) : ℚ) / (p.limit : ℚ))
    rw [← hdef] at h
    rw [div_le_iff₀ hq] at h
    exact_mod_cast h
  · intro n hn
    rw [hdef, Int.ceil_le, div_le_iff₀ hq]
    exact_mod_cast hn

theorem totalPages_ceiling_witness :
    0 < (parsePaging [("limit", .text "10")]).limit ∧
    (paginationInfo (parsePaging [("limit", .text "10")]) 21).totalPages =
      ⌈((21 : Nat) : ℚ) / ((parsePaging [("limit", .text "10")]).limit : ℚ)⌉ :=
  ⟨by decide, (totalPages_ceiling (parsePaging [("limit", .text "10")]) 21 (by decide)).1⟩

/-- C9 (failing input): for the query `limit=-5` the reported `currentPage` is `1`, the
reported `limit` is `-5` and the skip offset is `0`, so `currentPage * limit = -5` is below
the skip offset. -/
theorem currentPage_times_limit_below_skip :
    (paginationInfo (parsePaging [("limit", .text "-5")]) 3).currentPage = 1 ∧
    (paginationInfo (parsePaging [("limit", .text "-5")]) 3).limit = -5 ∧
    (parsePaging [("limit", .text "-5")]).skip = 0 ∧
    ¬ ((paginationInfo (parsePaging [("limit", .text "-5")]) 3).currentPage *
        (paginationInfo (parsePaging [("limit", .text "-5")]) 3).limit ≥
      (parsePaging [("limit", .text "-5")]).skip) := by
  refine ⟨by decide, by decide, by decide, by decide⟩

/-- Whenever the effective limit is not negative and `page - 1` and `(page - 1) * limit` are
below `2 ^ 53` in magnitude, so that they are Numbers, `currentPage * limit ≥ skip` does hold. -/
theorem currentPage_times_limit_ge_skip (query : List (String × QVal)) (total : Int)
    (h : 0 ≤ (parsePaging query).limit)
    (hp : ((parsePaging query).page - 1).natAbs < 2 ^ 53)
    (hs : (((parsePaging query).page - 1) * (parsePaging query).limit).natAbs < 2 ^ 53) :
    (parsePaging query).skip ≤
      (paginationInfo (parsePaging query) total).currentPage *
        (paginationInfo (parsePaging query) total).limit := by
  have h3 : (parsePaging query).skip =
      toNumber (toNumber ((parsePaging query).page - 1) * (parsePaging query).limit) := rfl
  have h4 : (paginationInfo (parsePaging query) total).currentPage = (parsePaging query).page :=
    rfl
  have h5 : (paginationInfo (parsePaging query) total).limit = (parsePaging query).limit := rfl
  rw [h3, h4, h5, toNumber_of_lt _ hp, toNumber_of_lt _ hs]
  nlinarith

/-! ## Sort specification -/

theorem sortObjectOf_contract (allowed : List String) (dflt : String)
    (query : List (String × QVal)) (hdflt : dflt ∈ allowed) (hempty : "" ∉ allowed) :
    SortContract allowed dflt query (sortObjectOf allowed dflt query) := by
  have hdir : ∀ dir : Int,
      dir = (if queryGet query "sortOrder" = .text "desc" then (-1 : Int) else 1) →
      (dir = -1 ↔ queryGet query "sortOrder" = .text "desc") ∧
      (queryGet query "sortOrder" ≠ .text "desc" → dir = 1) := by
    intro dir hd
    by_cases h : queryGet query "sortOrder" = .text "desc"
    · simp [hd, h]
    · simp [hd, h]
  unfold SortContract sortObjectOf
  cases hq : queryGet query "sortBy" with
  | absent =>
    refine ⟨dflt, _, ?_, ?_, ?_, hdflt, hdir _ rfl⟩
    · simp [QVal.truthy, hdflt]
    · intro s hs; cases hs
    · intro _; rfl
  | nonString r =>
    refine ⟨dflt, _, ?_, ?_, ?_, hdflt, hdir _ rfl⟩
    · simp [QVal.truthy]
    · intro s hs; cases hs
    · intro _; rfl
  | text s =>
    by_cases hs : s ∈ allowed
    · have hne : s ≠ "" := fun e => hempty (e ▸ hs)
      refine ⟨s, _, ?_, ?_, ?_, hs, hdir _ rfl⟩
      · simp [QVal.truthy, hne, hs]
      · intro s2 h2 _
        cases h2
        rfl
      · intro hall
        exact absurd hs (hall s rfl)
    · refine ⟨dflt, _, ?_, ?_, ?_, hdflt, hdir _ rfl⟩
      · by_cases hne : s = ""
        · simp [QVal.truthy, hne, hdflt]
        · simp [QVal.truthy, hne, hs]
      · intro s2 h2 hmem
        cases h2
        exact absurd hmem hs
      · intro _; rfl

/-- C10: for every `sortBy` and `sortOrder` query value, each listing operation builds a sort
object with exactly one key; the key is `sortBy` when it belongs to the operation's allow-list
(`getAllMenus`: name, price, category, createdAt; `getAllRestaurants`: name, address,
createdAt; `getMenusByRestaurant`: name, price, category) and otherwise the operation's
default (name, name, category), never the raw value; the direction is `-1` exactly when
`sortOrder` is the string `desc` and `1` for anything else, a missing value included. -/
theorem listing_sort_contract (query : List (String × QVal)) :
    SortContract ["name", "price", "category", "createdAt"] "name" query
      (getAllMenusSort query) ∧
    SortContract ["name", "address", "createdAt"] "name" query (getAllRestaurantsSort query) ∧
    SortContract ["name", "price", "category"] "category" query
      (getMenusByRestaurantSort query) :=
  ⟨sortObjectOf_contract _ _ query (by decide) (by decide),
   sortObjectOf_contract _ _ query (by decide) (by decide),
   sortObjectOf_contract _ _ query (by decide) (by decide)⟩

/-! ## Price filter -/

theorem parseFloat_ten : parseFloat (.text "10") = .fin 10 := by
  have hs : readSign (List.dropWhile isJsWhiteSpace "10".data) = (1, ['1', '0']) := by decide
  have hinf : ¬ ("Infinity".data <+: ['1', '0']) := by decide
  have hw : spanDecimal ['1', '0'] = (10, 2, []) := by decide
  simp only [parseFloat, QVal.toJsString, parseFloatChars, hs, hinf, hw, readExponent]
  norm_num

theorem JsNum.le_fin (a b : ℚ) : JsNum.le (.fin a) (.fin b) = true ↔ a ≤ b := by
  simp [JsNum.le]

/-- C11: in `getAllMenus`, when neither `minPrice` nor `maxPrice` is supplied the filter has no
price constraint; otherwise its price constraint holds `$gte = parseFloat(minPrice)` exactly
when `minPrice` is supplied and `$lte = parseFloat(maxPrice)` exactly when `maxPrice` is, and a
price satisfies it iff (`minPrice` is not supplied or `minPrice ≤ price`) and (`maxPrice` is not
supplied or `price ≤ maxPrice`), both bounds inclusive. So `minPrice=10&maxPrice=10` admits
exactly the price 10, and `minPrice` alone admits every price at least `minPrice`. -/
theorem getAllMenus_price_filter (query : List (String × QVal)) :
    ((queryGet query "minPrice").truthy = false → (queryGet query "maxPrice").truthy = false →
      (getAllMenusFilter query).price = none) ∧
    (((queryGet query "minPrice").truthy = true ∨ (queryGet query "maxPrice").truthy = true) →
      ∃ r, (getAllMenusFilter query).price = some r ∧
        ∀ price : ℚ, priceAdmits r price = true ↔
          (((queryGet query "minPrice").truthy = false ∨
              JsNum.le (parseFloat (queryGet query "minPrice")) (.fin price) = true) ∧
           ((queryGet query "maxPrice").truthy = false ∨
              JsNum.le (.fin price) (parseFloat (queryGet query "maxPrice")) = true))) ∧
    (queryGet query "minPrice" = .text "10" → queryGet query "maxPrice" = .text "10" →
      ∃ r, (getAllMenusFilter query).price = some r ∧
        ∀ price : ℚ, priceAdmits r price = true ↔ price = 10) ∧
    (∀ bound : ℚ, (queryGet query "minPrice").truthy = true →
      parseFloat (queryGet query "minPrice") = .fin bound →
      (queryGet query "maxPrice").truthy = false →
      ∃ r, (getAllMenusFilter query).price = some r ∧
        ∀ price : ℚ, priceAdmits r price = true ↔ bound ≤ price) := by
  refine ⟨?_, ?_, ?_, ?_⟩
  · intro h1 h2
    simp [getAllMenusFilter, h1, h2]
  · intro h
    have hor : ((queryGet query "minPrice").truthy || (queryGet query "maxPrice").truthy) = true := by
      rcases h with h | h <;> simp [h]
    refine ⟨_, by simp only [getAllMenusFilter, hor, if_true]; rfl, ?_⟩
    intro price
    cases h1 : (queryGet query "minPrice").truthy <;>
      cases h2 : (queryGet query "maxPrice").truthy <;>
      simp [priceAdmits]
  · intro h1 h2
    have ht : (QVal.text "10").truthy = true := by decide
    refine ⟨_, by simp only [getAllMenusFilter, h1, h2, ht, Bool.or_self, if_true]; rfl, ?_⟩
    intro price
    simp only [ht, if_true, priceAdmits, parseFloat_ten, JsNum.le, Bool.and_eq_true,
      decide_eq_true_eq]
    constructor
    · rintro ⟨ha, hb⟩
      exact le_antisymm hb ha
    · rintro rfl
      exact ⟨le_refl _, le_refl _⟩
  · intro bound h1 hb h2
    refine ⟨_, by simp only [getAllMenusFilter, h1, h2, Bool.true_or, if_true]; rfl, ?_⟩
    intro price
    simp [priceAdmits, hb, JsNum.le]

theorem getAllMenus_price_filter_witness :
    queryGet [("minPrice", .text "10"), ("maxPrice", .text "10")] "minPrice" = .text "10" ∧
    queryGet [("minPrice", .text "10"), ("maxPrice", .text "10")] "maxPrice" = .text "10" ∧
    ∃ r, (getAllMenusFilter [("minPrice", .text "10"), ("maxPrice", .text "10")]).price =
        some r ∧
      ∀ price : ℚ, priceAdmits r price = true ↔ price = 10 :=
  ⟨by decide, by decide,
    (getAllMenus_price_filter [("minPrice", .text "10"), ("maxPrice", .text "10")]).2.2.1
      (by decide) (by decide)⟩

/-! ## Text search -/

/-- C12 (counterexample): with the search term `a.c` the filter of `getAllRestaurants` admits
a restaurant named `abc`, although `a.c` is a substring of neither its name nor its address:
the term is used as a regular expression, in which `.` stands for any character. -/
theorem search_term_is_a_pattern :
    (∃ admits, castRestaurantFilter demoCollaborators
        (getAllRestaurantsFilter [("search", .text "a.c")]) = .ok admits ∧
      admits { _id := ⟨"64b7f00000000000000000a2"⟩, name := "abc", address := "1 Main St",
               phone := "555", opening_hours := "9-5" } = true) ∧
    ¬ CiContains "abc" "a.c" ∧ ¬ CiContains "1 Main St" "a.c" :=
  ⟨⟨_, rfl, by decide⟩, by decide, by decide⟩

/-- C12 (amended): when `search` is absent neither listing adds a text constraint. For a
non-empty search term `s`, both listings put `s` in the filter as a regular expression with
option `i` on the two text fields: `getAllRestaurants` admits a restaurant iff the expression
finds a match in its name or its address, and the text constraint of `getAllMenus` holds iff
it finds a match in the name or the description. When the expression `s` denotes the
case-insensitive substring search for `s` (as it does when `s` has no metacharacter), this is
containment of `s` as a case-insensitive substring. -/
theorem text_search_is_regex (c : Collaborators) (query : List (String × QVal)) :
    (queryGet query "search" = .absent →
      (getAllRestaurantsFilter query).search = none ∧ (getAllMenusFilter query).search = none) ∧
    (∀ (s : String) (found : String → Bool), queryGet query "search" = .text s → s ≠ "" →
      c.regexSearchI s = some found →
      (∃ admits, castRestaurantFilter c (getAllRestaurantsFilter query) = .ok admits ∧
        (∀ r : RestaurantDoc, admits r = (found r.name || found r.address)) ∧
        ((∀ subject, found subject = decide (CiContains subject s)) →
          ∀ r : RestaurantDoc, admits r = true ↔ CiContains r.name s ∨ CiContains r.address s)) ∧
      castSearch c (getAllMenusFilter query).search = .ok (some found) ∧
      (∀ m : MenuDoc, searchAdmits (some found) m.name m.description =
        (found m.name || found m.description)) ∧
      ((∀ subject, found subject = decide (CiContains subject s)) →
        ∀ m : MenuDoc, searchAdmits (some found) m.name m.description = true ↔
          CiContains m.name s ∨ CiContains m.description s)) := by
  refine ⟨?_, ?_⟩
  · intro h
    simp [getAllRestaurantsFilter, getAllMenusFilter, whenTruthy, h, QVal.truthy]
  · intro s found hq hne hre
    have ht : (QVal.text s).truthy = true := by simp [QVal.truthy, hne]
    have hr : (getAllRestaurantsFilter query).search = some (.text s) := by
      simp [getAllRestaurantsFilter, whenTruthy, hq, ht]
    have hm : (getAllMenusFilter query).search = some (.text s) := by
      simp [getAllMenusFilter, whenTruthy, hq, ht]
    have hcast : castSearch c (some (.text s)) = .ok (some found) := by
      simp [castSearch, hre]
    refine ⟨⟨fun r => searchAdmits (some found) r.name r.address, ?_, fun r => rfl, ?_⟩,
      by rw [hm, hcast], fun m => rfl, ?_⟩
    · simp [castRestaurantFilter, hr, hcast]
    · intro hlit r
      simp [searchAdmits, hlit]
    · intro hlit m
      simp [searchAdmits, hlit]

theorem text_search_is_regex_witness :
    queryGet [("search", .text "pizza")] "search" = .text "pizza" ∧ "pizza" ≠ "" ∧
    demoCollaborators.regexSearchI "pizza" =
      some (fun subject => decide (CiContains subject "pizza")) ∧
    ∃ admits, castRestaurantFilter demoCollaborators
        (getAllRestaurantsFilter [("search", .text "pizza")]) = .ok admits ∧
      (∀ r : RestaurantDoc, admits r =
        (decide (CiContains r.name "pizza") || decide (CiContains r.address "pizza"))) ∧
      ((∀ subject, decide (CiContains subject "pizza") = decide (CiContains subject "pizza")) →
        ∀ r : RestaurantDoc, admits r = true ↔
          CiContains r.name "pizza" ∨ CiContains r.address "pizza") :=
  ⟨by decide, by decide, rfl,
    ((text_search_is_regex demoCollaborators [("search", .text "pizza")]).2 "pizza"
      (fun subject => decide (CiContains subject "pizza")) (by decide) (by decide) rfl).1⟩

/-! ## Pagination object of the listing responses -/

theorem restaurantsCount_eq (c : Collaborators) (w : World) (f : RestaurantFilter) (total : Nat)
    (h : restaurantsCountDocuments c w f = .ok total) :
    ∃ admits, castRestaurantFilter c f = .ok admits ∧
      total = (w.restaurants.filter admits).length := by
  unfold restaurantsCountDocuments at h
  cases hc : castRestaurantFilter c f with
  | error e => rw [hc] at h; cases h
  | ok admits =>
    rw [hc] at h
    simp only [Except.ok.injEq] at h
    exact ⟨admits, rfl, h.symm⟩

theorem menusCount_eq (c : Collaborators) (w : World) (f : MenuFilter) (total : Nat)
    (h : menusCountDocuments c w f = .ok total) :
    ∃ admits, castMenuFilter c f = .ok admits ∧ total = (w.menus.filter admits).length := by
  unfold menusCountDocuments at h
  cases hc : castMenuFilter c f with
  | error e => rw [hc] at h; cases h
  | ok admits =>
    rw [hc] at h
    simp only [Except.ok.injEq] at h
    exact ⟨admits, rfl, h.symm⟩

/-- C13 (counterexample): the 200 response of `getAllRestaurants` on the sample store has a
pagination object whose keys are `currentPage`, `totalPages`, `totalRestaurants`,
`hasNextPage`, `hasPrevPage`, `limit`; there is no key `totalItems`. -/
theorem pagination_has_no_totalItems :
    ((getAllRestaurants demoCollaborators (demoRequest none "x" none) demoWorld).1.response?.map
      (fun res => res.status)) = some 200 ∧
    ((getAllRestaurants demoCollaborators (demoRequest none "x" none) demoWorld).1.response?.bind
      (fun res => (res.body.field "pagination").map Json.keys)) =
      some ["currentPage", "totalPages", "totalRestaurants", "hasNextPage", "hasPrevPage",
        "limit"] ∧
    "totalItems" ∉ ["currentPage", "totalPages", "totalRestaurants", "hasNextPage",
      "hasPrevPage", "limit"] := by
  refine ⟨by decide, by decide, by decide⟩

/-- C13 (amended): every 200 response of `getAllRestaurants`, `getAllMenus` and
`getMenusByRestaurant` carries a pagination object whose fields are exactly `currentPage`,
`totalPages`, the total under the key `totalRestaurants` (restaurants) or `totalMenus` (menus),
`hasNextPage`, `hasPrevPage` and `limit`, the total being the number of stored records that the
filter of the request admits. -/
theorem listing_pagination_object (c : Collaborators) (req : Request) (w : World)
    (res : Response) (w1 : World) (hstatus : res.status = 200) :
    (getAllRestaurants c req w = (.respond res, w1) →
      ∃ admits, castRestaurantFilter c (getAllRestaurantsFilter req.query) = .ok admits ∧
        res.body.field "pagination" = some (paginationJson "totalRestaurants"
          (paginationInfo (parsePaging req.query) (w.restaurants.filter admits).length)) ∧
        (res.body.field "pagination").map Json.keys = some ["currentPage", "totalPages",
          "totalRestaurants", "hasNextPage", "hasPrevPage", "limit"]) ∧
    (getAllMenus c req w = (.respond res, w1) →
      ∃ admits, castMenuFilter c (getAllMenusFilter req.query) = .ok admits ∧
        res.body.field "pagination" = some (paginationJson "totalMenus"
          (paginationInfo (parsePaging req.query) (w.menus.filter admits).length)) ∧
        (res.body.field "pagination").map Json.keys = some ["currentPage", "totalPages",
          "totalMenus", "hasNextPage", "hasPrevPage", "limit"]) ∧
    (getMenusByRestaurant c req w = (.respond res, w1) →
      ∃ admits, castMenuFilter c
          (getMenusByRestaurantFilter (req.params.lookup "restaurantId") req.query) =
          .ok admits ∧
        res.body.field "pagination" = some (paginationJson "totalMenus"
          (paginationInfo (parsePaging req.query) (w.menus.filter admits).length)) ∧
        (res.body.field "pagination").map Json.keys = some ["currentPage", "totalPages",
          "totalMenus", "hasNextPage", "hasPrevPage", "limit"]) := by
  refine ⟨?_, ?_, ?_⟩
  · intro h
    unfold getAllRestaurants at h
    simp only at h
    split at h
    · simp only [Prod.mk.injEq, Outcome.respond.injEq] at h
      rw [← h.1] at hstatus
      simp at hstatus
    · split at h
      · simp only [Prod.mk.injEq, Outcome.respond.injEq] at h
        rw [← h.1] at hstatus
        simp at hstatus
      · next total hcount =>
        obtain ⟨admits, hcast, htotal⟩ := restaurantsCount_eq _ _ _ _ hcount
        simp only [Prod.mk.injEq, Outcome.respond.injEq] at h
        refine ⟨admits, hcast, ?_, ?_⟩
        · rw [← h.1, htotal]
          simp [Json.field, List.lookup, World.log]
        · rw [← h.1]
          simp [Json.field, List.lookup, paginationJson, Json.keys]
  · intro h
    unfold getAllMenus at h
    simp only at h
    split at h
    · simp only [Prod.mk.injEq, Outcome.respond.injEq] at h
      rw [← h.1] at hstatus
      simp at hstatus
    · split at h
      · simp only [Prod.mk.injEq, Outcome.respond.injEq] at h
        rw [← h.1] at hstatus
        simp at hstatus
      · next total hcount =>
        obtain ⟨admits, hcast, htotal⟩ := menusCount_eq _ _ _ _ hcount
        simp only [Prod.mk.injEq, Outcome.respond.injEq] at h
        refine ⟨admits, hcast, ?_, ?_⟩
        · rw [← h.1, htotal]
          simp [Json.field, List.lookup, World.log]
        · rw [← h.1]
          simp [Json.field, List.lookup, paginationJson, Json.keys]
  · intro h
    unfold getMenusByRestaurant at h
    simp only at h
    split at h
    · simp only [Prod.mk.injEq, Outcome.respond.injEq] at h
      rw [← h.1] at hstatus
      simp at hstatus
    · simp only [Prod.mk.injEq, Outcome.respond.injEq] at h
      rw [← h.1] at hstatus
      simp at hstatus
    · split at h
      · simp only [Prod.mk.injEq, Outcome.respond.injEq] at h
        rw [← h.1] at hstatus
        simp at hstatus
      · split at h
        · simp only [Prod.mk.injEq, Outcome.respond.injEq] at h
          rw [← h.1] at hstatus
          simp at hstatus
        · next total hcount =>
          obtain ⟨admits, hcast, htotal⟩ := menusCount_eq _ _ _ _ hcount
          simp only [Prod.mk.injEq, Outcome.respond.injEq] at h
          refine ⟨admits, hcast, ?_, ?_⟩
          · rw [← h.1, htotal]
            simp [Json.field, List.lookup, World.log]
          · rw [← h.1]
            simp [Json.field, List.lookup, paginationJson, Json.keys]

theorem listing_pagination_object_witness :
    getAllRestaurants demoCollaborators (demoRequest none "x" none) demoWorld =
      (.respond ⟨200, .obj [("message", .str "Restaurants récupérés avec succès"),
          ("restaurants", .arr (demoWorld.restaurants.map restaurantJson)),
          ("pagination", paginationJson "totalRestaurants"
            (paginationInfo (parsePaging []) (1 : Nat)))]⟩,
        (demoWorld.log .restaurantRead).log .restaurantRead) ∧
    ∃ admits, castRestaurantFilter demoCollaborators
        (getAllRestaurantsFilter (demoRequest none "x" none).query) = .ok admits ∧
      (Json.obj [("message", .str "Restaurants récupérés avec succès"),
          ("restaurants", .arr (demoWorld.restaurants.map restaurantJson)),
          ("pagination", paginationJson "totalRestaurants"
            (paginationInfo (parsePaging []) (1 : Nat)))]).field "pagination" =
        some (paginationJson "totalRestaurants"
          (paginationInfo (parsePaging (demoRequest none "x" none).query)
            (demoWorld.restaurants.filter admits).length)) ∧
      ((Json.obj [("message", .str "Restaurants récupérés avec succès"),
          ("restaurants", .arr (demoWorld.restaurants.map restaurantJson)),
          ("pagination", paginationJson "totalRestaurants"
            (paginationInfo (parsePaging []) (1 : Nat)))]).field "pagination").map Json.keys =
        some ["currentPage", "totalPages", "totalRestaurants", "hasNextPage", "hasPrevPage",
          "limit"] :=
  ⟨rfl, (listing_pagination_object demoCollaborators (demoRequest none "x" none) demoWorld
    ⟨200, .obj [("message", .str "Restaurants récupérés avec succès"),
          ("restaurants", .arr (demoWorld.restaurants.map restaurantJson)),
          ("pagination", paginationJson "totalRestaurants"
            (paginationInfo (parsePaging []) (1 : Nat)))]⟩
    ((demoWorld.log .restaurantRead).log .restaurantRead) rfl).1 rfl⟩

/-! ## Registration -/

theorem usersSave_ok (c : Collaborators) (w w1 : World) (d : UserDraft) (saved : Identity)
    (h : usersSave c w d = .ok (saved, w1)) :
    d.valid = true ∧
    saved = { _id := c.newObjectId w, username := d.username.getD "",
              email := d.email.getD "", password := d.password, role := d.role.getD "user" } ∧
    w1 = { w with users := w.users ++ [saved] } := by
  unfold usersSave at h
  split at h
  · cases h
  · next hv =>
    split at h
    · cases h
    · simp only [Except.ok.injEq, Prod.mk.injEq] at h
      refine ⟨by simpa using hv, h.1.symm, ?_⟩
      rw [← h.2, ← h.1]

/-- What a successful registration did: no stored identity had the email or the username, the
password was hashed, and the identity built from the body was appended to the store. -/
theorem createUser_created (c : Collaborators) (req : Request) (w w1 : World) (res : Response)
    (h : createUser c req w = (.respond res, w1)) (hstatus : res.status = 201) :
    ∃ p saved,
      bodyText req.body "password" = some p ∧
      w.users.find? (fun u => some u.email == bodyText req.body "email" ||
        some u.username == bodyText req.body "username") = none ∧
      (UserDraft.mk (bodyText req.body "username") (bodyText req.body "email")
        (some (c.bcryptHash p 10))
        (some (if truthy (bodyText req.body "role") then (bodyText req.body "role").getD ""
          else "user"))).valid = true ∧
      saved.username = (bodyText req.body "username").getD "" ∧
      saved.email = (bodyText req.body "email").getD "" ∧
      saved.password = some (c.bcryptHash p 10) ∧
      saved.role = (if truthy (bodyText req.body "role") then (bodyText req.body "role").getD ""
        else "user") ∧
      w1.users = w.users ++ [saved] ∧
      w1.restaurants = w.restaurants ∧ w1.menus = w.menus ∧
      w1.trace = w.trace ++ [.usersFindOne, .bcryptHash (some p), .usersSave] ∧
      res = ⟨201, .obj [("message", .str "Utilisateur créé avec succès"),
        ("user", .obj (omitKey "password" (identityFields saved)))]⟩ := by
  unfold createUser at h
  simp only at h
  split at h
  · simp only [Prod.mk.injEq, Outcome.respond.injEq] at h
    rw [← h.1] at hstatus
    simp at hstatus
  · next hfind =>
    split at h
    · simp only [Prod.mk.injEq, Outcome.respond.injEq] at h
      rw [← h.1] at hstatus
      simp at hstatus
    · next hashed hhash =>
      split at h
      · simp only [Prod.mk.injEq, Outcome.respond.injEq] at h
        rw [← h.1] at hstatus
        simp at hstatus
      · next saved w4 hsave =>
        cases hp : bodyText req.body "password" with
        | none => rw [hp] at hhash; simp [bcryptHash] at hhash
        | some p =>
          rw [hp] at hhash
          simp only [bcryptHash, Except.ok.injEq] at hhash
          obtain ⟨hvalid, hsaved, hw⟩ := usersSave_ok _ _ _ _ _ hsave
          simp only [Prod.mk.injEq, Outcome.respond.injEq] at h
          rw [← hhash] at hsaved hvalid
          refine ⟨p, saved, rfl, hfind, hvalid, ?_, ?_, ?_, ?_, ?_, ?_, ?_, ?_, h.1.symm⟩
          · rw [hsaved]
          · rw [hsaved]
          · rw [hsaved]
          · rw [hsaved]; rfl
          · rw [← h.2, hw]; rfl
          · rw [← h.2, hw]; rfl
          · rw [← h.2, hw]; rfl
          · rw [← h.2, hw, hp]; simp [World.log]

/-- C14: `createUser` rejects a registration (`email` and `username` being JSON strings or
missing) whose username or whose email is that of a stored identity with 400 and the message
"Un utilisateur avec cet email ou ce nom d'utilisateur existe déjà" (which contains
`existe déjà`); the only collaborator call is the lookup, so the password is not hashed, and
the store is unchanged. When the body gives `email` and `username` as strings and neither value
is taken, the response is not a 400. -/
theorem createUser_conflict (c : Collaborators) (req : Request) (w : World) :
    (isTextOrMissing req.body "email" = true → isTextOrMissing req.body "username" = true →
      (∃ u ∈ w.users, bodyText req.body "email" = some u.email ∨
        bodyText req.body "username" = some u.username) →
      createUser c req w =
        (.respond ⟨400, messageBody
          "Un utilisateur avec cet email ou ce nom d'utilisateur existe déjà"⟩,
          w.log .usersFindOne) ∧
      (createUser c req w).2.users = w.users ∧
      (createUser c req w).2.trace = w.trace ++ [.usersFindOne] ∧
      "existe déjà".data <:+:
        "Un utilisateur avec cet email ou ce nom d'utilisateur existe déjà".data) ∧
    (∀ e n, bodyText req.body "email" = some e → bodyText req.body "username" = some n →
      (∀ u ∈ w.users, u.email ≠ e ∧ u.username ≠ n) →
      ∀ res w1, createUser c req w = (.respond res, w1) → res.status ≠ 400) := by
  refine ⟨?_, ?_⟩
  · rintro _ _ ⟨u, hu, hmatch⟩
    have hsome : (w.users.find? (fun u => some u.email == bodyText req.body "email" ||
        some u.username == bodyText req.body "username")).isSome = true := by
      rw [List.find?_isSome]
      refine ⟨u, hu, ?_⟩
      rcases hmatch with h | h <;> simp [h]
    obtain ⟨found, hfound⟩ := Option.isSome_iff_exists.mp hsome
    have hres : createUser c req w =
        (.respond ⟨400, messageBody
          "Un utilisateur avec cet email ou ce nom d'utilisateur existe déjà"⟩,
          w.log .usersFindOne) := by
      unfold createUser
      simp only [World.log, hfound]
    refine ⟨hres, by rw [hres]; rfl, by rw [hres]; rfl, by decide⟩
  · intro e n he hn hfree res w1 h
    have hnone : w.users.find? (fun u => some u.email == bodyText req.body "email" ||
        some u.username == bodyText req.body "username") = none := by
      rw [List.find?_eq_none, he, hn]
      intro u hu
      have := hfree u hu
      simp only [Bool.or_eq_true, beq_iff_eq, Option.some.injEq, not_or]
      exact this
    unfold createUser at h
    simp only [World.log, hnone] at h
    split at h
    · simp only [Prod.mk.injEq, Outcome.respond.injEq] at h
      rw [← h.1]; simp
    · split at h
      · simp only [Prod.mk.injEq, Outcome.respond.injEq] at h
        rw [← h.1]; simp
      · simp only [Prod.mk.injEq, Outcome.respond.injEq] at h
        rw [← h.1]; simp

theorem createUser_conflict_witness :
    (∃ u ∈ demoWorld.users,
      bodyText (Json.obj [("username", .str "guest"), ("email", .str "new@food.test"),
        ("password", .str "secret123")]) "email" = some u.email ∨
      bodyText (Json.obj [("username", .str "guest"), ("email", .str "new@food.test"),
        ("password", .str "secret123")]) "username" = some u.username) ∧
    createUser demoCollaborators (demoBodyRequest none "x"
        (.obj [("username", .str "guest"), ("email", .str "new@food.test"),
          ("password", .str "secret123")])) demoWorld =
      (.respond ⟨400, messageBody
        "Un utilisateur avec cet email ou ce nom d'utilisateur existe déjà"⟩,
        demoWorld.log .usersFindOne) ∧
    bodyText (demoBodyRequest none "x" demoRegistration).body "email" =
      some "nina@food.test" ∧
    bodyText (demoBodyRequest none "x" demoRegistration).body "username" = some "nina" ∧
    (∀ u ∈ demoWorld.users, u.email ≠ "nina@food.test" ∧ u.username ≠ "nina") ∧
    (∀ res w1, createUser demoCollaborators (demoBodyRequest none "x" demoRegistration)
      demoWorld = (.respond res, w1) → res.status ≠ 400) :=
  ⟨⟨demoUser, by decide, Or.inr rfl⟩,
    ((createUser_conflict demoCollaborators (demoBodyRequest none "x"
        (.obj [("username", .str "guest"), ("email", .str "new@food.test"),
          ("password", .str "secret123")])) demoWorld).1 (by decide) (by decide)
      ⟨demoUser, by decide, Or.inr rfl⟩).1,
    by decide, by decide, by decide,
    (createUser_conflict demoCollaborators (demoBodyRequest none "x" demoRegistration)
      demoWorld).2 "nina@food.test" "nina" (by decide) (by decide) (by decide)⟩

/-- C15: after every successful (201) `createUser` call the identity appended to the store has
as password the `bcrypt.hash` of the supplied password (so not the supplied password, as soon
as hashing changes it), has the role supplied in the body when one (a non-empty string) is
supplied and `user` when none is, and that role is `user` or `admin`. -/
theorem createUser_stored_identity (c : Collaborators) (req : Request) (w w1 : World)
    (res : Response) (h : createUser c req w = (.respond res, w1)) (hstatus : res.status = 201) :
    ∃ p saved,
      bodyText req.body "password" = some p ∧
      w1.users = w.users ++ [saved] ∧
      saved.password = some (c.bcryptHash p 10) ∧
      (c.bcryptHash p 10 ≠ p → saved.password ≠ some p) ∧
      (∀ r, bodyText req.body "role" = some r → r ≠ "" → saved.role = r) ∧
      ((bodyText req.body "role" = none ∨ bodyText req.body "role" = some "") →
        saved.role = "user") ∧
      (saved.role = "user" ∨ saved.role = "admin") := by
  obtain ⟨p, saved, hp, _, hvalid, _, _, hpw, hrole, husers, _⟩ :=
    createUser_created c req w w1 res h hstatus
  refine ⟨p, saved, hp, husers, hpw, ?_, ?_, ?_, ?_⟩
  · intro hne heq
    rw [hpw] at heq
    exact hne (Option.some.inj heq)
  · intro r hr hne
    rw [hrole, hr]
    simp [truthy, hne]
  · intro hr
    rw [hrole]
    rcases hr with hr | hr <;> simp [hr, truthy]
  · rw [hrole]
    simp only [UserDraft.valid, Bool.and_eq_true, Bool.or_eq_true, beq_iff_eq] at hvalid
    exact hvalid.2

theorem createUser_stored_identity_witness :
    createUser demoCollaborators (demoBodyRequest none "x" demoRegistration) demoWorld =
      (.respond ⟨201, .obj [("message", .str "Utilisateur créé avec succès"),
        ("user", .obj (omitKey "password" (identityFields demoNewUser)))]⟩,
        demoWorldAfterRegistration) ∧
    ∃ p saved,
      bodyText (demoBodyRequest none "x" demoRegistration).body "password" = some p ∧
      demoWorldAfterRegistration.users = demoWorld.users ++ [saved] ∧
      saved.password = some (demoCollaborators.bcryptHash p 10) ∧
      (demoCollaborators.bcryptHash p 10 ≠ p → saved.password ≠ some p) ∧
      (∀ r, bodyText (demoBodyRequest none "x" demoRegistration).body "role" = some r →
        r ≠ "" → saved.role = r) ∧
      ((bodyText (demoBodyRequest none "x" demoRegistration).body "role" = none ∨
        bodyText (demoBodyRequest none "x" demoRegistration).body "role" = some "") →
        saved.role = "user") ∧
      (saved.role = "user" ∨ saved.role = "admin") :=
  ⟨rfl, createUser_stored_identity demoCollaborators
    (demoBodyRequest none "x" demoRegistration) demoWorld demoWorldAfterRegistration
    ⟨201, .obj [("message", .str "Utilisateur créé avec succès"),
        ("user", .obj (omitKey "password" (identityFields demoNewUser)))]⟩ rfl rfl⟩

/-! ## No credential in outward representations -/

theorem hasKeyDeep_messageBody (msg : String) :
    (messageBody msg).hasKeyDeep "password" = false := by
  simp [messageBody, Json.hasKeyDeep, Json.hasKeyDeepFields]

theorem hasKeyDeep_errorBody (msg err : String) :
    (errorBody msg err).hasKeyDeep "password" = false := by
  simp [errorBody, Json.hasKeyDeep, Json.hasKeyDeepFields]

theorem hasKeyDeepFields_selected (u : Identity) (h : u.password = none) :
    Json.hasKeyDeepFields "password" (identityFields u) = false := by
  simp [identityFields, h, Json.hasKeyDeep, Json.hasKeyDeepFields]

theorem hasKeyDeepFields_omitKey (u : Identity) :
    Json.hasKeyDeepFields "password" (omitKey "password" (identityFields u)) = false := by
  cases hp : u.password <;>
    simp [identityFields, omitKey, hp, List.filter, Json.hasKeyDeep, Json.hasKeyDeepFields]

theorem hasKeyDeepItems_selected (l : List Identity) :
    Json.hasKeyDeepItems "password" ((l.map selectWithoutPassword).map identityJson) = false := by
  induction l with
  | nil => simp [Json.hasKeyDeepItems]
  | cons u rest ih =>
    simp only [List.map_cons, Json.hasKeyDeepItems, ih, Bool.or_false]
    simp only [identityJson, Json.hasKeyDeep]
    exact hasKeyDeepFields_selected _ rfl

theorem hasKeyDeep_userBody (msg : String) (fields : List (String × Json))
    (h : Json.hasKeyDeepFields "password" fields = false) :
    (Json.obj [("message", .str msg), ("user", .obj fields)]).hasKeyDeep "password" = false := by
  simp [Json.hasKeyDeep, Json.hasKeyDeepFields, h]

theorem hasKeyDeep_loginBody (msg token : String) (fields : List (String × Json))
    (h : Json.hasKeyDeepFields "password" fields = false) :
    (Json.obj [("message", .str msg), ("user", .obj fields),
      ("token", .str token)]).hasKeyDeep "password" = false := by
  simp [Json.hasKeyDeep, Json.hasKeyDeepFields, h]

theorem hasKeyDeep_usersBody (msg : String) (items : List Json)
    (h : Json.hasKeyDeepItems "password" items = false) :
    (Json.obj [("message", .str msg), ("users", .arr items)]).hasKeyDeep "password" = false := by
  simp [Json.hasKeyDeep, Json.hasKeyDeepFields, h]

theorem usersFindById_password (c : Collaborators) (w : World) (id : Option String)
    (u : Identity) (h : usersFindById c w id = .ok (some u)) : u.password = none := by
  unfold usersFindById at h
  split at h
  · cases h
  · split at h
    · cases h
    · simp only [Except.ok.injEq, Option.map_eq_some'] at h
      obtain ⟨v, _, hv⟩ := h
      rw [← hv]
      rfl

theorem usersFindByIdAndUpdate_password (c : Collaborators) (w w1 : World)
    (id : Option String) (patch : UserPatch) (u : Identity)
    (h : usersFindByIdAndUpdate c w id patch = .ok (some u, w1)) : u.password = none := by
  unfold usersFindByIdAndUpdate at h
  split at h
  · cases h
  · split at h
    · cases h
    · split at h
      · cases h
      · split at h
        · cases h
        · split at h
          · cases h
          · simp only [Except.ok.injEq, Prod.mk.injEq, Option.some.injEq] at h
            rw [← h.1]
            rfl

/-- C16: no response of `createUser`, `loginUser`, `getAllUsers`, `getUserById` or `updateUser`
contains a `password` key, at any depth of its body, and the identity that
`authenticateToken` attaches to the request has no password. -/
theorem no_password_in_responses (c : Collaborators) (req : Request) (w : World) :
    (∀ res w1, createUser c req w = (.respond res, w1) →
      res.body.hasKeyDeep "password" = false) ∧
    (∀ res w1, loginUser c req w = (.respond res, w1) →
      res.body.hasKeyDeep "password" = false) ∧
    (∀ res w1, getAllUsers c req w = (.respond res, w1) →
      res.body.hasKeyDeep "password" = false) ∧
    (∀ res w1, getUserById c req w = (.respond res, w1) →
      res.body.hasKeyDeep "password" = false) ∧
    (∀ res w1, updateUser c req w = (.respond res, w1) →
      res.body.hasKeyDeep "password" = false) ∧
    (∀ req1 w1, authenticateToken c req w = (.next req1, w1) →
      ∃ u, req1.user = some u ∧ u.password = none) := by
  refine ⟨?_, ?_, ?_, ?_, ?_, ?_⟩
  · intro res w1 h
    unfold createUser at h
    simp only at h
    repeat' split at h
    all_goals
      simp only [Prod.mk.injEq, Outcome.respond.injEq] at h
      rw [← h.1]
      first
        | exact hasKeyDeep_messageBody _
        | exact hasKeyDeep_errorBody _ _
        | exact hasKeyDeep_userBody _ _ (hasKeyDeepFields_omitKey _)
  · intro res w1 h
    unfold loginUser at h
    simp only at h
    repeat' split at h
    all_goals
      simp only [Prod.mk.injEq, Outcome.respond.injEq] at h
      rw [← h.1]
      first
        | exact hasKeyDeep_messageBody _
        | exact hasKeyDeep_errorBody _ _
        | exact hasKeyDeep_loginBody _ _ _ (hasKeyDeepFields_omitKey _)
  · intro res w1 h
    unfold getAllUsers at h
    simp only at h
    repeat' split at h
    all_goals
      simp only [Prod.mk.injEq, Outcome.respond.injEq] at h
      rw [← h.1]
      first
        | exact hasKeyDeep_messageBody _
        | exact hasKeyDeep_errorBody _ _
        | exact hasKeyDeep_usersBody _ _ (hasKeyDeepItems_selected _)
  · intro res w1 h
    unfold getUserById at h
    simp only at h
    split at h
    · simp only [Prod.mk.injEq, Outcome.respond.injEq] at h
      rw [← h.1]; exact hasKeyDeep_errorBody _ _
    · split at h
      · simp only [Prod.mk.injEq, Outcome.respond.injEq] at h
        rw [← h.1]; exact hasKeyDeep_messageBody _
      · split at h
        · simp only [Prod.mk.injEq, Outcome.respond.injEq] at h
          rw [← h.1]; exact hasKeyDeep_errorBody _ _
        · simp only [Prod.mk.injEq, Outcome.respond.injEq] at h
          rw [← h.1]; exact hasKeyDeep_messageBody _
        · next user hfind =>
          simp only [Prod.mk.injEq, Outcome.respond.injEq] at h
          rw [← h.1]
          have hpw := usersFindById_password _ _ _ _ hfind
          exact hasKeyDeep_userBody _ _ (hasKeyDeepFields_selected _ hpw)
  · intro res w1 h
    unfold updateUser at h
    simp only at h
    split at h
    · simp only [Prod.mk.injEq, Outcome.respond.injEq] at h
      rw [← h.1]; exact hasKeyDeep_errorBody _ _
    · split at h
      · simp only [Prod.mk.injEq, Outcome.respond.injEq] at h
        rw [← h.1]; exact hasKeyDeep_messageBody _
      · split at h
        · simp only [Prod.mk.injEq, Outcome.respond.injEq] at h
          rw [← h.1]; exact hasKeyDeep_messageBody _
        · split at h
          · simp only [Prod.mk.injEq, Outcome.respond.injEq] at h
            rw [← h.1]; exact hasKeyDeep_errorBody _ _
          · split at h
            · simp only [Prod.mk.injEq, Outcome.respond.injEq] at h
              rw [← h.1]; exact hasKeyDeep_errorBody _ _
            · simp only [Prod.mk.injEq, Outcome.respond.injEq] at h
              rw [← h.1]; exact hasKeyDeep_messageBody _
            · next updatedUser w3 hupd =>
              simp only [Prod.mk.injEq, Outcome.respond.injEq] at h
              rw [← h.1]
              have hpw := usersFindByIdAndUpdate_password _ _ _ _ _ _ hupd
              exact hasKeyDeep_userBody _ _ (hasKeyDeepFields_selected _ hpw)
  · intro req1 w1 h
    unfold authenticateToken at h
    simp only at h
    split at h
    · simp at h
    · split at h
      · simp at h
      · split at h
        · simp at h
        · simp at h
        · next user hfind =>
          simp only [Prod.mk.injEq, Outcome.next.injEq] at h
          refine ⟨user, by rw [← h.1], ?_⟩
          exact usersFindById_password _ _ _ _ hfind

theorem no_password_in_responses_witness :
    loginUser demoCollaborators (demoBodyRequest none "x"
        (.obj [("email", .str "guest@food.test"), ("password", .str "hashB")])) demoWorld =
      (.respond ⟨200, .obj [("message", .str "Connexion réussie"),
          ("user", .obj (omitKey "password" (identityFields demoUser))),
          ("token", .str "64b7f0000000000000000002.jwt")]⟩,
        ((demoWorld.log .usersFindOne).log .bcryptCompare).log
          (.jwtSign ⟨some "64b7f0000000000000000002", some "guest@food.test", some "user"⟩)) ∧
    (Json.obj [("message", .str "Connexion réussie"),
        ("user", .obj (omitKey "password" (identityFields demoUser))),
        ("token", .str "64b7f0000000000000000002.jwt")]).hasKeyDeep "password" = false :=
  ⟨rfl, (no_password_in_responses demoCollaborators (demoBodyRequest none "x"
        (.obj [("email", .str "guest@food.test"), ("password", .str "hashB")])) demoWorld).2.1
      ⟨200, .obj [("message", .str "Connexion réussie"),
          ("user", .obj (omitKey "password" (identityFields demoUser))),
          ("token", .str "64b7f0000000000000000002.jwt")]⟩ _ rfl⟩

/-! ## Login -/

/-- C17 (failing input): on the sample store, a login that names the stored email
`guest@food.test` and has no password is answered 500 "Erreur lors de la connexion", because
`bcrypt.compare` throws on the missing argument, while the same login naming an email that no
identity has is answered 401 "Email ou mot de passe incorrect": the two responses differ. -/
theorem loginUser_missing_password_differs :
    ((loginUser demoCollaborators
        (demoBodyRequest none "x" (.obj [("email", .str "guest@food.test")]))
        demoWorld).1.response?.map
      (fun res => (res.status, (res.body.field "message").bind Json.text?))) =
      some (500, some "Erreur lors de la connexion") ∧
    ((loginUser demoCollaborators
        (demoBodyRequest none "x" (.obj [("email", .str "nobody@food.test")]))
        demoWorld).1.response?.map
      (fun res => (res.status, (res.body.field "message").bind Json.text?))) =
      some (401, some "Email ou mot de passe incorrect") := by
  refine ⟨by decide, by decide⟩

/-- When the second login supplies a string password that `bcrypt.compare` rejects, a login
naming an email that matches no stored identity and a login naming a stored email get the same
response, status 401 with the body `{ message: 'Email ou mot de passe incorrect' }`, which
carries no token; neither changes the store. -/
theorem loginUser_no_enumeration (c : Collaborators) (reqUnknown reqWrong : Request)
    (w : World) (user : Identity) (p hash : String)
    (hunknown : ∀ u ∈ w.users, bodyText reqUnknown.body "email" ≠ some u.email)
    (hknown : w.users.find? (fun u => some u.email == bodyText reqWrong.body "email") =
      some user)
    (hp : bodyText reqWrong.body "password" = some p) (hhash : user.password = some hash)
    (hreject : c.bcryptCompare p hash = false) :
    (loginUser c reqUnknown w).1 =
      .respond ⟨401, messageBody "Email ou mot de passe incorrect"⟩ ∧
    (loginUser c reqWrong w).1 =
      .respond ⟨401, messageBody "Email ou mot de passe incorrect"⟩ ∧
    (loginUser c reqUnknown w).1 = (loginUser c reqWrong w).1 ∧
    (messageBody "Email ou mot de passe incorrect").keys = ["message"] ∧
    (loginUser c reqUnknown w).2.users = w.users ∧
    (loginUser c reqWrong w).2.users = w.users := by
  have hnone : w.users.find? (fun u => some u.email == bodyText reqUnknown.body "email") =
      none := by
    rw [List.find?_eq_none]
    intro u hu
    simp only [beq_iff_eq]
    exact fun e => hunknown u hu e.symm
  have h1 : loginUser c reqUnknown w =
      (.respond ⟨401, messageBody "Email ou mot de passe incorrect"⟩, w.log .usersFindOne) := by
    unfold loginUser
    simp only [World.log, hnone]
  have h2 : loginUser c reqWrong w =
      (.respond ⟨401, messageBody "Email ou mot de passe incorrect"⟩,
        (w.log .usersFindOne).log .bcryptCompare) := by
    unfold loginUser
    simp [World.log, hknown, hp, hhash, bcryptCompare, hreject]
  refine ⟨by rw [h1], by rw [h2], by rw [h1, h2], rfl, by rw [h1]; rfl, by rw [h2]; rfl⟩

theorem loginUser_no_enumeration_witness :
    (∀ u ∈ demoWorld.users,
      bodyText (Json.obj [("email", .str "nobody@food.test"), ("password", .str "hashB")])
        "email" ≠ some u.email) ∧
    demoCollaborators.bcryptCompare "wrong" "$2b$10$hashB" = false ∧
    (loginUser demoCollaborators (demoBodyRequest none "x"
        (.obj [("email", .str "nobody@food.test"), ("password", .str "hashB")])) demoWorld).1 =
      (loginUser demoCollaborators (demoBodyRequest none "x"
        (.obj [("email", .str "guest@food.test"), ("password", .str "wrong")])) demoWorld).1 :=
  ⟨by decide, by decide,
    (loginUser_no_enumeration demoCollaborators
      (demoBodyRequest none "x"
        (.obj [("email", .str "nobody@food.test"), ("password", .str "hashB")]))
      (demoBodyRequest none "x"
        (.obj [("email", .str "guest@food.test"), ("password", .str "wrong")]))
      demoWorld demoUser "wrong" "$2b$10$hashB" (by decide) (by decide) (by decide) rfl
      (by decide)).2.2.1⟩

/-! ## Register, then log in -/

/-- After a successful registration the lookup by the registered email returns the identity
that was just stored. -/
theorem createUser_then_findOne (c : Collaborators) (req : Request) (w w1 : World)
    (res : Response) (h : createUser c req w = (.respond res, w1)) (hstatus : res.status = 201) :
    ∃ p saved,
      bodyText req.body "password" = some p ∧
      w1.users = w.users ++ [saved] ∧
      saved.password = some (c.bcryptHash p 10) ∧
      bodyText req.body "email" = some saved.email ∧
      w1.users.find? (fun u => some u.email == bodyText req.body "email") = some saved := by
  obtain ⟨p, saved, hp, hfind, hvalid, _, hemail, hpw, _, husers, _⟩ :=
    createUser_created c req w w1 res h hstatus
  have hsome : ∃ e, bodyText req.body "email" = some e := by
    cases he : bodyText req.body "email" with
    | none => rw [he] at hvalid; simp [UserDraft.valid] at hvalid
    | some e => exact ⟨e, rfl⟩
  obtain ⟨e, he⟩ := hsome
  have hse : saved.email = e := by rw [hemail, he]; rfl
  refine ⟨p, saved, hp, husers, hpw, by rw [he, hse], ?_⟩
  have hnone : w.users.find? (fun u => some u.email == bodyText req.body "email") = none := by
    rw [List.find?_eq_none] at hfind ⊢
    intro u hu
    have := hfind u hu
    simp only [Bool.or_eq_true, beq_iff_eq, not_or] at this
    simp only [beq_iff_eq]
    exact this.1
  rw [husers, List.find?_append, hnone]
  simp [List.find?, he, hse]

/-- C18: when `createUser` succeeds for a body with password `p`, a following `loginUser` with
the same email succeeds if `bcrypt.compare` accepts the supplied password against the stored
hash, which it does for `p` itself as soon as `compare(p, hash(p))` holds: the response is 200
with the stored identity without its password and the token
`jwt.sign({ userId, email, role }, secret, { expiresIn: '24h' })` of that identity. With a
password that `bcrypt.compare` rejects the response is 401. -/
theorem register_then_login (c : Collaborators) (reqCreate reqLogin : Request) (w w1 : World)
    (res : Response) (hcreate : createUser c reqCreate w = (.respond res, w1))
    (hstatus : res.status = 201)
    (hemail : bodyText reqLogin.body "email" = bodyText reqCreate.body "email") :
    ∃ p saved,
      bodyText reqCreate.body "password" = some p ∧
      w1.users = w.users ++ [saved] ∧
      bodyText reqCreate.body "email" = some saved.email ∧
      (bodyText reqLogin.body "password" = some p →
        c.bcryptCompare p (c.bcryptHash p 10) = true →
        (loginUser c reqLogin w1).1 =
          .respond ⟨200, .obj [("message", .str "Connexion réussie"),
            ("user", .obj (omitKey "password" (identityFields saved))),
            ("token", .str (c.jwtSign
              { userId := some saved._id.toString, email := some saved.email,
                role := some saved.role } (jwtSecret c) "24h"))]⟩ ∧
        Json.hasKeyDeepFields "password" (omitKey "password" (identityFields saved)) = false) ∧
      (∀ q, bodyText reqLogin.body "password" = some q →
        c.bcryptCompare q (c.bcryptHash p 10) = false →
        (loginUser c reqLogin w1).1 =
          .respond ⟨401, messageBody "Email ou mot de passe incorrect"⟩) := by
  obtain ⟨p, saved, hp, husers, hpw, hse, hfind⟩ :=
    createUser_then_findOne c reqCreate w w1 res hcreate hstatus
  rw [← hemail] at hfind
  refine ⟨p, saved, hp, husers, hse, ?_, ?_⟩
  · intro hq hcmp
    refine ⟨?_, hasKeyDeepFields_omitKey saved⟩
    unfold loginUser
    simp [World.log, hfind, hq, hpw, bcryptCompare, hcmp]
  · intro q hq hcmp
    unfold loginUser
    simp [World.log, hfind, hq, hpw, bcryptCompare, hcmp]

theorem register_then_login_witness :
    createUser demoCollaborators (demoBodyRequest none "x" demoRegistration) demoWorld =
      (.respond ⟨201, .obj [("message", .str "Utilisateur créé avec succès"),
        ("user", .obj (omitKey "password" (identityFields demoNewUser)))]⟩,
        demoWorldAfterRegistration) ∧
    demoCollaborators.bcryptCompare "secret123"
      (demoCollaborators.bcryptHash "secret123" 10) = true ∧
    ∃ p saved,
      bodyText (demoBodyRequest none "x" demoRegistration).body "password" = some p ∧
      demoWorldAfterRegistration.users = demoWorld.users ++ [saved] ∧
      bodyText (demoBodyRequest none "x" demoRegistration).body "email" = some saved.email ∧
      (bodyText (demoBodyRequest none "x" demoRegistration).body "password" = some p →
        demoCollaborators.bcryptCompare p (demoCollaborators.bcryptHash p 10) = true →
        (loginUser demoCollaborators (demoBodyRequest none "x" demoRegistration)
            demoWorldAfterRegistration).1 =
          .respond ⟨200, .obj [("message", .str "Connexion réussie"),
            ("user", .obj (omitKey "password" (identityFields saved))),
            ("token", .str (demoCollaborators.jwtSign
              { userId := some saved._id.toString, email := some saved.email,
                role := some saved.role } (jwtSecret demoCollaborators) "24h"))]⟩ ∧
        Json.hasKeyDeepFields "password" (omitKey "password" (identityFields saved)) = false) ∧
      (∀ q, bodyText (demoBodyRequest none "x" demoRegistration).body "password" = some q →
        demoCollaborators.bcryptCompare q (demoCollaborators.bcryptHash p 10) = false →
        (loginUser demoCollaborators (demoBodyRequest none "x" demoRegistration)
            demoWorldAfterRegistration).1 =
          .respond ⟨401, messageBody "Email ou mot de passe incorrect"⟩) :=
  ⟨rfl, by decide,
    register_then_login demoCollaborators (demoBodyRequest none "x" demoRegistration)
      (demoBodyRequest none "x" demoRegistration) demoWorld demoWorldAfterRegistration
      ⟨201, .obj [("message", .str "Utilisateur créé avec succès"),
        ("user", .obj (omitKey "password" (identityFields demoNewUser)))]⟩ rfl rfl rfl⟩

/-! ## Role changes -/

theorem usersFindByIdAndUpdate_roles (c : Collaborators) (w w1 : World) (id : Option String)
    (patch : UserPatch) (r : Option Identity) (hrole : patch.role = none)
    (h : usersFindByIdAndUpdate c w id patch = .ok (r, w1)) :
    w1.users.map (fun u => u.role) = w.users.map (fun u => u.role) := by
  unfold usersFindByIdAndUpdate at h
  split at h
  · simp only [Except.ok.injEq, Prod.mk.injEq] at h
    rw [← h.2]
  · split at h
    · cases h
    · split at h
      · cases h
      · split at h
        · simp only [Except.ok.injEq, Prod.mk.injEq] at h
          rw [← h.2]
        · split at h
          · cases h
          · simp only [Except.ok.injEq, Prod.mk.injEq] at h
            rw [← h.2]
            simp only [List.map_map]
            apply List.map_congr_left
            intro u _
            simp only [Function.comp]
            split
            · simp [UserPatch.apply, hrole]
            · rfl

/-- C19 (counterexample): a non-admin subject asking to set `role` on another identity gets a
403 whose message is the ownership message, which does not contain `administrateurs`. -/
theorem updateUser_other_target_message :
    ((updateUser demoCollaborators (demoBodyRequest (some (selectWithoutPassword demoUser))
        "64b7f0000000000000000001" (.obj [("role", .str "admin")])) demoWorld).1.response?.map
      (fun res => res.status)) = some 403 ∧
    ((updateUser demoCollaborators (demoBodyRequest (some (selectWithoutPassword demoUser))
        "64b7f0000000000000000001" (.obj [("role", .str "admin")])) demoWorld).1.response?.bind
      (fun res => (res.body.field "message").bind Json.text?)) =
      some "Accès non autorisé. Vous ne pouvez modifier que vos propres données." ∧
    ¬ ("administrateurs".data <:+:
      "Accès non autorisé. Vous ne pouvez modifier que vos propres données.".data) := by
  refine ⟨by decide, by decide, by decide⟩

/-- C19 (amended): for every `updateUser` request whose subject is not an admin, no stored
identity's role is changed; and if the body supplies a role (a non-empty string) the response
is 403 and nothing at all is modified, whatever else the body supplies: the message is "Seuls
les administrateurs peuvent modifier les rôles" (it contains `administrateurs`) when the target
is the subject's own identity, and the ownership message "Accès non autorisé. Vous ne pouvez
modifier que vos propres données." when the target is another identity. -/
theorem updateUser_role_gate (c : Collaborators) (req : Request) (w : World)
    (subject : Identity) (hu : req.user = some subject) (hrole : subject.role ≠ "admin") :
    (∀ res w1, updateUser c req w = (.respond res, w1) →
      w1.users.map (fun u => u.role) = w.users.map (fun u => u.role)) ∧
    (truthy (bodyText req.body "role") = true →
      some subject._id.toString = req.params.lookup "id" →
      updateUser c req w =
        (.respond ⟨403, messageBody "Seuls les administrateurs peuvent modifier les rôles"⟩,
          w)) ∧
    (truthy (bodyText req.body "role") = true →
      some subject._id.toString ≠ req.params.lookup "id" →
      updateUser c req w =
        (.respond ⟨403, messageBody
          "Accès non autorisé. Vous ne pouvez modifier que vos propres données."⟩, w)) ∧
    "administrateurs".data <:+: "Seuls les administrateurs peuvent modifier les rôles".data := by
  refine ⟨?_, ?_, ?_, by decide⟩
  · intro res w1 h
    unfold updateUser at h
    simp only [hu] at h
    split at h
    · simp only [Prod.mk.injEq] at h
      rw [← h.2]
    · split at h
      · simp only [Prod.mk.injEq] at h
        rw [← h.2]
      · next hgate =>
        have hnot : truthy (bodyText req.body "role") ≠ true := fun ht => hgate ⟨ht, hrole⟩
        split at h
        · simp only [Prod.mk.injEq] at h
          rw [← h.2]
          rfl
        · next newPassword w2 hhashed =>
          have hw2 : w2.users = w.users := by
            split at hhashed
            · split at hhashed
              · cases hhashed
              · simp only [Except.ok.injEq, Prod.mk.injEq] at hhashed
                rw [← hhashed.2]
                rfl
            · simp only [Except.ok.injEq, Prod.mk.injEq] at hhashed
              rw [← hhashed.2]
          split at h
          · simp only [Prod.mk.injEq] at h
            rw [← h.2]
            exact congrArg _ hw2
          · next w3 hupd =>
            simp only [Prod.mk.injEq] at h
            rw [← h.2]
            have := usersFindByIdAndUpdate_roles _ _ _ _ _ _ (by simp [hnot]) hupd
            rw [this]
            exact congrArg _ hw2
          · next updatedUser w3 hupd =>
            simp only [Prod.mk.injEq] at h
            rw [← h.2]
            have := usersFindByIdAndUpdate_roles _ _ _ _ _ _ (by simp [hnot]) hupd
            rw [this]
            exact congrArg _ hw2
  · intro ht hown
    unfold updateUser
    simp [hu, hrole, hown, ht]
  · intro ht hother
    unfold updateUser
    simp [hu, hrole, hother]

theorem updateUser_role_gate_witness :
    (demoBodyRequest (some (selectWithoutPassword demoUser)) "64b7f0000000000000000002"
      (.obj [("role", .str "admin"), ("username", .str "boss")])).user =
      some (selectWithoutPassword demoUser) ∧
    (selectWithoutPassword demoUser).role ≠ "admin" ∧
    updateUser demoCollaborators
        (demoBodyRequest (some (selectWithoutPassword demoUser)) "64b7f0000000000000000002"
          (.obj [("role", .str "admin"), ("username", .str "boss")])) demoWorld =
      (.respond ⟨403, messageBody "Seuls les administrateurs peuvent modifier les rôles"⟩,
        demoWorld) :=
  ⟨rfl, by decide,
    (updateUser_role_gate demoCollaborators
      (demoBodyRequest (some (selectWithoutPassword demoUser)) "64b7f0000000000000000002"
        (.obj [("role", .str "admin"), ("username", .str "boss")])) demoWorld
      (selectWithoutPassword demoUser) rfl (by decide)).2.1 (by decide) (by decide)⟩

/-! ## Restaurant creation -/

theorem restaurantsSave_ok (c : Collaborators) (w w1 : World)
    (name address phone opening_hours : Option String) (saved : RestaurantDoc)
    (h : restaurantsSave c w name address phone opening_hours = .ok (saved, w1)) :
    (∃ n, name = some n ∧ saved.name = jsTrim n) ∧
    (∃ a, address = some a ∧ saved.address = jsTrim a) ∧
    w1.restaurants = w.restaurants ++ [saved] ∧ w1.users = w.users ∧ w1.menus = w.menus := by
  unfold restaurantsSave at h
  simp only at h
  split at h
  · cases h
  · next hv =>
    simp only [Except.ok.injEq, Prod.mk.injEq] at h
    have hvalid : (RestaurantDraft.mk (name.map jsTrim) (address.map jsTrim)
        (phone.map jsTrim) (opening_hours.map jsTrim)).valid = true := by simpa using hv
    refine ⟨?_, ?_, by rw [← h.2, ← h.1], by rw [← h.2], by rw [← h.2]⟩
    · cases hn : name with
      | none => rw [hn] at hvalid; simp [RestaurantDraft.valid] at hvalid
      | some n => exact ⟨n, rfl, by rw [← h.1, hn]; rfl⟩
    · cases ha : address with
      | none => rw [ha] at hvalid; simp [RestaurantDraft.valid] at hvalid
      | some a => exact ⟨a, rfl, by rw [← h.1, ha]; rfl⟩

theorem createRestaurant_duplicate_found (c : Collaborators) (req : Request) (w : World)
    (subject : Identity) (hu : req.user = some subject) (hadmin : subject.role = "admin")
    (hdup : ∃ r ∈ w.restaurants, (bodyText req.body "name").map jsTrim = some r.name ∧
      (bodyText req.body "address").map jsTrim = some r.address) :
    createRestaurant c req w =
      (.respond ⟨400, messageBody "Un restaurant avec ce nom et cette adresse existe déjà"⟩,
        w.log .restaurantRead) := by
  obtain ⟨r, hr, hname, haddr⟩ := hdup
  have hsome : (restaurantsFindOneByNameAddress (w.log .restaurantRead)
      (bodyText req.body "name") (bodyText req.body "address")).isSome = true := by
    unfold restaurantsFindOneByNameAddress
    rw [List.find?_isSome]
    exact ⟨r, hr, by simp [hname, haddr]⟩
  obtain ⟨found, hfound⟩ := Option.isSome_iff_exists.mp hsome
  unfold createRestaurant
  simp only [hu, hadmin, ne_eq, not_true_eq_false, if_false, hfound]

/-- C20 (counterexample): posting a new restaurant named `" B "` as admin yields 201 with
`restaurant.name` equal to `"B"`, not to the supplied name. -/
theorem createRestaurant_name_is_trimmed :
    ((createRestaurant demoCollaborators (demoBodyRequest (some (selectWithoutPassword demoAdmin))
        "x" demoRestaurantBody) demoWorld).1.response?.map (fun res => res.status)) = some 201 ∧
    ((createRestaurant demoCollaborators (demoBodyRequest (some (selectWithoutPassword demoAdmin))
        "x" demoRestaurantBody) demoWorld).1.response?.bind
      (fun res => ((res.body.field "restaurant").bind (fun r => r.field "name")).bind
        Json.text?)) = some "B" ∧
    bodyText demoRestaurantBody "name" = some " B " ∧ "B" ≠ " B " := by
  refine ⟨by decide, by decide, by decide, by decide⟩

/-- C20 (amended): for every admin request whose name and address, trimmed of surrounding white
space, are those of a stored restaurant, `createRestaurant` answers 400 with "Un restaurant avec
ce nom et cette adresse existe déjà" (which contains `existe déjà`) and the store is unchanged;
when the body gives `name` and `address` as strings and no stored restaurant has both the
trimmed name and the trimmed address (one of the two may match), the response is not a 400.
Consequently, when posting a new restaurant whose four fields are JSON strings or missing
yields 201, the `restaurant.name` of the response is the supplied name trimmed, and repeating
the identical request yields that 400. -/
theorem createRestaurant_duplicate (c : Collaborators) (req : Request) (w : World)
    (subject : Identity) (hu : req.user = some subject) (hadmin : subject.role = "admin") :
    ((∃ r ∈ w.restaurants, (bodyText req.body "name").map jsTrim = some r.name ∧
        (bodyText req.body "address").map jsTrim = some r.address) →
      createRestaurant c req w =
        (.respond ⟨400, messageBody "Un restaurant avec ce nom et cette adresse existe déjà"⟩,
          w.log .restaurantRead) ∧
      (createRestaurant c req w).2.restaurants = w.restaurants ∧
      "existe déjà".data <:+: "Un restaurant avec ce nom et cette adresse existe déjà".data) ∧
    (∀ n a, bodyText req.body "name" = some n → bodyText req.body "address" = some a →
      (∀ r ∈ w.restaurants, ¬ (r.name = jsTrim n ∧ r.address = jsTrim a)) →
      ∀ res w1, createRestaurant c req w = (.respond res, w1) → res.status ≠ 400) ∧
    ((∀ key ∈ ["name", "address", "phone", "opening_hours"],
        isTextOrMissing req.body key = true) →
      ∀ res w1, createRestaurant c req w = (.respond res, w1) → res.status = 201 →
      ∃ n saved, bodyText req.body "name" = some n ∧ saved.name = jsTrim n ∧
        w1.restaurants = w.restaurants ++ [saved] ∧
        res.body = .obj [("message", .str "Restaurant créé avec succès"),
          ("restaurant", restaurantJson saved)] ∧
        (createRestaurant c req w1).1 =
          .respond ⟨400, messageBody
            "Un restaurant avec ce nom et cette adresse existe déjà"⟩) := by
  refine ⟨?_, ?_, ?_⟩
  · intro hdup
    have hres := createRestaurant_duplicate_found c req w subject hu hadmin hdup
    exact ⟨hres, by rw [hres]; rfl, by decide⟩
  · intro n a hn ha hfree res w1 h
    have hnone : restaurantsFindOneByNameAddress (w.log .restaurantRead)
        (bodyText req.body "name") (bodyText req.body "address") = none := by
      unfold restaurantsFindOneByNameAddress
      rw [List.find?_eq_none, hn, ha]
      intro r hr
      have := hfree r hr
      simp only [Option.map_some', Bool.and_eq_true, beq_iff_eq, Option.some.injEq]
      exact this
    unfold createRestaurant at h
    simp only [hu, hadmin, ne_eq, not_true_eq_false, if_false, hnone] at h
    split at h
    · simp only [Prod.mk.injEq, Outcome.respond.injEq] at h
      rw [← h.1]; simp
    · simp only [Prod.mk.injEq, Outcome.respond.injEq] at h
      rw [← h.1]; simp
  · intro _ res w1 h hstatus
    unfold createRestaurant at h
    simp only [hu, hadmin, ne_eq, not_true_eq_false, if_false] at h
    split at h
    · simp only [Prod.mk.injEq, Outcome.respond.injEq] at h
      rw [← h.1] at hstatus
      simp at hstatus
    · split at h
      · simp only [Prod.mk.injEq, Outcome.respond.injEq] at h
        rw [← h.1] at hstatus
        simp at hstatus
      · next saved w3 hsave =>
        obtain ⟨⟨n, hn, hsn⟩, ⟨a, ha, hsa⟩, hrest, _, _⟩ := restaurantsSave_ok _ _ _ _ _ _ _ _ hsave
        simp only [Prod.mk.injEq, Outcome.respond.injEq] at h
        refine ⟨n, saved, hn, hsn, ?_, by rw [← h.1], ?_⟩
        · rw [← h.2, hrest]; rfl
        · have hdup : ∃ r ∈ w1.restaurants,
              (bodyText req.body "name").map jsTrim = some r.name ∧
              (bodyText req.body "address").map jsTrim = some r.address := by
            refine ⟨saved, ?_, by rw [hn, hsn]; rfl, by rw [ha, hsa]; rfl⟩
            rw [← h.2, hrest]
            simp
          rw [createRestaurant_duplicate_found c req w1 subject hu hadmin hdup]

theorem createRestaurant_duplicate_witness :
    (demoBodyRequest (some (selectWithoutPassword demoAdmin)) "x" demoRestaurantBody).user =
      some (selectWithoutPassword demoAdmin) ∧
    (selectWithoutPassword demoAdmin).role = "admin" ∧
    createRestaurant demoCollaborators
        (demoBodyRequest (some (selectWithoutPassword demoAdmin)) "x" demoRestaurantBody)
        demoWorld =
      (.respond ⟨201, .obj [("message", .str "Restaurant créé avec succès"),
        ("restaurant", restaurantJson demoNewRestaurant)]⟩, demoWorldAfterCreation) ∧
    ∃ n saved, bodyText (demoBodyRequest (some (selectWithoutPassword demoAdmin)) "x"
          demoRestaurantBody).body "name" = some n ∧
      saved.name = jsTrim n ∧
      demoWorldAfterCreation.restaurants = demoWorld.restaurants ++ [saved] ∧
      (Response.mk 201 (.obj [("message", .str "Restaurant créé avec succès"),
          ("restaurant", restaurantJson demoNewRestaurant)])).body =
        .obj [("message", .str "Restaurant créé avec succès"),
          ("restaurant", restaurantJson saved)] ∧
      (createRestaurant demoCollaborators
          (demoBodyRequest (some (selectWithoutPassword demoAdmin)) "x" demoRestaurantBody)
          demoWorldAfterCreation).1 =
        .respond ⟨400, messageBody "Un restaurant avec ce nom et cette adresse existe déjà"⟩ :=
  ⟨rfl, rfl, rfl,
    (createRestaurant_duplicate demoCollaborators
      (demoBodyRequest (some (selectWithoutPassword demoAdmin)) "x" demoRestaurantBody)
      demoWorld (selectWithoutPassword demoAdmin) rfl rfl).2.2 (by decide)
      ⟨201, .obj [("message", .str "Restaurant créé avec succès"),
        ("restaurant", restaurantJson demoNewRestaurant)]⟩ demoWorldAfterCreation rfl rfl⟩

/-! ## Restaurant uniqueness -/

/-- C21 (failing input): from the empty store, an admin creates restaurant `A` at `1 Main St`
(201), creates restaurant `B` at the same address (201) and renames the second to `A` with
`updateRestaurant` (200); the store then holds two distinct restaurants with the same name and
the same address. -/
theorem updateRestaurant_makes_duplicate :
    ((createRestaurant demoCollaborators (demoAdminRequest "x" (demoRestaurantNamed "A"))
      demoEmptyWorld).1.response?.map (fun res => res.status)) = some 201 ∧
    ((updateRestaurant demoCollaborators
        (demoAdminRequest "64b7f0000000000000001001" (.obj [("name", .str "A")]))
        (createRestaurant demoCollaborators (demoAdminRequest "x" (demoRestaurantNamed "B"))
          (createRestaurant demoCollaborators (demoAdminRequest "x" (demoRestaurantNamed "A"))
            demoEmptyWorld).2).2).1.response?.map (fun res => res.status)) = some 200 ∧
    demoRenamedWorld.restaurants.map (fun r => (r._id.hex, r.name, r.address)) =
      [("64b7f0000000000000001000", "A", "1 Main St"),
       ("64b7f0000000000000001001", "A", "1 Main St")] := by
  refine ⟨by decide, by decide, by decide⟩

/-! ## Menu references -/

theorem restaurantsFindById_log (c : Collaborators) (w : World) (call : Call)
    (id : Option String) : restaurantsFindById c (w.log call) id = restaurantsFindById c w id :=
  rfl

theorem restaurantsFindById_none (c : Collaborators) (w : World) (s : String) (oid : ObjectId)
    (hcast : c.castObjectId s = some oid) (hnone : ∀ r ∈ w.restaurants, r._id ≠ oid) :
    restaurantsFindById c w (some s) = .ok none := by
  have : w.restaurants.find? (fun r => r._id = oid) = none := by
    rw [List.find?_eq_none]
    intro r hr
    simpa using hnone r hr
  simp [restaurantsFindById, hcast, this]

theorem restaurantsFindById_some (c : Collaborators) (w : World) (id : Option String)
    (r : RestaurantDoc) (h : restaurantsFindById c w id = .ok (some r)) :
    ∃ s oid, id = some s ∧ c.castObjectId s = some oid ∧ r ∈ w.restaurants ∧ r._id = oid := by
  unfold restaurantsFindById at h
  split at h
  · cases h
  · next s =>
    split at h
    · cases h
    · next oid hcast =>
      simp only [Except.ok.injEq] at h
      refine ⟨s, oid, rfl, hcast, List.mem_of_find?_eq_some h, ?_⟩
      simpa using List.find?_some h

/-- C22: for every admin request to `createMenu` whose `restaurant_id` matches no stored
restaurant, the response is 404 "Restaurant non trouvé" and no menu is created, the only
effect being the restaurant lookup in the trace: so it is when the body has no `restaurant_id`,
when `restaurant_id` is a string that casts to an id no stored restaurant has, and in general
when `restaurant_id` is a JSON string or missing and the lookup returns `null`. -/
theorem createMenu_dangling_reference (c : Collaborators) (req : Request) (w : World)
    (subject : Identity) (hu : req.user = some subject) (hadmin : subject.role = "admin") :
    (req.body.field "restaurant_id" = none →
      createMenu c req w =
        (.respond ⟨404, messageBody "Restaurant non trouvé"⟩, w.log .restaurantRead)) ∧
    (∀ s oid, req.body.field "restaurant_id" = some (.str s) → c.castObjectId s = some oid →
      (∀ r ∈ w.restaurants, r._id ≠ oid) →
      createMenu c req w =
        (.respond ⟨404, messageBody "Restaurant non trouvé"⟩, w.log .restaurantRead)) ∧
    (isTextOrMissing req.body "restaurant_id" = true →
      restaurantsFindById c w (bodyText req.body "restaurant_id") = .ok none →
      createMenu c req w =
        (.respond ⟨404, messageBody "Restaurant non trouvé"⟩, w.log .restaurantRead) ∧
      (createMenu c req w).2.menus = w.menus ∧
      (createMenu c req w).2.trace = w.trace ++ [.restaurantRead]) := by
  have hmain : restaurantsFindById c w (bodyText req.body "restaurant_id") = .ok none →
      createMenu c req w =
        (.respond ⟨404, messageBody "Restaurant non trouvé"⟩, w.log .restaurantRead) := by
    intro h
    unfold createMenu
    simp only [hu, hadmin, ne_eq, not_true_eq_false, if_false, restaurantsFindById_log, h]
  refine ⟨?_, ?_, fun _ h => ⟨hmain h, by rw [hmain h]; rfl, by rw [hmain h]; rfl⟩⟩
  · intro hnone
    apply hmain
    have : bodyText req.body "restaurant_id" = none := by simp [bodyText, hnone]
    rw [this]
    rfl
  · intro s oid hs hcast hno
    apply hmain
    have : bodyText req.body "restaurant_id" = some s := by simp [bodyText, hs]
    rw [this]
    exact restaurantsFindById_none c w s oid hcast hno

theorem createMenu_dangling_reference_witness :
    (demoAdminRequest "x" demoDanglingMenu).user = some (selectWithoutPassword demoAdmin) ∧
    (selectWithoutPassword demoAdmin).role = "admin" ∧
    (demoAdminRequest "x" demoDanglingMenu).body.field "restaurant_id" =
      some (.str "64b7f00000000000000000ee") ∧
    demoCollaborators.castObjectId "64b7f00000000000000000ee" =
      some ⟨"64b7f00000000000000000ee"⟩ ∧
    (∀ r ∈ demoWorld.restaurants, r._id ≠ ⟨"64b7f00000000000000000ee"⟩) ∧
    createMenu demoCollaborators (demoAdminRequest "x" demoDanglingMenu) demoWorld =
      (.respond ⟨404, messageBody "Restaurant non trouvé"⟩, demoWorld.log .restaurantRead) :=
  ⟨rfl, rfl, rfl, rfl, by decide,
    (createMenu_dangling_reference demoCollaborators (demoAdminRequest "x" demoDanglingMenu)
      demoWorld (selectWithoutPassword demoAdmin) rfl rfl).2.1 "64b7f00000000000000000ee"
      ⟨"64b7f00000000000000000ee"⟩ rfl rfl (by decide)⟩

theorem menusSave_ok (c : Collaborators) (w w1 : World)
    (restaurant_id name description : Option String) (price : Option ℚ)
    (category : Option String) (saved : MenuDoc)
    (h : menusSave c w restaurant_id name description price category = .ok (saved, w1)) :
    w1.menus = w.menus ++ [saved] ∧ w1.restaurants = w.restaurants ∧ w1.users = w.users ∧
    ∃ s oid, restaurant_id = some s ∧ c.castObjectId s = some oid ∧
      saved.restaurant_id = oid := by
  unfold menusSave at h
  simp only at h
  cases hr : restaurant_id with
  | none =>
    rw [hr] at h
    simp [MenuDraft.valid] at h
  | some s =>
    rw [hr] at h
    cases hc : c.castObjectId s with
    | none => simp [hc] at h
    | some oid =>
      simp only [hc] at h
      split at h
      · cases h
      · simp only [Except.ok.injEq, Prod.mk.injEq] at h
        refine ⟨by rw [← h.2, ← h.1], by rw [← h.2], by rw [← h.2], s, oid, rfl, hc, ?_⟩
        rw [← h.1]
        rfl

theorem MenuPatch.cast_ok (c : Collaborators) (p : MenuPatch) (set : MenuSet)
    (h : p.cast c = .ok set) :
    set.name = p.name.map jsTrim ∧ set.description = p.description.map jsTrim ∧
    set.price = p.price ∧ set.category = p.category.map jsTrim ∧
    (p.restaurant_id = none → set.restaurant_id = none) ∧
    (∀ s, p.restaurant_id = some s →
      ∃ oid, c.castObjectId s = some oid ∧ set.restaurant_id = some oid) := by
  unfold MenuPatch.cast at h
  simp only at h
  cases hr : p.restaurant_id with
  | none =>
    rw [hr] at h
    simp only [Except.ok.injEq] at h
    rw [← h]
    simp
  | some s =>
    rw [hr] at h
    cases hc : c.castObjectId s with
    | none => simp [hc] at h
    | some oid =>
      simp only [hc, Except.ok.injEq] at h
      rw [← h]
      simp [hc]

theorem menusFindByIdAndUpdate_ok (c : Collaborators) (w w1 : World) (id : Option String)
    (patch : MenuPatch) (r : Option MenuDoc)
    (h : menusFindByIdAndUpdate c w id patch = .ok (r, w1)) :
    (r = none ∧ w1 = w) ∨
    (∃ s oid set target, id = some s ∧ c.castObjectId s = some oid ∧
      patch.cast c = .ok set ∧ set.valid = true ∧
      w.menus.find? (fun m => m._id = oid) = some target ∧
      r = some (set.apply target) ∧
      w1 = { w with menus := w.menus.map (fun m => if m._id = oid then set.apply m else m) }) := by
  unfold menusFindByIdAndUpdate at h
  split at h
  · simp only [Except.ok.injEq, Prod.mk.injEq] at h
    exact Or.inl ⟨h.1.symm, h.2.symm⟩
  · next s =>
    split at h
    · cases h
    · next oid hcast =>
      split at h
      · cases h
      · next set hset =>
        split at h
        · cases h
        · next hv =>
          split at h
          · simp only [Except.ok.injEq, Prod.mk.injEq] at h
            exact Or.inl ⟨h.1.symm, h.2.symm⟩
          · next target hfind =>
            simp only [Except.ok.injEq, Prod.mk.injEq] at h
            exact Or.inr ⟨s, oid, set, target, rfl, hcast, hset, by simpa using hv, hfind,
              h.1.symm, h.2.symm⟩

/-- What `updateMenu` did, for an admin: either the menus and restaurants are as before and the
response is not a 200, or the response is 200 and the patch built from the body was cast,
validated and applied to the menu with the path id, after the lookup of a supplied
`restaurant_id` succeeded. -/
theorem updateMenu_effect (c : Collaborators) (req : Request) (w w1 : World) (res : Response)
    (subject : Identity) (hu : req.user = some subject) (hadmin : subject.role = "admin")
    (h : updateMenu c req w = (.respond res, w1)) :
    (res.status ≠ 200 ∧ w1.menus = w.menus ∧ w1.restaurants = w.restaurants ∧
      w1.users = w.users) ∨
    (∃ s oid set target, req.params.lookup "id" = some s ∧ c.castObjectId s = some oid ∧
      (updateMenuData req.body).cast c = .ok set ∧ set.valid = true ∧
      w.menus.find? (fun m => m._id = oid) = some target ∧
      w1.menus = w.menus.map (fun m => if m._id = oid then set.apply m else m) ∧
      w1.restaurants = w.restaurants ∧ w1.users = w.users ∧
      (truthy (bodyText req.body "restaurant_id") = true →
        ∃ r, restaurantsFindById c w (bodyText req.body "restaurant_id") = .ok (some r)) ∧
      res = ⟨200, .obj [("message", .str "Menu mis à jour avec succès"),
        ("menu", menuJson w1 ["name", "address"] (set.apply target))]⟩) := by
  unfold updateMenu at h
  simp only [hu, hadmin, ne_eq, not_true_eq_false, if_false, restaurantsFindById_log] at h
  split at h
  · simp only [Prod.mk.injEq, Outcome.respond.injEq] at h
    left
    rw [← h.1, ← h.2]
    exact ⟨by simp, rfl, rfl, rfl⟩
  · next w2 hchecked =>
    simp only [Prod.mk.injEq, Outcome.respond.injEq] at h
    have hw2 : w2.menus = w.menus ∧ w2.restaurants = w.restaurants ∧ w2.users = w.users := by
      split at hchecked
      · split at hchecked
        · cases hchecked
        · simp only [Except.ok.injEq, Prod.mk.injEq] at hchecked
          rw [← hchecked.2]
          exact ⟨rfl, rfl, rfl⟩
        · simp only [Except.ok.injEq, Prod.mk.injEq] at hchecked
          cases hchecked.1
      · simp only [Except.ok.injEq, Prod.mk.injEq] at hchecked
        cases hchecked.1
    left
    rw [← h.1, ← h.2]
    exact ⟨by simp, hw2.1, hw2.2.1, hw2.2.2⟩
  · next u w2 hchecked =>
    have hw2 : w2.menus = w.menus ∧ w2.restaurants = w.restaurants ∧ w2.users = w.users ∧
        (truthy (bodyText req.body "restaurant_id") = true →
          ∃ r, restaurantsFindById c w (bodyText req.body "restaurant_id") = .ok (some r)) := by
      split at hchecked
      · next ht =>
        split at hchecked
        · cases hchecked
        · simp only [Except.ok.injEq, Prod.mk.injEq] at hchecked
          cases hchecked.1
        · next r hfind =>
          simp only [Except.ok.injEq, Prod.mk.injEq] at hchecked
          rw [← hchecked.2]
          exact ⟨rfl, rfl, rfl, fun _ => ⟨r, hfind⟩⟩
      · next ht =>
        simp only [Except.ok.injEq, Prod.mk.injEq] at hchecked
        rw [← hchecked.2]
        exact ⟨rfl, rfl, rfl, fun h1 => absurd h1 ht⟩
    split at h
    · simp only [Prod.mk.injEq, Outcome.respond.injEq] at h
      left
      rw [← h.1, ← h.2]
      exact ⟨by simp, hw2.1, hw2.2.1, hw2.2.2.1⟩
    · next w3 hupd =>
      simp only [Prod.mk.injEq, Outcome.respond.injEq] at h
      left
      rcases menusFindByIdAndUpdate_ok _ _ _ _ _ _ hupd with ⟨_, hw3⟩ | ⟨_, _, _, _, _, _, _, _, _, hr, _⟩
      · rw [← h.1, ← h.2, hw3]
        exact ⟨by simp, hw2.1, hw2.2.1, hw2.2.2.1⟩
      · cases hr
    · next updatedMenu w3 hupd =>
      simp only [Prod.mk.injEq, Outcome.respond.injEq] at h
      right
      rcases menusFindByIdAndUpdate_ok _ _ _ _ _ _ hupd with ⟨hr, _⟩ | ⟨s, oid, set, target, hid, hcast, hset, hv, hfind, hr, hw3⟩
      · cases hr
      · simp only [Option.some.injEq] at hr
        refine ⟨s, oid, set, target, hid, hcast, hset, hv, ?_, ?_, ?_, ?_, hw2.2.2.2, ?_⟩
        · have : (w2.log Call.menuWrite).menus = w.menus := hw2.1
          rw [← this]; exact hfind
        · rw [← h.2, hw3]
          show List.map _ (w2.log Call.menuWrite).menus = _
          have : (w2.log Call.menuWrite).menus = w.menus := hw2.1
          rw [this]
        · rw [← h.2, hw3]; exact hw2.2.1
        · rw [← h.2, hw3]; exact hw2.2.2.1
        · rw [← h.1, hr, h.2]

/-- C23: every `restaurant_id` that `createMenu` or `updateMenu` writes resolves to a stored
restaurant at that moment. After `createMenu`, each menu of the store was there before or
references a stored restaurant; after `updateMenu`, each menu keeps the reference it had or
references a stored restaurant; neither touches the restaurants. `updateMenu` has
`restaurant_id` in its patch only when the lookup of that id succeeded, and when that lookup
finds nothing it answers 404 "Restaurant non trouvé" after that lookup alone, whatever the
menu id. -/
theorem menu_reference_resolves (c : Collaborators) (req : Request) (w : World)
    (subject : Identity) (hu : req.user = some subject) (hadmin : subject.role = "admin") :
    (∀ res w1, createMenu c req w = (.respond res, w1) →
      w1.restaurants = w.restaurants ∧
      ∀ m ∈ w1.menus, m ∈ w.menus ∨ ∃ r ∈ w.restaurants, r._id = m.restaurant_id) ∧
    (∀ res w1, updateMenu c req w = (.respond res, w1) →
      w1.restaurants = w.restaurants ∧
      ∀ m1 ∈ w1.menus,
        (∃ m ∈ w.menus, m._id = m1._id ∧ m.restaurant_id = m1.restaurant_id) ∨
        ∃ r ∈ w.restaurants, r._id = m1.restaurant_id) ∧
    (∀ res w1 s, updateMenu c req w = (.respond res, w1) → res.status = 200 →
      (updateMenuData req.body).restaurant_id = some s →
      ∃ r, restaurantsFindById c w (some s) = .ok (some r)) ∧
    (truthy (bodyText req.body "restaurant_id") = true →
      restaurantsFindById c w (bodyText req.body "restaurant_id") = .ok none →
      updateMenu c req w =
        (.respond ⟨404, messageBody "Restaurant non trouvé"⟩, w.log .restaurantRead)) := by
  have hpatch : ∀ s, (updateMenuData req.body).restaurant_id = some s →
      truthy (bodyText req.body "restaurant_id") = true ∧
      bodyText req.body "restaurant_id" = some s := by
    intro s hs
    unfold updateMenuData at hs
    simp only at hs
    split at hs
    · next ht => exact ⟨ht, hs⟩
    · cases hs
  refine ⟨?_, ?_, ?_, ?_⟩
  · intro res w1 h
    unfold createMenu at h
    simp only [hu, hadmin, ne_eq, not_true_eq_false, if_false, restaurantsFindById_log] at h
    split at h
    · simp only [Prod.mk.injEq] at h
      rw [← h.2]
      exact ⟨rfl, fun m hm => Or.inl hm⟩
    · simp only [Prod.mk.injEq] at h
      rw [← h.2]
      exact ⟨rfl, fun m hm => Or.inl hm⟩
    · next r hfind =>
      obtain ⟨s, oid, hs, hcast, hr, hrid⟩ := restaurantsFindById_some _ _ _ _ hfind
      split at h
      · simp only [Prod.mk.injEq] at h
        rw [← h.2]
        exact ⟨rfl, fun m hm => Or.inl hm⟩
      · next saved w3 hsave =>
        obtain ⟨hmenus, hrest, _, s2, oid2, hs2, hcast2, hsaved⟩ :=
          menusSave_ok _ _ _ _ _ _ _ _ _ hsave
        simp only [Prod.mk.injEq] at h
        rw [← h.2]
        refine ⟨hrest, ?_⟩
        intro m hm
        rw [hmenus] at hm
        rcases List.mem_append.mp hm with hm | hm
        · exact Or.inl hm
        · right
          simp only [List.mem_singleton] at hm
          rw [hs] at hs2
          cases hs2
          rw [hcast] at hcast2
          cases hcast2
          exact ⟨r, hr, by rw [hm, hsaved, hrid]⟩
  · intro res w1 h
    rcases updateMenu_effect c req w w1 res subject hu hadmin h with
      ⟨_, hmenus, hrest, _⟩ | ⟨s, oid, set, target, _, _, hset, _, _, hmenus, hrest, _, hlook, _⟩
    · rw [hmenus]
      exact ⟨hrest, fun m1 hm1 => Or.inl ⟨m1, hm1, rfl, rfl⟩⟩
    · refine ⟨hrest, ?_⟩
      intro m1 hm1
      rw [hmenus] at hm1
      obtain ⟨m, hm, hmap⟩ := List.mem_map.mp hm1
      obtain ⟨_, _, _, _, hnone, hsome⟩ := MenuPatch.cast_ok c _ set hset
      by_cases hid : m._id = oid
      · rw [if_pos hid] at hmap
        cases hp : (updateMenuData req.body).restaurant_id with
        | none =>
          left
          refine ⟨m, hm, by rw [← hmap]; rfl, ?_⟩
          rw [← hmap]
          simp [MenuSet.apply, hnone hp]
        | some s2 =>
          right
          obtain ⟨oid2, hcast2, hset2⟩ := hsome s2 hp
          obtain ⟨ht, hb⟩ := hpatch s2 hp
          obtain ⟨r, hfind⟩ := hlook ht
          obtain ⟨s3, oid3, hs3, hcast3, hr, hrid⟩ := restaurantsFindById_some _ _ _ _ hfind
          rw [hb] at hs3
          cases hs3
          rw [hcast2] at hcast3
          cases hcast3
          refine ⟨r, hr, ?_⟩
          rw [← hmap, hrid]
          simp [MenuSet.apply, hset2]
      · rw [if_neg hid] at hmap
        exact Or.inl ⟨m, hm, by rw [hmap], by rw [hmap]⟩
  · intro res w1 s h hstatus hp
    rcases updateMenu_effect c req w w1 res subject hu hadmin h with
      ⟨hne, _⟩ | ⟨_, _, _, _, _, _, _, _, _, _, _, _, hlook, _⟩
    · exact absurd hstatus hne
    · obtain ⟨ht, hb⟩ := hpatch s hp
      rw [← hb]
      exact hlook ht
  · intro ht hnone
    unfold updateMenu
    simp only [hu, hadmin, ne_eq, not_true_eq_false, if_false, restaurantsFindById_log, ht,
      if_true, hnone]

theorem menu_reference_resolves_witness :
    (demoAdminRequest "64b7f00000000000000000b1" demoDanglingMenu).user =
      some (selectWithoutPassword demoAdmin) ∧
    (selectWithoutPassword demoAdmin).role = "admin" ∧
    truthy (bodyText (demoAdminRequest "64b7f00000000000000000b1" demoDanglingMenu).body
      "restaurant_id") = true ∧
    restaurantsFindById demoCollaborators demoMenuWorld
      (bodyText (demoAdminRequest "64b7f00000000000000000b1" demoDanglingMenu).body
        "restaurant_id") = .ok none ∧
    updateMenu demoCollaborators (demoAdminRequest "64b7f00000000000000000b1" demoDanglingMenu)
        demoMenuWorld =
      (.respond ⟨404, messageBody "Restaurant non trouvé"⟩, demoMenuWorld.log .restaurantRead) :=
  ⟨rfl, rfl, by decide, rfl,
    (menu_reference_resolves demoCollaborators
      (demoAdminRequest "64b7f00000000000000000b1" demoDanglingMenu) demoMenuWorld
      (selectWithoutPassword demoAdmin) rfl rfl).2.2.2 (by decide) rfl⟩

/-! ## Partial update of a menu -/

/-- C25 (counterexample): the admin update of the sample menu with the body
`{ name: "", description: " Potage du jour " }` succeeds with 200; the body supplies both
fields, yet the stored name stays `Soupe` (an empty string is not taken) and the stored
description is `Potage du jour`, the supplied text without its surrounding white space. -/
theorem updateMenu_supplied_not_verbatim :
    bodyText demoMenuUpdateBody "name" = some "" ∧
    bodyText demoMenuUpdateBody "description" = some " Potage du jour " ∧
    ((updateMenu demoCollaborators
        (demoAdminRequest "64b7f00000000000000000b1" demoMenuUpdateBody)
        demoMenuWorld).1.response?.map (fun res => res.status)) = some 200 ∧
    (updateMenu demoCollaborators
        (demoAdminRequest "64b7f00000000000000000b1" demoMenuUpdateBody)
        demoMenuWorld).2.menus.map (fun m => (m.name, m.description)) =
      [("Soupe", "Potage du jour")] := by
  refine ⟨by decide, by decide, by decide, by decide⟩

/-- C25 (amended): let the body give each of `restaurant_id`, `name`, `description` and
`category` as a JSON string or not at all, and `price` as a JSON number or not at all. After a
successful `updateMenu` (200) by an admin, the menus of the store are the former ones with the
menu of the path id replaced by its update, the response carries that updated menu, and in the
update each of `name`, `description` and `category` is the body's value without surrounding
white space when that value is a non-empty string and the stored value otherwise; `price` is
the body's number when there is one (0 included) and the stored price otherwise;
`restaurant_id` is the cast of the body's value when that is a non-empty string and the stored
reference otherwise. -/
theorem updateMenu_applies_supplied (c : Collaborators) (req : Request) (w w1 : World)
    (res : Response) (subject : Identity) (hu : req.user = some subject)
    (hadmin : subject.role = "admin")
    (htext : ∀ key ∈ ["restaurant_id", "name", "description", "category"],
      isTextOrMissing req.body key = true)
    (hprice : isNumberOrMissing req.body "price" = true)
    (h : updateMenu c req w = (.respond res, w1))
    (hstatus : res.status = 200) :
    ∃ s oid target, ∃ updated : MenuDoc → MenuDoc,
      req.params.lookup "id" = some s ∧ c.castObjectId s = some oid ∧
      w.menus.find? (fun m => m._id = oid) = some target ∧
      w1.menus = w.menus.map (fun m => if m._id = oid then updated m else m) ∧
      res.body = .obj [("message", .str "Menu mis à jour avec succès"),
        ("menu", menuJson w1 ["name", "address"] (updated target))] ∧
      ∀ m, (updated m)._id = m._id ∧
        (updated m).name = (if truthy (bodyText req.body "name") then
          jsTrim ((bodyText req.body "name").getD "") else m.name) ∧
        (updated m).description = (if truthy (bodyText req.body "description") then
          jsTrim ((bodyText req.body "description").getD "") else m.description) ∧
        (updated m).category = (if truthy (bodyText req.body "category") then
          jsTrim ((bodyText req.body "category").getD "") else m.category) ∧
        (updated m).price = (bodyNumber req.body "price").getD m.price ∧
        (bodyNumber req.body "price" = some 0 → (updated m).price = 0) ∧
        (truthy (bodyText req.body "restaurant_id") = false →
          (updated m).restaurant_id = m.restaurant_id) ∧
        (truthy (bodyText req.body "restaurant_id") = true →
          c.castObjectId ((bodyText req.body "restaurant_id").getD "") =
            some (updated m).restaurant_id) := by
  have _ := htext
  have _ := hprice
  have htrim : ∀ (v : Option String) (stored : String),
      ((if truthy v then v else none).map jsTrim).getD stored =
        (if truthy v then jsTrim (v.getD "") else stored) := by
    intro v stored
    cases v with
    | none => simp [truthy]
    | some x =>
      by_cases hx : truthy (some x) = true
      · simp [hx]
      · simp [hx]
  rcases updateMenu_effect c req w w1 res subject hu hadmin h with
    ⟨hne, _⟩ | ⟨s, oid, set, target, hid, hcast, hset, _, hfind, hmenus, _, _, _, hres⟩
  · exact absurd hstatus hne
  · obtain ⟨hname, hdesc, hprice, hcat, hnone, hsome⟩ := MenuPatch.cast_ok c _ set hset
    refine ⟨s, oid, target, set.apply, hid, hcast, hfind, hmenus, by rw [hres], ?_⟩
    intro m
    have hp : (set.apply m).price = (bodyNumber req.body "price").getD m.price := by
      show set.price.getD m.price = _
      rw [hprice]
      rfl
    refine ⟨rfl, ?_, ?_, ?_, hp, ?_, ?_, ?_⟩
    · show set.name.getD m.name = _
      rw [hname]
      exact htrim _ _
    · show set.description.getD m.description = _
      rw [hdesc]
      exact htrim _ _
    · show set.category.getD m.category = _
      rw [hcat]
      exact htrim _ _
    · intro h0
      rw [hp, h0]
      rfl
    · intro hf
      show set.restaurant_id.getD m.restaurant_id = _
      have : (updateMenuData req.body).restaurant_id = none := by
        simp [updateMenuData, hf]
      rw [hnone this]
      rfl
    · intro ht
      cases hb : bodyText req.body "restaurant_id" with
      | none => rw [hb] at ht; cases ht
      | some x =>
        have : (updateMenuData req.body).restaurant_id = some x := by
          rw [hb] at ht
          simp [updateMenuData, ht, hb]
        obtain ⟨oid2, hcast2, hset2⟩ := hsome x this
        show c.castObjectId x = some (set.restaurant_id.getD m.restaurant_id)
        rw [hset2, hcast2]
        rfl

theorem updateMenu_applies_supplied_witness :
    ∃ s oid target, ∃ updated : MenuDoc → MenuDoc,
      (demoAdminRequest "64b7f00000000000000000b1" demoMenuUpdateBody).params.lookup "id" =
        some s ∧
      demoCollaborators.castObjectId s = some oid ∧
      demoMenuWorld.menus.find? (fun m => m._id = oid) = some target ∧
      demoMenuWorldAfterUpdate.menus =
        demoMenuWorld.menus.map (fun m => if m._id = oid then updated m else m) ∧
      (⟨200, .obj [("message", .str "Menu mis à jour avec succès"),
        ("menu", menuJson demoMenuWorldAfterUpdate ["name", "address"] demoUpdatedMenu)]⟩ :
          Response).body =
        .obj [("message", .str "Menu mis à jour avec succès"),
          ("menu", menuJson demoMenuWorldAfterUpdate ["name", "address"] (updated target))] ∧
      ∀ m, (updated m)._id = m._id ∧
        (updated m).name = (if truthy (bodyText
            (demoAdminRequest "64b7f00000000000000000b1" demoMenuUpdateBody).body "name") then
          jsTrim ((bodyText
            (demoAdminRequest "64b7f00000000000000000b1" demoMenuUpdateBody).body "name").getD "")
          else m.name) ∧
        (updated m).description = (if truthy (bodyText
            (demoAdminRequest "64b7f00000000000000000b1" demoMenuUpdateBody).body
              "description") then
          jsTrim ((bodyText
            (demoAdminRequest "64b7f00000000000000000b1" demoMenuUpdateBody).body
              "description").getD "")
          else m.description) ∧
        (updated m).category = (if truthy (bodyText
            (demoAdminRequest "64b7f00000000000000000b1" demoMenuUpdateBody).body
              "category") then
          jsTrim ((bodyText
            (demoAdminRequest "64b7f00000000000000000b1" demoMenuUpdateBody).body
              "category").getD "")
          else m.category) ∧
        (updated m).price = (bodyNumber
          (demoAdminRequest "64b7f00000000000000000b1" demoMenuUpdateBody).body "price").getD
            m.price ∧
        (bodyNumber (demoAdminRequest "64b7f00000000000000000b1" demoMenuUpdateBody).body
          "price" = some 0 → (updated m).price = 0) ∧
        (truthy (bodyText (demoAdminRequest "64b7f00000000000000000b1" demoMenuUpdateBody).body
            "restaurant_id") = false →
          (updated m).restaurant_id = m.restaurant_id) ∧
        (truthy (bodyText (demoAdminRequest "64b7f00000000000000000b1" demoMenuUpdateBody).body
            "restaurant_id") = true →
          demoCollaborators.castObjectId ((bodyText
            (demoAdminRequest "64b7f00000000000000000b1" demoMenuUpdateBody).body
              "restaurant_id").getD "") = some (updated m).restaurant_id) :=
  updateMenu_applies_supplied demoCollaborators
    (demoAdminRequest "64b7f00000000000000000b1" demoMenuUpdateBody) demoMenuWorld
    demoMenuWorldAfterUpdate
    ⟨200, .obj [("message", .str "Menu mis à jour avec succès"),
      ("menu", menuJson demoMenuWorldAfterUpdate ["name", "address"] demoUpdatedMenu)]⟩
    (selectWithoutPassword demoAdmin) rfl rfl (by decide) (by decide) rfl rfl

/-! ## Not-found mapping -/

theorem usersFindByIdAndUpdate_absent (c : Collaborators) (w : World) (s : String)
    (oid : ObjectId) (patch : UserPatch) (hcast : c.castObjectId s = some oid)
    (hvalid : patch.valid = true) (hnone : ∀ u ∈ w.users, u._id ≠ oid) :
    usersFindByIdAndUpdate c w (some s) patch = .ok (none, w) := by
  have : w.users.find? (fun u => u._id = oid) = none := by
    rw [List.find?_eq_none]
    intro u hu
    simpa using hnone u hu
  simp [usersFindByIdAndUpdate, hcast, hvalid, this]

theorem restaurantsFindByIdAndUpdate_absent (c : Collaborators) (w : World) (s : String)
    (oid : ObjectId) (patch : RestaurantPatch) (hcast : c.castObjectId s = some oid)
    (hvalid : patch.trimmed.valid = true) (hnone : ∀ r ∈ w.restaurants, r._id ≠ oid) :
    restaurantsFindByIdAndUpdate c w (some s) patch = .ok (none, w) := by
  have : w.restaurants.find? (fun r => r._id = oid) = none := by
    rw [List.find?_eq_none]
    intro r hr
    simpa using hnone r hr
  simp [restaurantsFindByIdAndUpdate, hcast, hvalid, this]

theorem menusFindByIdAndUpdate_absent (c : Collaborators) (w : World) (s : String)
    (oid : ObjectId) (patch : MenuPatch) (hcast : c.castObjectId s = some oid)
    (hpatch : patch.restaurant_id = none)
    (hvalid : ∀ set, patch.cast c = .ok set → set.valid = true)
    (hnone : ∀ m ∈ w.menus, m._id ≠ oid) :
    menusFindByIdAndUpdate c w (some s) patch = .ok (none, w) := by
  have hfind : w.menus.find? (fun m => m._id = oid) = none := by
    rw [List.find?_eq_none]
    intro m hm
    simpa using hnone m hm
  have hc : patch.cast c = .ok (⟨none, patch.name.map jsTrim, patch.description.map jsTrim,
      patch.price, patch.category.map jsTrim⟩ : MenuSet) := by
    simp [MenuPatch.cast, hpatch]
  simp [menusFindByIdAndUpdate, hcast, hc, hvalid _ hc, hfind]

theorem updateMenuData_no_reference (body : Json)
    (h : truthy (bodyText body "restaurant_id") = false) :
    (updateMenuData body).restaurant_id = none := by
  simp [updateMenuData, h]

/-- C24 (counterexample): an admin `updateMenu` on the sample store with a path id that casts
to an id no menu has, no `restaurant_id` in the body and the category `pizza`, which is not
one of the schema's values: the update validators reject the patch before any document is
looked for, and the response is 500 "Erreur lors de la mise à jour du menu", not 404. -/
theorem updateMenu_absent_id_rejected_patch :
    demoCollaborators.castObjectId "64b7f00000000000000000ee" =
      some ⟨"64b7f00000000000000000ee"⟩ ∧
    (∀ m ∈ demoMenuWorld.menus, m._id ≠ ⟨"64b7f00000000000000000ee"⟩) ∧
    bodyText demoBadCategory "restaurant_id" = none ∧
    ((updateMenu demoCollaborators (demoAdminRequest "64b7f00000000000000000ee" demoBadCategory)
        demoMenuWorld).1.response?.map
      (fun res => (res.status, (res.body.field "message").bind Json.text?))) =
      some (500, some "Erreur lors de la mise à jour du menu") := by
  refine ⟨by decide, by decide, by decide, by decide⟩

/-- C24 (amended): let the path id cast to an `ObjectId`. When no stored record of the
collection has that id and the caller passes the operation's gate, `getUserById`,
`deleteUser`, `getRestaurantById`, `deleteRestaurant`, `getMenuById` and `deleteMenu` answer
404 with the resource's not-found message and leave the three collections unchanged; so do
`updateUser`, `updateRestaurant` and `updateMenu` (with no `restaurant_id` in the body)
provided the body gives the fields of the model as JSON strings (the price as a JSON number) or
not at all and the patch built from it passes the update validators. When a stored record has
that id, each delete answers 200 and the collection is the former one with that record
erased, the other two collections being unchanged. -/
theorem notFound_mapping (c : Collaborators) (req : Request) (w : World) (s : String)
    (oid : ObjectId) (hid : req.params.lookup "id" = some s)
    (hcast : c.castObjectId s = some oid) :
    (∀ subject, req.user = some subject →
      (subject.role = "admin" ∨ subject._id.toString = s) →
      (∀ u ∈ w.users, u._id ≠ oid) →
      NotFoundUnchanged (getUserById c req w) w "Utilisateur non trouvé" ∧
      NotFoundUnchanged (deleteUser c req w) w "Utilisateur non trouvé" ∧
      ((truthy (bodyText req.body "role") = true → subject.role = "admin") →
        (∀ key ∈ ["username", "email", "password", "role"],
          isTextOrMissing req.body key = true) →
        (updateUserData c req.body).valid = true →
        NotFoundUnchanged (updateUser c req w) w "Utilisateur non trouvé")) ∧
    ((∀ r ∈ w.restaurants, r._id ≠ oid) →
      NotFoundUnchanged (getRestaurantById c req w) w "Restaurant non trouvé" ∧
      ∀ subject, req.user = some subject → subject.role = "admin" →
        NotFoundUnchanged (deleteRestaurant c req w) w "Restaurant non trouvé" ∧
        ((∀ key ∈ ["name", "address", "phone", "opening_hours"],
            isTextOrMissing req.body key = true) →
          (updateRestaurantData req.body).trimmed.valid = true →
          NotFoundUnchanged (updateRestaurant c req w) w "Restaurant non trouvé")) ∧
    ((∀ m ∈ w.menus, m._id ≠ oid) →
      NotFoundUnchanged (getMenuById c req w) w "Menu non trouvé" ∧
      ∀ subject, req.user = some subject → subject.role = "admin" →
        NotFoundUnchanged (deleteMenu c req w) w "Menu non trouvé" ∧
        (truthy (bodyText req.body "restaurant_id") = false →
          (∀ key ∈ ["restaurant_id", "name", "description", "category"],
            isTextOrMissing req.body key = true) →
          isNumberOrMissing req.body "price" = true →
          (∀ set, (updateMenuData req.body).cast c = .ok set → set.valid = true) →
          NotFoundUnchanged (updateMenu c req w) w "Menu non trouvé")) ∧
    (∀ subject u, req.user = some subject →
      (subject.role = "admin" ∨ subject._id.toString = s) →
      w.users.find? (fun u => u._id = oid) = some u →
      ∃ w1, deleteUser c req w =
          (.respond ⟨200, messageBody "Utilisateur supprimé avec succès"⟩, w1) ∧
        w1.users = w.users.erase u ∧ w1.restaurants = w.restaurants ∧ w1.menus = w.menus) ∧
    (∀ subject r, req.user = some subject → subject.role = "admin" →
      w.restaurants.find? (fun r => r._id = oid) = some r →
      ∃ w1, deleteRestaurant c req w =
          (.respond ⟨200, messageBody "Restaurant supprimé avec succès"⟩, w1) ∧
        w1.restaurants = w.restaurants.erase r ∧ w1.users = w.users ∧ w1.menus = w.menus) ∧
    (∀ subject m, req.user = some subject → subject.role = "admin" →
      w.menus.find? (fun m => m._id = oid) = some m →
      ∃ w1, deleteMenu c req w =
          (.respond ⟨200, messageBody "Menu supprimé avec succès"⟩, w1) ∧
        w1.menus = w.menus.erase m ∧ w1.users = w.users ∧ w1.restaurants = w.restaurants) := by
  have hgate : ∀ subject : Identity, (subject.role = "admin" ∨ subject._id.toString = s) →
      ¬ (subject.role ≠ "admin" ∧ some subject._id.toString ≠ some s) := by
    intro subject hg hn
    rcases hg with hg | hg
    · exact hn.1 hg
    · exact hn.2 (by rw [hg])
  refine ⟨?_, ?_, ?_, ?_, ?_, ?_⟩
  · intro subject hu hg hnone
    have hfind : w.users.find? (fun u => u._id = oid) = none := by
      rw [List.find?_eq_none]
      intro u hu
      simpa using hnone u hu
    refine ⟨?_, ?_, ?_⟩
    · refine ⟨w.log (.usersFindById (some s)), ?_, rfl, rfl, rfl⟩
      unfold getUserById
      simp only [hu, hid, if_neg (hgate subject hg)]
      have : usersFindById c (w.log (.usersFindById (some s))) (some s) = .ok none := by
        simp [usersFindById, hcast, World.log, hfind]
      simp only [this]
    · refine ⟨w.log (.usersFindByIdAndDelete (some s)), ?_, rfl, rfl, rfl⟩
      unfold deleteUser
      simp only [hu, hid, if_neg (hgate subject hg)]
      have : usersFindByIdAndDelete c (w.log (.usersFindByIdAndDelete (some s))) (some s) =
          .ok (none, w.log (.usersFindByIdAndDelete (some s))) := by
        simp [usersFindByIdAndDelete, hcast, World.log, hfind]
      simp only [this]
    · intro hrole _ hvalid
      have hrole2 : ¬ (truthy (bodyText req.body "role") = true ∧ subject.role ≠ "admin") :=
        fun hn => hn.2 (hrole hn.1)
      unfold updateUser
      simp only [hu, hid, if_neg (hgate subject hg), if_neg hrole2]
      by_cases hp : truthy (bodyText req.body "password") = true
      · cases hb : bodyText req.body "password" with
        | none => rw [hb] at hp; cases hp
        | some pw =>
          rw [hb] at hp
          have hpatch : updateUserData c req.body =
              { username := if truthy (bodyText req.body "username") then
                  bodyText req.body "username" else none
                email := if truthy (bodyText req.body "email") then
                  bodyText req.body "email" else none
                role := if truthy (bodyText req.body "role") then
                  bodyText req.body "role" else none
                password := some (c.bcryptHash pw 10) } := by
            simp [updateUserData, hb, hp]
          rw [hpatch] at hvalid
          refine ⟨(w.log (.bcryptHash (some pw))).log (.usersFindByIdAndUpdate (some s)), ?_,
            rfl, rfl, rfl⟩
          simp only [hp, if_true, bcryptHash]
          rw [usersFindByIdAndUpdate_absent c
            ((w.log (.bcryptHash (some pw))).log (.usersFindByIdAndUpdate (some s))) s oid _
            hcast hvalid hnone]
      · have hpatch : updateUserData c req.body =
            { username := if truthy (bodyText req.body "username") then
                bodyText req.body "username" else none
              email := if truthy (bodyText req.body "email") then
                bodyText req.body "email" else none
              role := if truthy (bodyText req.body "role") then
                bodyText req.body "role" else none
              password := none } := by
          simp [updateUserData, hp]
        rw [hpatch] at hvalid
        refine ⟨w.log (.usersFindByIdAndUpdate (some s)), ?_, rfl, rfl, rfl⟩
        simp only [hp, if_false, Bool.false_eq_true]
        rw [usersFindByIdAndUpdate_absent c (w.log (.usersFindByIdAndUpdate (some s))) s oid _
          hcast hvalid hnone]
  · intro hnone
    have hfind : w.restaurants.find? (fun r => r._id = oid) = none := by
      rw [List.find?_eq_none]
      intro r hr
      simpa using hnone r hr
    refine ⟨?_, ?_⟩
    · refine ⟨w.log .restaurantRead, ?_, rfl, rfl, rfl⟩
      unfold getRestaurantById
      simp only [hid, restaurantsFindById_log,
        restaurantsFindById_none c w s oid hcast hnone]
    · intro subject hu hadmin
      refine ⟨?_, ?_⟩
      · refine ⟨w.log .restaurantWrite, ?_, rfl, rfl, rfl⟩
        unfold deleteRestaurant
        simp only [hu, hadmin, ne_eq, not_true_eq_false, if_false, hid]
        have : restaurantsFindByIdAndDelete c (w.log .restaurantWrite) (some s) =
            .ok (none, w.log .restaurantWrite) := by
          simp [restaurantsFindByIdAndDelete, hcast, World.log, hfind]
        simp only [this]
      · intro _ hvalid
        refine ⟨w.log .restaurantWrite, ?_, rfl, rfl, rfl⟩
        unfold updateRestaurant
        simp only [hu, hadmin, ne_eq, not_true_eq_false, if_false, hid]
        rw [restaurantsFindByIdAndUpdate_absent c (w.log .restaurantWrite) s oid _ hcast hvalid
          hnone]
  · intro hnone
    have hfind : w.menus.find? (fun m => m._id = oid) = none := by
      rw [List.find?_eq_none]
      intro m hm
      simpa using hnone m hm
    refine ⟨?_, ?_⟩
    · refine ⟨w.log .menuRead, ?_, rfl, rfl, rfl⟩
      unfold getMenuById
      have : menusFindById c (w.log .menuRead) (some s) = .ok none := by
        simp [menusFindById, hcast, World.log, hfind]
      simp only [hid, this]
    · intro subject hu hadmin
      refine ⟨?_, ?_⟩
      · refine ⟨w.log .menuWrite, ?_, rfl, rfl, rfl⟩
        unfold deleteMenu
        simp only [hu, hadmin, ne_eq, not_true_eq_false, if_false, hid]
        have : menusFindByIdAndDelete c (w.log .menuWrite) (some s) =
            .ok (none, w.log .menuWrite) := by
          simp [menusFindByIdAndDelete, hcast, World.log, hfind]
        simp only [this]
      · intro hno _ _ hvalid
        refine ⟨w.log .menuWrite, ?_, rfl, rfl, rfl⟩
        unfold updateMenu
        simp only [hu, hadmin, ne_eq, not_true_eq_false, if_false, hid, hno,
          Bool.false_eq_true]
        rw [menusFindByIdAndUpdate_absent c (w.log .menuWrite) s oid _ hcast
          (updateMenuData_no_reference _ hno) hvalid hnone]
  · intro subject u hu hg hfind
    refine ⟨{ w.log (.usersFindByIdAndDelete (some s)) with users := w.users.erase u }, ?_,
      rfl, rfl, rfl⟩
    unfold deleteUser
    simp only [hu, hid, if_neg (hgate subject hg)]
    have : usersFindByIdAndDelete c (w.log (.usersFindByIdAndDelete (some s))) (some s) =
        .ok (some u,
          { w.log (.usersFindByIdAndDelete (some s)) with users := w.users.erase u }) := by
      simp [usersFindByIdAndDelete, hcast, World.log, hfind]
    simp only [this]
  · intro subject r hu hadmin hfind
    refine ⟨{ w.log .restaurantWrite with restaurants := w.restaurants.erase r }, ?_,
      rfl, rfl, rfl⟩
    unfold deleteRestaurant
    simp only [hu, hadmin, ne_eq, not_true_eq_false, if_false, hid]
    have : restaurantsFindByIdAndDelete c (w.log .restaurantWrite) (some s) =
        .ok (some r, { w.log .restaurantWrite with restaurants := w.restaurants.erase r }) := by
      simp [restaurantsFindByIdAndDelete, hcast, World.log, hfind]
    simp only [this]
  · intro subject m hu hadmin hfind
    refine ⟨{ w.log .menuWrite with menus := w.menus.erase m }, ?_, rfl, rfl, rfl⟩
    unfold deleteMenu
    simp only [hu, hadmin, ne_eq, not_true_eq_false, if_false, hid]
    have : menusFindByIdAndDelete c (w.log .menuWrite) (some s) =
        .ok (some m, { w.log .menuWrite with menus := w.menus.erase m }) := by
      simp [menusFindByIdAndDelete, hcast, World.log, hfind]
    simp only [this]

theorem notFound_mapping_witness :
    (demoAdminRequest "64b7f00000000000000000ee" demoPlatCategory).params.lookup "id" =
      some "64b7f00000000000000000ee" ∧
    demoCollaborators.castObjectId "64b7f00000000000000000ee" =
      some ⟨"64b7f00000000000000000ee"⟩ ∧
    (∀ m ∈ demoMenuWorld.menus, m._id ≠ ⟨"64b7f00000000000000000ee"⟩) ∧
    NotFoundUnchanged (getMenuById demoCollaborators
      (demoAdminRequest "64b7f00000000000000000ee" demoPlatCategory) demoMenuWorld)
      demoMenuWorld "Menu non trouvé" ∧
    NotFoundUnchanged (deleteMenu demoCollaborators
      (demoAdminRequest "64b7f00000000000000000ee" demoPlatCategory) demoMenuWorld)
      demoMenuWorld "Menu non trouvé" ∧
    NotFoundUnchanged (updateMenu demoCollaborators
      (demoAdminRequest "64b7f00000000000000000ee" demoPlatCategory) demoMenuWorld)
      demoMenuWorld "Menu non trouvé" ∧
    demoMenuWorld.menus.find? (fun m => m._id = ⟨"64b7f00000000000000000b1"⟩) =
      some { demoUpdatedMenu with description := "Soupe du jour" } ∧
    ∃ w1, deleteMenu demoCollaborators (demoAdminRequest "64b7f00000000000000000b1" .null)
        demoMenuWorld = (.respond ⟨200, messageBody "Menu supprimé avec succès"⟩, w1) ∧
      w1.menus = demoMenuWorld.menus.erase { demoUpdatedMenu with description := "Soupe du jour" } ∧
      w1.users = demoMenuWorld.users ∧ w1.restaurants = demoMenuWorld.restaurants :=
  ⟨rfl, rfl, by decide,
    ((notFound_mapping demoCollaborators
      (demoAdminRequest "64b7f00000000000000000ee" demoPlatCategory) demoMenuWorld
      "64b7f00000000000000000ee" ⟨"64b7f00000000000000000ee"⟩ rfl rfl).2.2.1 (by decide)).1,
    (((notFound_mapping demoCollaborators
      (demoAdminRequest "64b7f00000000000000000ee" demoPlatCategory) demoMenuWorld
      "64b7f00000000000000000ee" ⟨"64b7f00000000000000000ee"⟩ rfl rfl).2.2.1 (by decide)).2
        (selectWithoutPassword demoAdmin) rfl rfl).1,
    (((notFound_mapping demoCollaborators
      (demoAdminRequest "64b7f00000000000000000ee" demoPlatCategory) demoMenuWorld
      "64b7f00000000000000000ee" ⟨"64b7f00000000000000000ee"⟩ rfl rfl).2.2.1 (by decide)).2
        (selectWithoutPassword demoAdmin) rfl rfl).2 (by decide) (by decide) (by decide)
        (fun set h => by cases h; decide),
    rfl,
    (notFound_mapping demoCollaborators (demoAdminRequest "64b7f00000000000000000b1" .null)
      demoMenuWorld "64b7f00000000000000000b1" ⟨"64b7f00000000000000000b1"⟩ rfl
      rfl).2.2.2.2.2 (selectWithoutPassword demoAdmin)
      { demoUpdatedMenu with description := "Soupe du jour" } rfl rfl rfl⟩

/-! ## Menus of a restaurant -/

theorem menusFind_log (c : Collaborators) (w : World) (call : Call) (f : MenuFilter)
    (sortObject : List (String × Int)) (skip limit : Int) :
    menusFind c (w.log call) f sortObject skip limit = menusFind c w f sortObject skip limit :=
  rfl

theorem menusCountDocuments_log (c : Collaborators) (w : World) (call : Call) (f : MenuFilter) :
    menusCountDocuments c (w.log call) f = menusCountDocuments c w f :=
  rfl

theorem menusFind_belongs (c : Collaborators) (w : World) (rid : String) (oid : ObjectId)
    (category : Option QVal) (sortObject : List (String × Int)) (skip limit : Int)
    (menus : List MenuDoc) (hcast : c.castObjectId rid = some oid)
    (hcursor : ∀ sort skip limit docs out, c.menusCursor sort skip limit docs = .ok out →
      ∀ m ∈ out, m ∈ docs)
    (h : menusFind c w ⟨some (.text rid), category, none, none⟩ sortObject skip limit =
      .ok menus) :
    ∀ m ∈ menus, m.restaurant_id = oid := by
  unfold menusFind at h
  split at h
  · cases h
  · next admits hadm =>
    intro m hm
    have hm2 := hcursor _ _ _ _ _ h m hm
    have hadmits : admits m = true := (List.mem_filter.mp hm2).2
    unfold castMenuFilter at hadm
    simp only [castIdFilter, hcast, castPrice, castSearch] at hadm
    split at hadm
    · cases hadm
    · simp only [Except.ok.injEq] at hadm
      rw [← hadm] at hadmits
      simp at hadmits
      exact hadmits.1.1

/-- C26: `getMenusByRestaurant`, for every request. When the lookup of the path `restaurantId`
finds no restaurant, the response is 404 "Restaurant non trouvé" and the only call made is that
lookup. When it finds one, the listing and the count both use the filter
`restaurant_id = restaurantId` with `category` added when the query has a truthy one, and the
200 response carries their results, so every returned menu belongs to that restaurant (the
cursor returning only documents it was given); every 200 response arises this way. Two
requests with the same route parameters whose queries differ only in `restaurant_id`,
`minPrice`, `maxPrice` and `search` get the same outcome. -/
theorem getMenusByRestaurant_contract (c : Collaborators) (req : Request) (w : World) :
    (restaurantsFindById c w (req.params.lookup "restaurantId") = .ok none →
      getMenusByRestaurant c req w =
        (.respond ⟨404, messageBody "Restaurant non trouvé"⟩, w.log .restaurantRead) ∧
      (getMenusByRestaurant c req w).2.trace = w.trace ++ [.restaurantRead]) ∧
    (∀ rid r menus total,
      req.params.lookup "restaurantId" = some rid →
      restaurantsFindById c w (some rid) = .ok (some r) →
      menusFind c w ⟨some (.text rid), whenTruthy (queryGet req.query "category"), none, none⟩
        (getMenusByRestaurantSort req.query) (parsePaging req.query).skip
        (parsePaging req.query).limit = .ok menus →
      menusCountDocuments c w
        ⟨some (.text rid), whenTruthy (queryGet req.query "category"), none, none⟩ = .ok total →
      getMenusByRestaurant c req w =
        (.respond ⟨200, .obj [("message", .str "Menus du restaurant récupérés avec succès"),
          ("restaurant", .obj [("id", .str r._id.toString), ("name", .str r.name),
            ("address", .str r.address)]),
          ("menus", .arr (menus.map (menuJson
            (((w.log .restaurantRead).log .menuRead).log .menuRead) ["name", "address"]))),
          ("pagination", paginationJson "totalMenus"
            (paginationInfo (parsePaging req.query) total))]⟩,
          ((w.log .restaurantRead).log .menuRead).log .menuRead) ∧
      ((∀ sort skip limit docs out, c.menusCursor sort skip limit docs = .ok out →
          ∀ m ∈ out, m ∈ docs) →
        ∀ m ∈ menus, m.restaurant_id = r._id)) ∧
    (∀ res w1, getMenusByRestaurant c req w = (.respond res, w1) → res.status = 200 →
      ∃ rid r menus total,
        req.params.lookup "restaurantId" = some rid ∧
        restaurantsFindById c w (some rid) = .ok (some r) ∧
        menusFind c w
          ⟨some (.text rid), whenTruthy (queryGet req.query "category"), none, none⟩
          (getMenusByRestaurantSort req.query) (parsePaging req.query).skip
          (parsePaging req.query).limit = .ok menus ∧
        menusCountDocuments c w
          ⟨some (.text rid), whenTruthy (queryGet req.query "category"), none, none⟩ =
            .ok total) ∧
    (∀ req2 : Request, req2.params = req.params →
      (∀ k, k ∉ ["restaurant_id", "minPrice", "maxPrice", "search"] →
        queryGet req2.query k = queryGet req.query k) →
      getMenusByRestaurant c req2 w = getMenusByRestaurant c req w) := by
  refine ⟨?_, ?_, ?_, ?_⟩
  · intro hnone
    have : getMenusByRestaurant c req w =
        (.respond ⟨404, messageBody "Restaurant non trouvé"⟩, w.log .restaurantRead) := by
      unfold getMenusByRestaurant
      simp only [restaurantsFindById_log, hnone]
    exact ⟨this, by rw [this]; rfl⟩
  · intro rid r menus total hrid hfind hmenus hcount
    refine ⟨?_, ?_⟩
    · unfold getMenusByRestaurant
      simp only [restaurantsFindById_log, hrid, hfind, getMenusByRestaurantFilter,
        menusFind_log, menusCountDocuments_log, hmenus, hcount]
    · intro hcursor m hm
      obtain ⟨s, oid, hs, hcast, _, hid⟩ := restaurantsFindById_some _ _ _ _ hfind
      cases hs
      rw [hid]
      exact menusFind_belongs c w rid oid _ _ _ _ menus hcast hcursor hmenus m hm
  · intro res w1 h hstatus
    unfold getMenusByRestaurant at h
    simp only [restaurantsFindById_log, menusFind_log, menusCountDocuments_log] at h
    split at h
    · simp only [Prod.mk.injEq, Outcome.respond.injEq] at h
      rw [← h.1] at hstatus
      cases hstatus
    · simp only [Prod.mk.injEq, Outcome.respond.injEq] at h
      rw [← h.1] at hstatus
      cases hstatus
    · next r hfind =>
      obtain ⟨rid, oid, hrid, _, _, _⟩ := restaurantsFindById_some _ _ _ _ hfind
      rw [hrid] at hfind h
      simp only [getMenusByRestaurantFilter] at h
      split at h
      · simp only [Prod.mk.injEq, Outcome.respond.injEq] at h
        rw [← h.1] at hstatus
        cases hstatus
      · next menus hmenus =>
        split at h
        · simp only [Prod.mk.injEq, Outcome.respond.injEq] at h
          rw [← h.1] at hstatus
          cases hstatus
        · next total hcount =>
          exact ⟨rid, r, menus, total, hrid, hfind, hmenus, hcount⟩
  · intro req2 hparams hquery
    have hpaging : parsePaging req2.query = parsePaging req.query := by
      unfold parsePaging
      rw [hquery "page" (by decide), hquery "limit" (by decide)]
    have hsort : getMenusByRestaurantSort req2.query = getMenusByRestaurantSort req.query := by
      unfold getMenusByRestaurantSort sortObjectOf
      rw [hquery "sortBy" (by decide), hquery "sortOrder" (by decide)]
    have hfilter : ∀ rid, getMenusByRestaurantFilter rid req2.query =
        getMenusByRestaurantFilter rid req.query := by
      intro rid
      unfold getMenusByRestaurantFilter
      rw [hquery "category" (by decide)]
    unfold getMenusByRestaurant
    simp only [hparams, hpaging, hsort, hfilter]

theorem getMenusByRestaurant_contract_witness :
    restaurantsFindById demoCollaborators demoMenuWorld
      ((demoListRequest "64b7f00000000000000000ee" []).params.lookup "restaurantId") =
        .ok none ∧
    getMenusByRestaurant demoCollaborators (demoListRequest "64b7f00000000000000000ee" [])
        demoMenuWorld =
      (.respond ⟨404, messageBody "Restaurant non trouvé"⟩, demoMenuWorld.log .restaurantRead) ∧
    (∀ k, k ∉ ["restaurant_id", "minPrice", "maxPrice", "search"] →
      queryGet (demoListRequest "64b7f00000000000000000a1"
        [("search", .text "zzz"), ("minPrice", .text "100")]).query k =
      queryGet (demoListRequest "64b7f00000000000000000a1" []).query k) ∧
    getMenusByRestaurant demoCollaborators (demoListRequest "64b7f00000000000000000a1"
        [("search", .text "zzz"), ("minPrice", .text "100")]) demoMenuWorld =
      getMenusByRestaurant demoCollaborators (demoListRequest "64b7f00000000000000000a1" [])
        demoMenuWorld :=
  have hquery : ∀ k, k ∉ ["restaurant_id", "minPrice", "maxPrice", "search"] →
      queryGet (demoListRequest "64b7f00000000000000000a1"
        [("search", .text "zzz"), ("minPrice", .text "100")]).query k =
      queryGet (demoListRequest "64b7f00000000000000000a1" []).query k := by
    intro k hk
    simp only [List.mem_cons, List.mem_singleton, not_or] at hk
    have h1 : (k == "search") = false := beq_eq_false_iff_ne.mpr hk.2.2.2.1
    have h2 : (k == "minPrice") = false := beq_eq_false_iff_ne.mpr hk.2.1
    simp [demoListRequest, queryGet, List.lookup, h1, h2]
  ⟨rfl,
    ((getMenusByRestaurant_contract demoCollaborators
      (demoListRequest "64b7f00000000000000000ee" []) demoMenuWorld).1 rfl).1,
    hquery,
    (getMenusByRestaurant_contract demoCollaborators
      (demoListRequest "64b7f00000000000000000a1" []) demoMenuWorld).2.2.2
      (demoListRequest "64b7f00000000000000000a1"
        [("search", .text "zzz"), ("minPrice", .text "100")]) rfl hquery⟩

/-! ## The role that decides -/

theorem authenticateToken_verified (c : Collaborators) (req : Request) (w : World)
    (tok : String) (decoded : TokenPayload)
    (htok : extractToken req.authorization = some tok) (hne : tok ≠ "")
    (hver : c.jwtVerify tok (jwtSecret c) = some decoded) :
    authenticateToken c req w =
      (match usersFindById c w decoded.userId with
        | .error _ => (.respond ⟨403, messageBody "Token invalide ou expiré"⟩,
            (w.log (.jwtVerify tok (jwtSecret c))).log (.usersFindById decoded.userId))
        | .ok none => (.respond ⟨401, messageBody "Token invalide"⟩,
            (w.log (.jwtVerify tok (jwtSecret c))).log (.usersFindById decoded.userId))
        | .ok (some user) => (.next { req with user := some user },
            (w.log (.jwtVerify tok (jwtSecret c))).log (.usersFindById decoded.userId))) := by
  have ht : truthy (some tok) = true := (truthy_some_iff tok).mpr hne
  simp [authenticateToken, htok, ht, hver, usersFindById_log]

/-- C27: two requests on the same store whose tokens both verify and carry the same `userId`
(whatever else their payloads say, the role included) and that have the same route parameters
get the same decision from `authenticateToken` (the same identity attached, or the same
response), from `authenticateToken` followed by `requireAdmin`, and from `authenticateToken`
followed by `requireOwnershipOrAdmin`. When the identity stored under that `userId` is not an
admin, the request is answered 403 "Accès réservé aux administrateurs" on every admin-only
route (POST, PUT and DELETE of the restaurant and menu routers, GET `/` of the user router),
the three collections being unchanged, whatever role the payload carries. -/
theorem decisions_use_stored_role (c : Collaborators) (req1 req2 : Request) (w : World)
    (t1 t2 : String) (p1 p2 : TokenPayload)
    (ht1 : extractToken req1.authorization = some t1) (hne1 : t1 ≠ "")
    (ht2 : extractToken req2.authorization = some t2) (hne2 : t2 ≠ "")
    (hv1 : c.jwtVerify t1 (jwtSecret c) = some p1)
    (hv2 : c.jwtVerify t2 (jwtSecret c) = some p2)
    (hid : p1.userId = p2.userId) (hparams : req1.params = req2.params) :
    (authenticateToken c req1 w).1.decision = (authenticateToken c req2 w).1.decision ∧
    (runChain [authenticateToken c, requireAdmin] req1 w).1.decision =
      (runChain [authenticateToken c, requireAdmin] req2 w).1.decision ∧
    (runChain [authenticateToken c, requireOwnershipOrAdmin] req1 w).1.decision =
      (runChain [authenticateToken c, requireOwnershipOrAdmin] req2 w).1.decision ∧
    (∀ stored, usersFindById c w p1.userId = .ok (some stored) → stored.role ≠ "admin" →
      ∀ (rctl : RestaurantController) (mctl : MenuController) (m : Method)
        (path : List String) (chain : List Handler),
        ((m = .POST ∨ m = .PUT ∨ m = .DELETE) ∧
            (restaurantRouter c rctl m path = some chain ∨
              menuRouter c mctl m path = some chain)) ∨
          (m = .GET ∧ path = [] ∧ userRouter c m path = some chain) →
        (runChain chain req1 w).1 =
          .respond ⟨403, messageBody "Accès réservé aux administrateurs"⟩ ∧
        (runChain chain req1 w).2.users = w.users ∧
        (runChain chain req1 w).2.restaurants = w.restaurants ∧
        (runChain chain req1 w).2.menus = w.menus) := by
  have h1 := authenticateToken_verified c req1 w t1 p1 ht1 hne1 hv1
  have h2 := authenticateToken_verified c req2 w t2 p2 ht2 hne2 hv2
  rw [← hid] at h2
  refine ⟨?_, ?_, ?_, ?_⟩
  · rw [h1, h2]
    cases usersFindById c w p1.userId with
    | error e => rfl
    | ok found =>
      cases found with
      | none => rfl
      | some user => rfl
  · unfold runChain
    rw [h1, h2]
    cases usersFindById c w p1.userId with
    | error e => rfl
    | ok found =>
      cases found with
      | none => rfl
      | some user =>
        by_cases hr : user.role = "admin"
        · simp [runChain, requireAdmin, hr, Outcome.decision]
        · simp [runChain, requireAdmin, hr, Outcome.decision]
  · unfold runChain
    rw [h1, h2]
    cases usersFindById c w p1.userId with
    | error e => rfl
    | ok found =>
      cases found with
      | none => rfl
      | some user =>
        by_cases hr : user.role = "admin" ∨ some user._id.toString = req2.params.lookup "id"
        · simp [runChain, requireOwnershipOrAdmin, hparams, hr, Outcome.decision]
        · simp [runChain, requireOwnershipOrAdmin, hparams, hr, Outcome.decision]
  · intro stored hfind hrole rctl mctl m path chain hroute
    have hauth := authenticateToken_identity_found c req1 w t1 p1 stored ht1 hne1 hv1 hfind
    have hgate : ∀ ctl : Handler,
        runChain [authenticateToken c, requireAdmin, ctl] req1 w =
          (.respond ⟨403, messageBody "Accès réservé aux administrateurs"⟩,
            (w.log (.jwtVerify t1 (jwtSecret c))).log (.usersFindById p1.userId)) := by
      intro ctl
      simp [runChain, hauth, requireAdmin, hrole]
    have hchain : ∃ ctl : Handler, chain = [authenticateToken c, requireAdmin, ctl] := by
      rcases hroute with ⟨hm, hroute⟩ | ⟨hm, hpath, hroute⟩
      · rcases hm with rfl | rfl | rfl <;> rcases hroute with h | h <;>
          rcases path with _ | ⟨seg, _ | ⟨seg2, rest⟩⟩ <;>
          simp [restaurantRouter, menuRouter] at h <;>
          exact ⟨_, h.symm⟩
      · subst hm hpath
        simp [userRouter] at hroute
        exact ⟨_, hroute.symm⟩
    obtain ⟨ctl, rfl⟩ := hchain
    rw [hgate ctl]
    exact ⟨rfl, rfl, rfl, rfl⟩

theorem decisions_use_stored_role_witness :
    (⟨some "64b7f0000000000000000002", some "guest@food.test", some "admin"⟩ :
      TokenPayload).role ≠
      (⟨some "64b7f0000000000000000002", some "guest@food.test", some "user"⟩ :
        TokenPayload).role ∧
    usersFindById demoCollaborators demoWorld (some "64b7f0000000000000000002") =
      .ok (some (selectWithoutPassword demoUser)) ∧
    (authenticateToken demoCollaborators
        (demoRequest (some "Bearer stale.jwt") "64b7f00000000000000000a1" none)
        demoWorld).1.decision =
      (authenticateToken demoCollaborators
        (demoRequest (some "Bearer user.jwt") "64b7f00000000000000000a1" none)
        demoWorld).1.decision ∧
    (runChain [authenticateToken demoCollaborators, requireAdmin]
        (demoRequest (some "Bearer stale.jwt") "64b7f00000000000000000a1" none)
        demoWorld).1.decision =
      (runChain [authenticateToken demoCollaborators, requireAdmin]
        (demoRequest (some "Bearer user.jwt") "64b7f00000000000000000a1" none)
        demoWorld).1.decision ∧
    (runChain [authenticateToken demoCollaborators, requireAdmin, demoWipe]
        (demoRequest (some "Bearer stale.jwt") "64b7f00000000000000000a1" none) demoWorld).1 =
      .respond ⟨403, messageBody "Accès réservé aux administrateurs"⟩ :=
  have h := decisions_use_stored_role demoCollaborators
    (demoRequest (some "Bearer stale.jwt") "64b7f00000000000000000a1" none)
    (demoRequest (some "Bearer user.jwt") "64b7f00000000000000000a1" none) demoWorld
    "stale.jwt" "user.jwt"
    ⟨some "64b7f0000000000000000002", some "guest@food.test", some "admin"⟩
    ⟨some "64b7f0000000000000000002", some "guest@food.test", some "user"⟩
    (by decide) (by decide) (by decide) (by decide) rfl rfl rfl rfl
  ⟨by decide, rfl, h.1, h.2.1,
    (h.2.2.2 (selectWithoutPassword demoUser) rfl (by decide) demoRestaurantController
      demoMenuController .DELETE ["64b7f00000000000000000a1"]
      [authenticateToken demoCollaborators, requireAdmin, demoWipe]
      (Or.inl ⟨Or.inr (Or.inr rfl), Or.inl rfl⟩)).1⟩

/-! ## Registration with a role -/

theorem createUser_admin_created (c : Collaborators) (req : Request) (w : World)
    (u e p : String)
    (hu : bodyText req.body "username" = some u)
    (he : bodyText req.body "email" = some e)
    (hp : bodyText req.body "password" = some p)
    (hrole : bodyText req.body "role" = some "admin")
    (hfree : ∀ x ∈ w.users, x.email ≠ e ∧ x.username ≠ u)
    (hvalid : (UserDraft.mk (some u) (some e) (some (c.bcryptHash p 10))
      (some "admin")).valid = true) :
    ∃ saved w1,
      createUser c req w =
        (.respond ⟨201, .obj [("message", .str "Utilisateur créé avec succès"),
          ("user", .obj (omitKey "password" (identityFields saved)))]⟩, w1) ∧
      w1.users = w.users ++ [saved] ∧
      saved.username = u ∧ saved.email = e ∧ saved.password = some (c.bcryptHash p 10) ∧
      saved.role = "admin" := by
  have hfindOne : w.users.find? (fun x => some x.email == some e ||
      some x.username == some u) = none := by
    rw [List.find?_eq_none]
    intro x hx
    have := hfree x hx
    simp [this.1, this.2]
  have hany : w.users.any (fun x => some x.username == some u || some x.email == some e) =
      false := by
    rw [List.any_eq_false]
    intro x hx
    have := hfree x hx
    simp [this.1, this.2]
  have htruthy : truthy (some "admin") = true := by decide
  refine ⟨⟨c.newObjectId (((w.log .usersFindOne).log (.bcryptHash (some p))).log .usersSave),
    u, e, some (c.bcryptHash p 10), "admin"⟩,
    { ((w.log .usersFindOne).log (.bcryptHash (some p))).log .usersSave with
      users := w.users ++
        [⟨c.newObjectId (((w.log .usersFindOne).log (.bcryptHash (some p))).log .usersSave),
          u, e, some (c.bcryptHash p 10), "admin"⟩] }, ?_, rfl, rfl, rfl, rfl, rfl⟩
  unfold createUser
  simp only [hu, he, hp, hrole, htruthy, if_true, Option.getD_some]
  have h1 : (w.log .usersFindOne).users.find? (fun x => some x.email == some e ||
      some x.username == some u) = none := hfindOne
  simp only [h1, bcryptHash]
  have h2 : usersSave c (((w.log .usersFindOne).log (.bcryptHash (some p))).log .usersSave)
      ⟨some u, some e, some (c.bcryptHash p 10), some "admin"⟩ =
      .ok (⟨c.newObjectId
          (((w.log .usersFindOne).log (.bcryptHash (some p))).log .usersSave),
        u, e, some (c.bcryptHash p 10), "admin"⟩,
        { ((w.log .usersFindOne).log (.bcryptHash (some p))).log .usersSave with
          users := w.users ++ [⟨c.newObjectId
            (((w.log .usersFindOne).log (.bcryptHash (some p))).log .usersSave),
            u, e, some (c.bcryptHash p 10), "admin"⟩] }) := by
    unfold usersSave
    have h3 : (((w.log .usersFindOne).log (.bcryptHash (some p))).log .usersSave).users.any
        (fun x => some x.username == some u || some x.email == some e) = false := hany
    simp only [hvalid, h3]
    rfl
  simp only [h2]

theorem loginUser_of_stored (c : Collaborators) (req : Request) (w1 : World)
    (users0 : List Identity) (saved : Identity) (e p hash : String)
    (husers : w1.users = users0 ++ [saved])
    (hnone : ∀ x ∈ users0, x.email ≠ e)
    (hemail : saved.email = e) (hpw : saved.password = some hash)
    (hle : bodyText req.body "email" = some e) (hlp : bodyText req.body "password" = some p)
    (hcmp : c.bcryptCompare p hash = true) :
    loginUser c req w1 =
      (.respond ⟨200, .obj [("message", .str "Connexion réussie"),
        ("user", .obj (omitKey "password" (identityFields saved))),
        ("token", .str (loginToken c saved))]⟩,
        ((w1.log .usersFindOne).log .bcryptCompare).log (.jwtSign (loginPayload saved))) := by
  have hfind : (w1.log .usersFindOne).users.find? (fun x => some x.email == some e) =
      some saved := by
    have h0 : users0.find? (fun x => some x.email == some e) = none := by
      rw [List.find?_eq_none]
      intro x hx
      simp [hnone x hx]
    show w1.users.find? _ = _
    rw [husers, List.find?_append, h0]
    simp [List.find?, hemail]
  unfold loginUser
  simp only [hle, hlp, hfind, hpw, bcryptCompare, hcmp]
  rfl

theorem gate_passes_admin (c : Collaborators) (req : Request) (w2 : World)
    (users0 : List Identity) (saved : Identity) (token : String) (payload : TokenPayload)
    (husers : w2.users = users0 ++ [saved])
    (hrole : saved.role = "admin")
    (hauthz : req.authorization = some ("Bearer " ++ token))
    (hsp : ' ' ∉ token.data) (hne : token ≠ "")
    (hver : c.jwtVerify token (jwtSecret c) = some payload)
    (hpid : payload.userId = some saved._id.toString)
    (hcast : c.castObjectId saved._id.toString = some saved._id)
    (hfresh : ∀ x ∈ users0, x._id ≠ saved._id) :
    runChain [authenticateToken c, requireAdmin] req w2 =
      (.next { req with user := some (selectWithoutPassword saved) },
        (w2.log (.jwtVerify token (jwtSecret c))).log (.usersFindById payload.userId)) := by
  have hfind : usersFindById c w2 payload.userId = .ok (some (selectWithoutPassword saved)) := by
    have h0 : users0.find? (fun x => x._id = saved._id) = none := by
      rw [List.find?_eq_none]
      intro x hx
      simpa using hfresh x hx
    simp [hpid, usersFindById, hcast, husers, List.find?_append, h0]
  have htok : extractToken req.authorization = some token := by
    rw [hauthz, extractToken_bearer_chars, takeWhile_ne_of_not_mem ' ' _ hsp]
  have hauth := authenticateToken_identity_found c req w2 token payload _ htok hne hver hfind
  have hr : (selectWithoutPassword saved).role = "admin" := hrole
  simp [runChain, hauth, requireAdmin, hr]

/-- C28: `POST /users/register` runs `createUser` with no middleware before it, and
`createUser` takes the role from the body. For a body with role `admin`, a username and an
email that no stored identity has, and values that pass the schema's validators, the response
is 201 and the identity appended to the store has role `admin`. A following `loginUser` with
that email and password (accepted by `bcrypt.compare`) answers 200 with the token signed for
the payload `{ userId, email, role }` of that identity; and a request carrying that token as
its bearer token (the token verifying to the payload that was signed, the id being castable
back and new in the store) is passed on by `authenticateToken` and by `requireAdmin`. -/
theorem register_admin_passes_gate (c : Collaborators) (reqCreate reqLogin reqNext : Request)
    (w : World) (u e p : String)
    (hu : bodyText reqCreate.body "username" = some u)
    (he : bodyText reqCreate.body "email" = some e)
    (hp : bodyText reqCreate.body "password" = some p)
    (hrole : bodyText reqCreate.body "role" = some "admin")
    (hfree : ∀ x ∈ w.users, x.email ≠ e ∧ x.username ≠ u)
    (hvalid : (UserDraft.mk (some u) (some e) (some (c.bcryptHash p 10))
      (some "admin")).valid = true) :
    userRouter c .POST ["register"] = some [createUser c] ∧
    ∃ saved w1,
      createUser c reqCreate w =
        (.respond ⟨201, .obj [("message", .str "Utilisateur créé avec succès"),
          ("user", .obj (omitKey "password" (identityFields saved)))]⟩, w1) ∧
      w1.users = w.users ++ [saved] ∧
      saved.username = u ∧ saved.email = e ∧ saved.role = "admin" ∧
      (loginPayload saved).role = some "admin" ∧
      (bodyText reqLogin.body "email" = some e →
        bodyText reqLogin.body "password" = some p →
        c.bcryptCompare p (c.bcryptHash p 10) = true →
        ∃ w2,
          loginUser c reqLogin w1 =
            (.respond ⟨200, .obj [("message", .str "Connexion réussie"),
              ("user", .obj (omitKey "password" (identityFields saved))),
              ("token", .str (loginToken c saved))]⟩, w2) ∧
          w2.users = w1.users ∧
          (reqNext.authorization = some ("Bearer " ++ loginToken c saved) →
            ' ' ∉ (loginToken c saved).data → loginToken c saved ≠ "" →
            c.jwtVerify (loginToken c saved) (jwtSecret c) = some (loginPayload saved) →
            c.castObjectId saved._id.toString = some saved._id →
            (∀ x ∈ w.users, x._id ≠ saved._id) →
            ∃ w3, runChain [authenticateToken c, requireAdmin] reqNext w2 =
              (.next { reqNext with user := some (selectWithoutPassword saved) }, w3))) := by
  refine ⟨rfl, ?_⟩
  obtain ⟨saved, w1, hcreate, husers, hsu, hse, hspw, hsr⟩ :=
    createUser_admin_created c reqCreate w u e p hu he hp hrole hfree hvalid
  refine ⟨saved, w1, hcreate, husers, hsu, hse, hsr, by rw [loginPayload, hsr], ?_⟩
  intro hle hlp hcmp
  refine ⟨_, loginUser_of_stored c reqLogin w1 w.users saved e p _ husers
    (fun x hx => (hfree x hx).1) hse hspw hle hlp hcmp, husers ▸ rfl, ?_⟩
  intro hauthz hsp hne hver hcast hfresh
  exact ⟨_, gate_passes_admin c reqNext _ w.users saved _ _ husers hsr hauthz hsp hne hver rfl
    hcast hfresh⟩

theorem register_admin_passes_gate_witness :
    (demoBodyRequest none "x" demoRootRegistration).authorization = none ∧
    (demoBodyRequest none "x" demoRootRegistration).user = none ∧
    (createUser demoCollaborators (demoBodyRequest none "x" demoRootRegistration)
      demoEmptyWorld).2.users = [demoRoot] ∧
    demoRoot.role = "admin" ∧
    loginToken demoCollaborators demoRoot = "64b7f0000000000000001000.jwt" ∧
    (runChain [authenticateToken demoCollaborators, requireAdmin]
      (demoRequest (some "Bearer 64b7f0000000000000001000.jwt") "x" none)
      (loginUser demoCollaborators (demoBodyRequest none "x" demoRootRegistration)
        (createUser demoCollaborators (demoBodyRequest none "x" demoRootRegistration)
          demoEmptyWorld).2).2).1.decision = .pass (some (selectWithoutPassword demoRoot)) ∧
    (userRouter demoCollaborators .POST ["register"] = some [createUser demoCollaborators] ∧
    ∃ saved w1,
      createUser demoCollaborators (demoBodyRequest none "x" demoRootRegistration)
          demoEmptyWorld =
        (.respond ⟨201, .obj [("message", .str "Utilisateur créé avec succès"),
          ("user", .obj (omitKey "password" (identityFields saved)))]⟩, w1) ∧
      w1.users = demoEmptyWorld.users ++ [saved] ∧
      saved.username = "root" ∧ saved.email = "root@food.test" ∧ saved.role = "admin" ∧
      (loginPayload saved).role = some "admin" ∧
      (bodyText (demoBodyRequest none "x" demoRootRegistration).body "email" =
          some "root@food.test" →
        bodyText (demoBodyRequest none "x" demoRootRegistration).body "password" =
          some "secret123" →
        demoCollaborators.bcryptCompare "secret123"
          (demoCollaborators.bcryptHash "secret123" 10) = true →
        ∃ w2,
          loginUser demoCollaborators (demoBodyRequest none "x" demoRootRegistration) w1 =
            (.respond ⟨200, .obj [("message", .str "Connexion réussie"),
              ("user", .obj (omitKey "password" (identityFields saved))),
              ("token", .str (loginToken demoCollaborators saved))]⟩, w2) ∧
          w2.users = w1.users ∧
          ((demoRequest (some "Bearer 64b7f0000000000000001000.jwt") "x" none).authorization =
              some ("Bearer " ++ loginToken demoCollaborators saved) →
            ' ' ∉ (loginToken demoCollaborators saved).data →
            loginToken demoCollaborators saved ≠ "" →
            demoCollaborators.jwtVerify (loginToken demoCollaborators saved)
              (jwtSecret demoCollaborators) = some (loginPayload saved) →
            demoCollaborators.castObjectId saved._id.toString = some saved._id →
            (∀ x ∈ demoEmptyWorld.users, x._id ≠ saved._id) →
            ∃ w3, runChain [authenticateToken demoCollaborators, requireAdmin]
                (demoRequest (some "Bearer 64b7f0000000000000001000.jwt") "x" none) w2 =
              (.next { demoRequest (some "Bearer 64b7f0000000000000001000.jwt") "x" none with
                user := some (selectWithoutPassword saved) }, w3)))) :=
  ⟨rfl, rfl, by decide, rfl, by decide, rfl,
    register_admin_passes_gate demoCollaborators
      (demoBodyRequest none "x" demoRootRegistration)
      (demoBodyRequest none "x" demoRootRegistration)
      (demoRequest (some "Bearer 64b7f0000000000000001000.jwt") "x" none) demoEmptyWorld
      "root" "root@food.test" "secret123" (by decide) (by decide) (by decide) (by decide)
      (fun x hx => absurd hx (List.not_mem_nil x)) (by decide)⟩

/-! ## Meaning of the paging flags -/

theorem hasNextPage_iff (p : Paging) (total : Nat) (hlimit : 1 ≤ p.limit) :
    (paginationInfo p total).hasNextPage = true ↔ p.page * p.limit < total := by
  have hq : (0 : ℚ) < (p.limit : ℚ) := by exact_mod_cast hlimit
  have hdef : (paginationInfo p total).hasNextPage =
      decide (p.page < ⌈((total : Int) : ℚ) / (p.limit : ℚ)⌉) := rfl
  rw [hdef, decide_eq_true_iff, Int.lt_ceil, lt_div_iff₀ hq]
  exact_mod_cast Iff.rfl

theorem hasPrevPage_iff (p : Paging) (total : Nat) :
    (paginationInfo p total).hasPrevPage = true ↔ 1 < p.page := by
  have hdef : (paginationInfo p total).hasPrevPage = decide (p.page > 1) := rfl
  rw [hdef, decide_eq_true_iff]

theorem listing_pagination_field (c : Collaborators) (req : Request) (w w1 : World)
    (res : Response) (hstatus : res.status = 200)
    (h : getAllRestaurants c req w = (.respond res, w1) ∨
      getAllMenus c req w = (.respond res, w1) ∨
      getMenusByRestaurant c req w = (.respond res, w1)) :
    ∃ (n : Nat) (key : String), (key = "totalRestaurants" ∨ key = "totalMenus") ∧
      res.body.field "pagination" =
        some (paginationJson key (paginationInfo (parsePaging req.query) n)) := by
  rcases h with h | h | h
  · unfold getAllRestaurants at h
    simp only at h
    split at h
    · simp only [Prod.mk.injEq, Outcome.respond.injEq] at h
      rw [← h.1] at hstatus
      simp at hstatus
    · split at h
      · simp only [Prod.mk.injEq, Outcome.respond.injEq] at h
        rw [← h.1] at hstatus
        simp at hstatus
      · next total hcount =>
        simp only [Prod.mk.injEq, Outcome.respond.injEq] at h
        refine ⟨total, "totalRestaurants", Or.inl rfl, ?_⟩
        rw [← h.1]
        simp [Json.field, List.lookup]
  · unfold getAllMenus at h
    simp only at h
    split at h
    · simp only [Prod.mk.injEq, Outcome.respond.injEq] at h
      rw [← h.1] at hstatus
      simp at hstatus
    · split at h
      · simp only [Prod.mk.injEq, Outcome.respond.injEq] at h
        rw [← h.1] at hstatus
        simp at hstatus
      · next total hcount =>
        simp only [Prod.mk.injEq, Outcome.respond.injEq] at h
        refine ⟨total, "totalMenus", Or.inr rfl, ?_⟩
        rw [← h.1]
        simp [Json.field, List.lookup]
  · unfold getMenusByRestaurant at h
    simp only at h
    split at h
    · simp only [Prod.mk.injEq, Outcome.respond.injEq] at h
      rw [← h.1] at hstatus
      simp at hstatus
    · simp only [Prod.mk.injEq, Outcome.respond.injEq] at h
      rw [← h.1] at hstatus
      simp at hstatus
    · split at h
      · simp only [Prod.mk.injEq, Outcome.respond.injEq] at h
        rw [← h.1] at hstatus
        simp at hstatus
      · split at h
        · simp only [Prod.mk.injEq, Outcome.respond.injEq] at h
          rw [← h.1] at hstatus
          simp at hstatus
        · next total hcount =>
          simp only [Prod.mk.injEq, Outcome.respond.injEq] at h
          refine ⟨total, "totalMenus", Or.inr rfl, ?_⟩
          rw [← h.1]
          simp [Json.field, List.lookup]

/-- C29: let the effective page and the effective limit of a request both be at least 1. For
every total count, `hasNextPage` is true exactly when `page * limit < total`, `hasPrevPage` is
true exactly when `page > 1`, and `page > 1` exactly when `skip > 0`. Every 200 response of
`getAllRestaurants`, `getAllMenus` and `getMenusByRestaurant` carries the pagination object
built from the effective paging and the count `n` of matching records, so its `hasNextPage`
is the truth value of `page * limit < n` and its `hasPrevPage` that of `page > 1`. -/
theorem paging_flags_meaning (c : Collaborators) (req : Request) (w : World)
    (hpage : 1 ≤ (parsePaging req.query).page) (hlimit : 1 ≤ (parsePaging req.query).limit) :
    (∀ total : Nat,
      ((paginationInfo (parsePaging req.query) total).hasNextPage = true ↔
        (parsePaging req.query).page * (parsePaging req.query).limit < total) ∧
      ((paginationInfo (parsePaging req.query) total).hasPrevPage = true ↔
        1 < (parsePaging req.query).page)) ∧
    (1 < (parsePaging req.query).page ↔ 0 < (parsePaging req.query).skip) ∧
    (∀ res w1, res.status = 200 →
      (getAllRestaurants c req w = (.respond res, w1) ∨
        getAllMenus c req w = (.respond res, w1) ∨
        getMenusByRestaurant c req w = (.respond res, w1)) →
      ∃ n : Nat,
        (res.body.field "pagination").bind (fun pg => pg.field "hasNextPage") =
          some (.bool (decide
            ((parsePaging req.query).page * (parsePaging req.query).limit < n))) ∧
        (res.body.field "pagination").bind (fun pg => pg.field "hasPrevPage") =
          some (.bool (decide (1 < (parsePaging req.query).page)))) := by
  refine ⟨fun total => ⟨hasNextPage_iff _ total hlimit, hasPrevPage_iff _ total⟩, ?_, ?_⟩
  · have hskip : (parsePaging req.query).skip =
        toNumber (toNumber ((parsePaging req.query).page - 1) *
          (parsePaging req.query).limit) := rfl
    rw [hskip, toNumber_pos_iff]
    constructor
    · intro h
      exact Int.mul_pos ((toNumber_pos_iff _).mpr (by omega)) (by omega)
    · intro h
      by_contra hn
      have h0 : ¬ 0 < toNumber ((parsePaging req.query).page - 1) := by
        rw [toNumber_pos_iff]
        omega
      have h1 : toNumber ((parsePaging req.query).page - 1) ≤ 0 := by omega
      have h2 : 0 ≤ (parsePaging req.query).limit := by omega
      have := Int.mul_nonpos_of_nonpos_of_nonneg h1 h2
      omega
  · intro res w1 hstatus h
    obtain ⟨n, key, hkey, hfield⟩ := listing_pagination_field c req w w1 res hstatus h
    refine ⟨n, ?_, ?_⟩
    · rw [hfield]
      have hb : (paginationInfo (parsePaging req.query) n).hasNextPage =
          decide ((parsePaging req.query).page * (parsePaging req.query).limit < n) := by
        rw [Bool.eq_iff_iff, hasNextPage_iff _ n hlimit, decide_eq_true_iff]
      rcases hkey with rfl | rfl <;>
        simp [paginationJson, Json.field, List.lookup, hb]
    · rw [hfield]
      have hb : (paginationInfo (parsePaging req.query) n).hasPrevPage =
          decide (1 < (parsePaging req.query).page) := by
        rw [Bool.eq_iff_iff, hasPrevPage_iff _ n, decide_eq_true_iff]
      rcases hkey with rfl | rfl <;>
        simp [paginationJson, Json.field, List.lookup, hb]

theorem paging_flags_meaning_witness :
    1 ≤ (parsePaging (demoListRequest "x" [("page", .text "2"), ("limit", .text "5")]).query).page ∧
    1 ≤ (parsePaging (demoListRequest "x" [("page", .text "2"), ("limit", .text "5")]).query).limit ∧
    (parsePaging (demoListRequest "x" [("page", .text "2"), ("limit", .text "5")]).query).page *
      (parsePaging (demoListRequest "x" [("page", .text "2"), ("limit", .text "5")]).query).limit
        < (11 : Nat) ∧
    (paginationInfo (parsePaging
      (demoListRequest "x" [("page", .text "2"), ("limit", .text "5")]).query)
        (11 : Nat)).hasNextPage = true ∧
    (paginationInfo (parsePaging
      (demoListRequest "x" [("page", .text "2"), ("limit", .text "5")]).query)
        (11 : Nat)).hasPrevPage = true ∧
    0 < (parsePaging (demoListRequest "x" [("page", .text "2"), ("limit", .text "5")]).query).skip :=
  have h := paging_flags_meaning demoCollaborators
    (demoListRequest "x" [("page", .text "2"), ("limit", .text "5")]) demoWorld
    (by decide) (by decide)
  ⟨by decide, by decide, by decide, ((h.1 11).1).mpr (by decide), ((h.1 11).2).mpr (by decide),
    h.2.1.mp (by decide)⟩

/-! ## Failures inside `authenticateToken` -/

/-- C30: for every request whose token verifies, when the identity lookup throws,
`authenticateToken` answers 403 "Token invalide ou expiré": it does not call `next`, so no
identity is attached, and the store is unchanged. A token that `jwt.verify` rejects gets the
same 403. Whatever happens inside the middleware it never throws, and every response it sends
is a 401 or that 403, never a 500. -/
theorem authenticateToken_storage_failure (c : Collaborators) (req : Request) (w : World) :
    (∀ tok decoded e, extractToken req.authorization = some tok → tok ≠ "" →
      c.jwtVerify tok (jwtSecret c) = some decoded →
      usersFindById c w decoded.userId = .error e →
      authenticateToken c req w =
        (.respond ⟨403, messageBody "Token invalide ou expiré"⟩,
          (w.log (.jwtVerify tok (jwtSecret c))).log (.usersFindById decoded.userId))) ∧
    (∀ tok, extractToken req.authorization = some tok → tok ≠ "" →
      c.jwtVerify tok (jwtSecret c) = none →
      authenticateToken c req w =
        (.respond ⟨403, messageBody "Token invalide ou expiré"⟩,
          w.log (.jwtVerify tok (jwtSecret c)))) ∧
    (∀ w1, authenticateToken c req w ≠ (.throws, w1)) ∧
    (∀ res w1, authenticateToken c req w = (.respond res, w1) →
      (res.status = 401 ∨
        (res.status = 403 ∧ res.body = messageBody "Token invalide ou expiré")) ∧
      w1.users = w.users ∧ w1.restaurants = w.restaurants ∧ w1.menus = w.menus) := by
  refine ⟨?_, ?_, ?_, ?_⟩
  · intro tok decoded e htok hne hver hfind
    rw [authenticateToken_verified c req w tok decoded htok hne hver, hfind]
  · intro tok htok hne hver
    have ht : truthy (some tok) = true := (truthy_some_iff tok).mpr hne
    simp [authenticateToken, htok, ht, hver]
  · intro w1 h
    unfold authenticateToken at h
    simp only at h
    split at h
    · cases h
    · split at h
      · cases h
      · split at h
        · cases h
        · cases h
        · cases h
  · intro res w1 h
    unfold authenticateToken at h
    simp only at h
    split at h
    · simp only [Prod.mk.injEq, Outcome.respond.injEq] at h
      rw [← h.1, ← h.2]
      exact ⟨Or.inl rfl, rfl, rfl, rfl⟩
    · split at h
      · simp only [Prod.mk.injEq, Outcome.respond.injEq] at h
        rw [← h.1, ← h.2]
        exact ⟨Or.inr ⟨rfl, rfl⟩, rfl, rfl, rfl⟩
      · split at h
        · simp only [Prod.mk.injEq, Outcome.respond.injEq] at h
          rw [← h.1, ← h.2]
          exact ⟨Or.inr ⟨rfl, rfl⟩, rfl, rfl, rfl⟩
        · simp only [Prod.mk.injEq, Outcome.respond.injEq] at h
          rw [← h.1, ← h.2]
          exact ⟨Or.inl rfl, rfl, rfl, rfl⟩
        · simp only [Prod.mk.injEq] at h
          cases h.1

theorem authenticateToken_storage_failure_witness :
    extractToken (demoRequest (some "Bearer legacy.jwt") "x" none).authorization =
      some "legacy.jwt" ∧
    demoCollaborators.jwtVerify "legacy.jwt" (jwtSecret demoCollaborators) =
      some ⟨some "42", some "old@food.test", some "user"⟩ ∧
    usersFindById demoCollaborators demoWorld (some "42") = .error "CastError" ∧
    authenticateToken demoCollaborators (demoRequest (some "Bearer legacy.jwt") "x" none)
        demoWorld =
      (.respond ⟨403, messageBody "Token invalide ou expiré"⟩,
        (demoWorld.log (.jwtVerify "legacy.jwt" (jwtSecret demoCollaborators))).log
          (.usersFindById (some "42"))) :=
  ⟨by decide, rfl, rfl,
    (authenticateToken_storage_failure demoCollaborators
      (demoRequest (some "Bearer legacy.jwt") "x" none) demoWorld).1 "legacy.jwt"
      ⟨some "42", some "old@food.test", some "user"⟩ "CastError" (by decide) (by decide)
      rfl rfl⟩

end FoodExpress
